import Mathlib

/-!
# C2SoftVpxEnc: encoder session state machine

A shallow embedding of `media/codec2/components/vpx/C2SoftVpxEnc.cpp`.

* Member variables of the component become the fields of `State`.
* The configuration interface (`mIntf`) becomes the record `Intf`; parameters are
  held through shared pointers, modelled as an address together with the value
  stored there, because the component compares parameters by pointer.
* Everything outside the file (the engine, the block pool, the image helpers,
  the codec specific subclass hooks) answers through the record `Env`, and every
  call made to it is appended to a trace of `Event`s.
* Unsigned machine integers are natural numbers reduced modulo `2^32` or `2^64`
  where the source can wrap.
* `float` and `double` values are rationals; a `float` parameter is rounded to
  binary32 where it is read, and every arithmetic operation and conversion is
  followed by the IEEE 754 rounding to nearest, ties to even (`f32`, `f64`); a
  conversion to `uint32_t` truncates toward zero (`castUInt32`). Infinities and
  NaN are not represented.
-/

namespace C2SoftVpxEnc

/-! ## Result codes -/

/-- Status codes of the component framework (`c2_status_t`). -/
inductive c2_status_t
  | C2_OK
  | C2_BAD_VALUE
  | C2_BAD_INDEX
  | C2_CANNOT_DO
  | C2_DUPLICATE
  | C2_NOT_FOUND
  | C2_BAD_STATE
  | C2_BLOCKING
  | C2_NO_MEMORY
  | C2_REFUSED
  | C2_TIMED_OUT
  | C2_OMITTED
  | C2_CORRUPTED
  | C2_NO_INIT
  deriving DecidableEq, Repr

/-- Return type of `initEncoder` (`status_t`); only these two values occur. -/
inductive status_t
  | OK
  | UNKNOWN_ERROR
  deriving DecidableEq, Repr

/-- Engine error code (`vpx_codec_err_t`); `VPX_CODEC_OK` is zero. -/
abbrev vpx_codec_err_t := Nat

/-- Success value of `vpx_codec_err_t`. -/
def VPX_CODEC_OK : vpx_codec_err_t := 0

/-! ## Constants declared in headers outside the file -/

/-- Modelled from the spec: the engine frame flag "do not reference the golden
frame"; the value is the one of the engine header. -/
def VP8_EFLAG_NO_REF_GF : Nat := 1 <<< 17

/-- Modelled from the spec: engine frame flag "do not reference the alternate
reference frame" (engine header value). -/
def VP8_EFLAG_NO_REF_ARF : Nat := 1 <<< 21

/-- Modelled from the spec: engine frame flag "do not update the last frame"
(engine header value). -/
def VP8_EFLAG_NO_UPD_LAST : Nat := 1 <<< 18

/-- Modelled from the spec: engine frame flag "do not update the golden frame"
(engine header value). -/
def VP8_EFLAG_NO_UPD_GF : Nat := 1 <<< 22

/-- Modelled from the spec: engine frame flag "do not update the alternate
reference frame" (engine header value). -/
def VP8_EFLAG_NO_UPD_ARF : Nat := 1 <<< 23

/-- Modelled from the spec: engine frame flag "do not update the entropy
context" (engine header value). -/
def VP8_EFLAG_NO_UPD_ENTROPY : Nat := 1 <<< 20

/-- Modelled from the spec: engine frame flag "force a key frame" (engine header
value). -/
def VPX_EFLAG_FORCE_KF : Nat := 1 <<< 0

/-- Modelled from the spec: packet flag with which the engine marks a key frame
(engine header value). -/
def VPX_FRAME_IS_KEY : Nat := 1

/-- Modelled from the spec: the end-of-stream bit of `C2FrameData::flags_t`
(framework header value). -/
def FLAG_END_OF_STREAM : Nat := 1 <<< 1

/-- Largest `int32_t`, as defined at the top of the file. -/
def INT32_MAX : Nat := 2147483647

/-- Largest `uint32_t`. -/
def UINT32_MAX : Nat := 4294967295

/-- Largest `int64_t`. -/
def INT64_MAX : Int := 9223372036854775807

/-- Modulus of `uint32_t` arithmetic. -/
def U32 : Nat := 2 ^ 32

/-- Modulus of `uint64_t` and `size_t` arithmetic. -/
def U64 : Nat := 2 ^ 64

/-- The "unset" value of `mLastTimestamp`, `0x7FFFFFFFFFFFFFFF`. -/
def kLastTimestampUnset : Nat := 0x7FFFFFFFFFFFFFFF

/-! ## Floating-point arithmetic -/

/-- Rounding of a rational to the nearest integer, a tie going to the even
neighbour. -/
def roundHalfEven (q : ℚ) : Int :=
  if q - q.floor < 1 / 2 then q.floor
  else if 1 / 2 < q - q.floor then q.floor + 1
  else if q.floor % 2 = 0 then q.floor else q.floor + 1

/-- The product `q * 2^e` for an integer exponent `e`. -/
def scale2 (q : ℚ) (e : Int) : ℚ :=
  if 0 ≤ e then q * ((2 ^ e.toNat : Nat) : ℚ) else q / ((2 ^ (-e).toNat : Nat) : ℚ)

/-- Number of binary digits of `m`, by halving at most `fuel` times. -/
def bitLenAux : Nat → Nat → Nat
  | 0, _ => 0
  | fuel + 1, m => if m = 0 then 0 else bitLenAux fuel (m / 2) + 1

/-- Number of binary digits of `n` (0 for 0). -/
def bitLen (n : Nat) : Nat := bitLenAux n n

/-- The binary exponent of a positive rational `a`: the `e` with
`2^e ≤ a < 2^(e+1)`. The difference of the digit counts of numerator and
denominator is `e` or `e + 1`. -/
def binadeExp (a : ℚ) : Int :=
  let e0 : Int := (bitLen a.num.natAbs : Int) - (bitLen a.den : Int)
  if scale2 1 e0 ≤ a then e0 else e0 - 1

/-- IEEE 754 rounding to nearest, ties to even, onto the binary format with
`prec` significant bits and least normal exponent `emin` (below `2^emin` the
spacing stays `2^(emin - prec + 1)`: subnormal numbers). The exponent range is
not bounded above: a result beyond the largest finite number of the format,
where the machine yields infinity, is kept as a number. -/
def roundFloat (prec : Nat) (emin : Int) (q : ℚ) : ℚ :=
  if q = 0 then 0
  else
    let ex : Int := max (binadeExp |q| - ((prec : Int) - 1)) (emin - ((prec : Int) - 1))
    let v : ℚ := scale2 (roundHalfEven (scale2 |q| (-ex)) : ℚ) ex
    if q < 0 then -v else v

/-- Rounding to `float` (binary32): the result of every single-precision
operation and of every conversion to `float`. -/
def f32 (q : ℚ) : ℚ := roundFloat 24 (-126) q

/-- Rounding to `double` (binary64): the result of every double-precision
operation and of every conversion to `double`. -/
def f64 (q : ℚ) : ℚ := roundFloat 53 (-1022) q

/-- The conversion `(uint32_t)x` of a floating-point value: the fraction is
dropped (truncation toward zero). For a value outside `[0, 2^32)` C++ defines no
result; the model takes the wrap modulo `2^32` of the truncated value, which is
what the conversion through a 64-bit integer yields. -/
def castUInt32 (q : ℚ) : Nat :=
  ((if 0 ≤ q then q.floor else q.ceil) % (U32 : Int)).toNat

/-! ## Configuration parameters -/

/-- A `std::shared_ptr` to a parameter object: the address of the object and the
value stored there. Address 0 is the null pointer, whose value is a placeholder
that the component never reads. -/
structure SharedPtr (α : Type) where
  addr : Nat
  value : α

/-- Pointer comparison `a != b` of two shared pointers. -/
def SharedPtr.ne {α : Type} (a b : SharedPtr α) : Bool := a.addr != b.addr

/-- Null shared pointer. -/
def SharedPtr.null {α : Type} [Inhabited α] : SharedPtr α := ⟨0, default⟩

/-- Value of `C2StreamPictureSizeInfo`. -/
structure PictureSize where
  width : Nat
  height : Nat
  deriving DecidableEq, Repr, Inhabited

/-- Values of `C2Config::bitrate_mode_t` that matter here. -/
inductive bitrate_mode_t
  | BITRATE_CONST
  | BITRATE_VARIABLE
  | BITRATE_IGNORE
  deriving DecidableEq, Repr, Inhabited

/-- Value of `C2StreamIntraRefreshTuning`. -/
structure IntraRefresh where
  mode : Nat
  period : ℚ
  deriving DecidableEq, Inhabited

/-- Value of `C2StreamTemporalLayeringTuning`: the two counts and the flexible
array of bitrate ratios. -/
structure Layering where
  layerCount : Nat
  bLayerCount : Nat
  bitrateRatios : List ℚ
  deriving DecidableEq, Inhabited

/-- Value of `C2StreamColorAspectsInfo`. -/
structure ColorAspects where
  range : Nat
  primaries : Nat
  transfer : Nat
  matrix : Nat
  deriving DecidableEq, Repr, Inhabited

/-- The parameters held by `IntfImpl`, and a counter `fresh` from which the
address of the next parameter object is taken when a parameter is replaced. -/
structure Intf where
  mSize : SharedPtr PictureSize
  mBitrateMode : SharedPtr bitrate_mode_t
  mFrameRate : SharedPtr ℚ
  mLayering : SharedPtr Layering
  mSyncFramePeriod : SharedPtr Int
  mBitrate : SharedPtr Nat
  mIntraRefresh : SharedPtr IntraRefresh
  mRequestSync : SharedPtr Nat
  mCodedColorAspects : SharedPtr ColorAspects
  fresh : Nat

/-! ## Engine data -/

/-- Rate control modes of the engine (`vpx_rc_mode`). -/
inductive vpx_rc_mode
  | VPX_VBR
  | VPX_CBR
  | VPX_CQ
  | VPX_Q
  deriving DecidableEq, Repr

/-- Key frame placement modes (`vpx_kf_mode`). -/
inductive vpx_kf_mode
  | VPX_KF_FIXED
  | VPX_KF_AUTO
  deriving DecidableEq, Repr

/-- Encoding passes (`vpx_enc_pass`). -/
inductive vpx_enc_pass
  | VPX_RC_ONE_PASS
  | VPX_RC_FIRST_PASS
  | VPX_RC_LAST_PASS
  deriving DecidableEq, Repr

/-- The fields of `vpx_codec_enc_cfg_t` that the component touches. The three
`ts_` arrays are functions from the index. -/
structure vpx_codec_enc_cfg_t where
  g_profile : Nat
  g_w : Nat
  g_h : Nat
  g_threads : Nat
  g_error_resilient : Nat
  g_timebase_num : Nat
  g_timebase_den : Nat
  g_pass : vpx_enc_pass
  g_lag_in_frames : Nat
  rc_target_bitrate : Nat
  rc_end_usage : vpx_rc_mode
  rc_dropframe_thresh : Nat
  rc_resize_allowed : Nat
  rc_undershoot_pct : Nat
  rc_overshoot_pct : Nat
  rc_buf_initial_sz : Nat
  rc_buf_optimal_sz : Nat
  rc_buf_sz : Nat
  rc_min_quantizer : Nat
  rc_max_quantizer : Nat
  kf_mode : vpx_kf_mode
  kf_min_dist : Nat
  kf_max_dist : Nat
  ts_number_layers : Nat
  ts_target_bitrate : Nat → Nat
  ts_rate_decimator : Nat → Nat
  ts_periodicity : Nat
  ts_layer_id : Nat → Nat

/-- The fields of `vpx_image_t` that the component sets or that `vpx_img_wrap`
derives from its arguments. -/
structure vpx_image_t where
  w : Nat
  h : Nat
  d_w : Nat
  d_h : Nat
  plane0 : Nat
  plane1 : Nat
  plane2 : Nat
  stride0 : Int
  stride1 : Int
  stride2 : Int
  deriving DecidableEq, Repr

/-- One packet returned by `vpx_codec_get_cx_data`: whether its kind is
`VPX_CODEC_CX_FRAME_PKT`, and the frame payload, its size, presentation time and
flags. -/
structure vpx_codec_cx_pkt_t where
  isFramePkt : Bool
  buf : List Nat
  sz : Nat
  pts : Nat
  flags : Nat
  deriving DecidableEq, Repr

/-- Controls set through `vpx_codec_control` in this file. -/
inductive vp8e_enc_control_id
  | VP8E_SET_STATIC_THRESHOLD
  | VP8E_SET_MAX_INTRA_BITRATE_PCT
  | VP8E_SET_CPUUSED
  deriving DecidableEq, Repr

/-! ## Temporal layering -/

/-- The frame directives handled by `getEncodeFlags` (`TemporalReferences`). -/
inductive TemporalReferences
  | kTemporalUpdateLast
  | kTemporalUpdateGoldenWithoutDependency
  | kTemporalUpdateGolden
  | kTemporalUpdateAltrefWithoutDependency
  | kTemporalUpdateAltref
  | kTemporalUpdateNoneNoRefAltref
  | kTemporalUpdateNone
  | kTemporalUpdateNoneNoRefGoldenRefAltRef
  | kTemporalUpdateGoldenWithoutDependencyRefAltRef
  | kTemporalUpdateLastRefAltRef
  | kTemporalUpdateGoldenRefAltRef
  | kTemporalUpdateLastAndGoldenRefAltRef
  | kTemporalUpdateLastRefAll
  deriving DecidableEq, Repr

/-- Assignment `a[i] = v` to a C array modelled as a function of the index. -/
def arrSet {α : Type} (a : Nat → α) (i : Nat) (v : α) : Nat → α :=
  fun j => if j = i then v else a j

/-! ## Component state -/

/-- The scratch block `mConversionBuffer`: its address and its size in bytes
(size 0 is the empty block). -/
structure MemoryBlock where
  data : Nat
  size : Nat
  deriving DecidableEq, Repr

/-- Member variables of `C2SoftVpxEnc`. A pointer that is only tested against
null is a boolean (`true` is non-null). An entry of `mTemporalPattern` that was
never assigned is `none`. -/
structure State where
  mCodecContext : Bool
  mCodecConfiguration : Option vpx_codec_enc_cfg_t
  mCodecInterface : Bool
  mStrideAlign : Nat
  mBitrateControlMode : vpx_rc_mode
  mErrorResilience : Bool
  mMinQuantizer : Nat
  mMaxQuantizer : Nat
  mTemporalLayers : Nat
  mTemporalPattern : Nat → Option TemporalReferences
  mTemporalPatternLength : Nat
  mTemporalPatternIdx : Nat
  mTemporalLayerBitrateRatio : Nat → ℚ
  mLastTimestamp : Nat
  mSignalledOutputEos : Bool
  mSignalledError : Bool
  mConversionBuffer : MemoryBlock
  mNumInputFrames : Int
  mSize : SharedPtr PictureSize
  mBitrate : SharedPtr Nat
  mBitrateMode : SharedPtr bitrate_mode_t
  mFrameRate : SharedPtr ℚ
  mIntraRefresh : SharedPtr IntraRefresh
  mRequestSync : SharedPtr Nat
  mLayering : SharedPtr Layering

/-- State set up by the constructor `C2SoftVpxEnc::C2SoftVpxEnc`: the loop at its
end sets every layer ratio to 1. Members without an initializer are null or
empty. -/
def construct : State where
  mCodecContext := false
  mCodecConfiguration := none
  mCodecInterface := false
  mStrideAlign := 2
  mBitrateControlMode := .VPX_VBR
  mErrorResilience := false
  mMinQuantizer := 0
  mMaxQuantizer := 0
  mTemporalLayers := 0
  mTemporalPattern := fun _ => none
  mTemporalPatternLength := 0
  mTemporalPatternIdx := 0
  mTemporalLayerBitrateRatio := fun _ => 1
  mLastTimestamp := kLastTimestampUnset
  mSignalledOutputEos := false
  mSignalledError := false
  mConversionBuffer := ⟨0, 0⟩
  mNumInputFrames := 0
  mSize := SharedPtr.null
  mBitrate := SharedPtr.null
  mBitrateMode := SharedPtr.null
  mFrameRate := SharedPtr.null
  mIntraRefresh := SharedPtr.null
  mRequestSync := SharedPtr.null
  mLayering := SharedPtr.null

/-! ## getEncodeFlags -/

/-- The `switch` of `getEncodeFlags`: the flags accumulated into `flags = 0` for
one directive, fallthroughs included. A value that is no enumerator matches no
case. -/
def switchFlags : Option TemporalReferences → Nat
  | some .kTemporalUpdateLast =>
      0 ||| VP8_EFLAG_NO_UPD_GF ||| VP8_EFLAG_NO_UPD_ARF ||| VP8_EFLAG_NO_REF_GF
        ||| VP8_EFLAG_NO_REF_ARF
  | some .kTemporalUpdateGoldenWithoutDependency =>
      0 ||| VP8_EFLAG_NO_REF_GF
        ||| VP8_EFLAG_NO_REF_ARF ||| VP8_EFLAG_NO_UPD_ARF ||| VP8_EFLAG_NO_UPD_LAST
  | some .kTemporalUpdateGolden =>
      0 ||| VP8_EFLAG_NO_REF_ARF ||| VP8_EFLAG_NO_UPD_ARF ||| VP8_EFLAG_NO_UPD_LAST
  | some .kTemporalUpdateAltrefWithoutDependency =>
      0 ||| VP8_EFLAG_NO_REF_ARF ||| VP8_EFLAG_NO_REF_GF
        ||| VP8_EFLAG_NO_UPD_GF ||| VP8_EFLAG_NO_UPD_LAST
  | some .kTemporalUpdateAltref =>
      0 ||| VP8_EFLAG_NO_UPD_GF ||| VP8_EFLAG_NO_UPD_LAST
  | some .kTemporalUpdateNoneNoRefAltref =>
      0 ||| VP8_EFLAG_NO_REF_ARF
        ||| VP8_EFLAG_NO_UPD_GF ||| VP8_EFLAG_NO_UPD_ARF ||| VP8_EFLAG_NO_UPD_LAST
        ||| VP8_EFLAG_NO_UPD_ENTROPY
  | some .kTemporalUpdateNone =>
      0 ||| VP8_EFLAG_NO_UPD_GF ||| VP8_EFLAG_NO_UPD_ARF ||| VP8_EFLAG_NO_UPD_LAST
        ||| VP8_EFLAG_NO_UPD_ENTROPY
  | some .kTemporalUpdateNoneNoRefGoldenRefAltRef =>
      0 ||| VP8_EFLAG_NO_REF_GF ||| VP8_EFLAG_NO_UPD_GF ||| VP8_EFLAG_NO_UPD_ARF
        ||| VP8_EFLAG_NO_UPD_LAST ||| VP8_EFLAG_NO_UPD_ENTROPY
  | some .kTemporalUpdateGoldenWithoutDependencyRefAltRef =>
      0 ||| VP8_EFLAG_NO_REF_GF ||| VP8_EFLAG_NO_UPD_ARF ||| VP8_EFLAG_NO_UPD_LAST
  | some .kTemporalUpdateLastRefAltRef =>
      0 ||| VP8_EFLAG_NO_UPD_GF ||| VP8_EFLAG_NO_UPD_ARF ||| VP8_EFLAG_NO_REF_GF
  | some .kTemporalUpdateGoldenRefAltRef =>
      0 ||| VP8_EFLAG_NO_UPD_ARF ||| VP8_EFLAG_NO_UPD_LAST
  | some .kTemporalUpdateLastAndGoldenRefAltRef =>
      0 ||| VP8_EFLAG_NO_UPD_ARF ||| VP8_EFLAG_NO_REF_GF
  | some .kTemporalUpdateLastRefAll =>
      0 ||| VP8_EFLAG_NO_UPD_ARF ||| VP8_EFLAG_NO_UPD_GF
  | none => 0

/-- `C2SoftVpxEnc::getEncodeFlags`: returns the flags of the current pattern
entry and the state with the cursor advanced (the cursor is a `size_t`). -/
def getEncodeFlags (s : State) : Nat × State :=
  if s.mTemporalPatternLength > 0 then
    let patternIdx := s.mTemporalPatternIdx % s.mTemporalPatternLength
    (switchFlags (s.mTemporalPattern patternIdx),
      { s with mTemporalPatternIdx := (s.mTemporalPatternIdx + 1) % U64 })
  else
    (0, s)

/-! ## The world outside the file -/

/-- Calls that leave the file, in the order in which they are made: the engine
entry points, the codec specific control hook, the scratch allocator, the two
image helpers, the output block pool and the write to the configuration
interface. -/
inductive Event
  | vpx_codec_enc_config_default
  | vpx_codec_enc_init (cfg : vpx_codec_enc_cfg_t)
  | vpx_codec_control (id : vp8e_enc_control_id) (value : Int)
  | setCodecSpecificControls
  | vpx_codec_enc_config_set (cfg : Option vpx_codec_enc_cfg_t)
  | vpx_codec_encode (img : vpx_image_t) (pts : Nat) (duration : Nat) (flags : Nat)
  | vpx_codec_get_cx_data
  | vpx_codec_destroy
  | Allocate (size : Nat)
  | ConvertRGBToPlanarYUV
  | ImageCopy
  | fetchLinearBlock (size : Nat)
  | config_clearSync

/-- Whether an event is a call into the encoder engine. -/
def Event.isEngineCall : Event → Bool
  | .vpx_codec_enc_config_default => true
  | .vpx_codec_enc_init _ => true
  | .vpx_codec_control _ _ => true
  | .setCodecSpecificControls => true
  | .vpx_codec_enc_config_set _ => true
  | .vpx_codec_encode _ _ _ _ => true
  | .vpx_codec_get_cx_data => true
  | .vpx_codec_destroy => true
  | _ => false

/-- Answers of the collaborators during one operation of the component.

* `codecInterface`, `g_profile`, `specificControls`: the subclass hooks
  `setCodecSpecificInterface` (whether it leaves a non-null interface),
  `setCodecSpecificConfiguration` (the profile it stores in the configuration
  record) and `setCodecSpecificControls` (its return code); their bodies are in
  the codec specific subclasses.
* `configDefault`, `defaultConfig`: `vpx_codec_enc_config_default`.
* `encInit`, `ctlStaticThreshold`, `ctlMaxIntra`, `ctlCpuUsed`, `configSet`,
  `encode`, `packets`: the engine's answers; `packets` are the packets that
  `vpx_codec_get_cx_data` hands out after the encode call.
* `allocate`: `MemoryBlock::Allocate`.
* `imageCopyOk`: whether `ImageCopy` returns `OK`.
* `fetchLinearBlock k n`, `mapWrite k`: the block pool and the write mapping
  for the `k`-th frame packet of the call. -/
structure Env where
  codecInterface : Bool
  g_profile : Nat
  specificControls : vpx_codec_err_t
  configDefault : vpx_codec_err_t
  defaultConfig : vpx_codec_enc_cfg_t
  encInit : vpx_codec_err_t
  ctlStaticThreshold : vpx_codec_err_t
  ctlMaxIntra : vpx_codec_err_t
  ctlCpuUsed : vpx_codec_err_t
  allocate : Nat → MemoryBlock
  imageCopyOk : Bool
  configSet : vpx_codec_err_t
  encode : vpx_codec_err_t
  packets : List vpx_codec_cx_pkt_t
  fetchLinearBlock : Nat → Nat → c2_status_t
  mapWrite : Nat → c2_status_t

/-! ## Lifecycle -/

/-- `C2SoftVpxEnc::onRelease`. -/
def onRelease (s : State) : State × List Event :=
  let r1 : State × List Event :=
    if s.mCodecContext then
      ({ s with mCodecContext := false }, [Event.vpx_codec_destroy])
    else (s, [])
  let s2 : State :=
    if r1.1.mCodecConfiguration.isSome then { r1.1 with mCodecConfiguration := none }
    else r1.1
  ({ s2 with mCodecInterface := false }, r1.2)

/-- `C2SoftVpxEnc::onStop`. -/
def onStop (s : State) : c2_status_t × State × List Event :=
  let r := onRelease s
  (.C2_OK,
    { r.1 with
      mLastTimestamp := kLastTimestampUnset
      mSignalledOutputEos := false
      mSignalledError := false },
    r.2)

/-- `C2SoftVpxEnc::onReset`: calls `onStop` and drops its result. -/
def onReset (s : State) : State × List Event :=
  (onStop s).2

/-- `C2SoftVpxEnc::onFlush_sm`. -/
def onFlush_sm (s : State) : c2_status_t × State × List Event :=
  onStop s

/-- `C2SoftVpxEnc::IntfImpl::getSyncFramePeriod`. The interval is converted to
`double`, divided by `1e6` and multiplied by the `float` frame rate in double
precision; `period + 0.5` is a double addition; the clamped value lies within
the range of the cast to `uint32_t`. -/
def getSyncFramePeriod (intf : Intf) : Nat :=
  if intf.mSyncFramePeriod.value < 0 ∨ intf.mSyncFramePeriod.value = INT64_MAX then 0
  else
    let period : ℚ :=
      f64 (f64 (f64 (intf.mSyncFramePeriod.value : ℚ) / 1000000) * f32 intf.mFrameRate.value)
    castUInt32 (max (min (f64 (period + 1 / 2)) (UINT32_MAX : ℚ)) 1)

/-! ## initEncoder -/

/-- The block of `initEncoder` under the interface lock: the parameters are read
into the members. -/
def loadParams (s : State) (intf : Intf) : State :=
  { s with
    mSize := intf.mSize
    mBitrate := intf.mBitrate
    mBitrateMode := intf.mBitrateMode
    mFrameRate := intf.mFrameRate
    mIntraRefresh := intf.mIntraRefresh
    mRequestSync := intf.mRequestSync
    mLayering := intf.mLayering
    mTemporalLayers := intf.mLayering.value.layerCount }

/-- The `switch (mBitrateMode->value)` of `initEncoder`. -/
def selectRateControl (s : State) : State :=
  match s.mBitrateMode.value with
  | .BITRATE_CONST => { s with mBitrateControlMode := .VPX_CBR }
  | .BITRATE_VARIABLE => { s with mBitrateControlMode := .VPX_VBR }
  | _ => { s with mBitrateControlMode := .VPX_VBR }

/-- The assignments of `initEncoder` from `g_w` to the end of the
`if (mBitrateControlMode == VPX_CBR)` block. The sum `mBitrate->value + 500` is
a `uint32_t`. -/
def baseConfig (s : State) (cfg : vpx_codec_enc_cfg_t) : vpx_codec_enc_cfg_t :=
  let c : vpx_codec_enc_cfg_t :=
    { cfg with
      g_w := s.mSize.value.width
      g_h := s.mSize.value.height
      g_threads := 0
      g_error_resilient := if s.mErrorResilience then 1 else 0
      g_timebase_num := 1
      g_timebase_den := 1000000
      rc_target_bitrate := ((s.mBitrate.value + 500) % U32) / 1000
      rc_end_usage := s.mBitrateControlMode
      rc_dropframe_thresh := 0
      g_lag_in_frames := 0 }
  if s.mBitrateControlMode = .VPX_CBR then
    { c with
      rc_resize_allowed := 0
      g_pass := .VPX_RC_ONE_PASS
      rc_undershoot_pct := 100
      rc_overshoot_pct := 15
      rc_buf_initial_sz := 500
      rc_buf_optimal_sz := 600
      rc_buf_sz := 1000
      g_error_resilient := 1
      kf_max_dist := 3000
      kf_mode := .VPX_KF_AUTO }
  else c

/-- The `switch (mTemporalLayers)` of `initEncoder`; `none` is its `default`
branch, which jumps to `CleanUp`. The ratios are read from the flexible array
of the layering parameter; an entry that the parameter does not hold is read
as 0 here, where the source reads past the end of the array and the value is
not defined, so statements about stored ratios assume the entries are there. -/
def temporalConfig (s : State) (cfg : vpx_codec_enc_cfg_t) :
    Option (State × vpx_codec_enc_cfg_t) :=
  match s.mTemporalLayers with
  | 0 => some ({ s with mTemporalPatternLength := 0 }, cfg)
  | 1 =>
    some
      ({ s with
          mTemporalPattern := arrSet s.mTemporalPattern 0 (some .kTemporalUpdateLastRefAll)
          mTemporalPatternLength := 1 },
        { cfg with
          ts_number_layers := 1
          ts_rate_decimator := arrSet cfg.ts_rate_decimator 0 1
          ts_periodicity := 1
          ts_layer_id := arrSet cfg.ts_layer_id 0 0 })
  | 2 =>
    some
      ({ s with
          mTemporalPattern :=
            arrSet (arrSet (arrSet (arrSet (arrSet (arrSet (arrSet (arrSet s.mTemporalPattern
              0 (some .kTemporalUpdateLastAndGoldenRefAltRef))
              1 (some .kTemporalUpdateGoldenWithoutDependencyRefAltRef))
              2 (some .kTemporalUpdateLastRefAltRef))
              3 (some .kTemporalUpdateGoldenRefAltRef))
              4 (some .kTemporalUpdateLastRefAltRef))
              5 (some .kTemporalUpdateGoldenRefAltRef))
              6 (some .kTemporalUpdateLastRefAltRef))
              7 (some .kTemporalUpdateNone)
          mTemporalLayerBitrateRatio :=
            arrSet s.mTemporalLayerBitrateRatio 0 (s.mLayering.value.bitrateRatios.getD 0 0)
          mTemporalPatternLength := 8 },
        { cfg with
          ts_number_layers := 2
          ts_rate_decimator := arrSet (arrSet cfg.ts_rate_decimator 0 2) 1 1
          ts_periodicity := 2
          ts_layer_id := arrSet (arrSet cfg.ts_layer_id 0 0) 1 1 })
  | 3 =>
    some
      ({ s with
          mTemporalPattern :=
            arrSet (arrSet (arrSet (arrSet (arrSet (arrSet (arrSet (arrSet s.mTemporalPattern
              0 (some .kTemporalUpdateLastAndGoldenRefAltRef))
              1 (some .kTemporalUpdateNoneNoRefGoldenRefAltRef))
              2 (some .kTemporalUpdateGoldenWithoutDependencyRefAltRef))
              3 (some .kTemporalUpdateNone))
              4 (some .kTemporalUpdateLastRefAltRef))
              5 (some .kTemporalUpdateNone))
              6 (some .kTemporalUpdateGoldenRefAltRef))
              7 (some .kTemporalUpdateNone)
          mTemporalLayerBitrateRatio :=
            arrSet (arrSet s.mTemporalLayerBitrateRatio
              0 (s.mLayering.value.bitrateRatios.getD 0 0))
              1 (s.mLayering.value.bitrateRatios.getD 1 0)
          mTemporalPatternLength := 8 },
        { cfg with
          ts_number_layers := 3
          ts_rate_decimator := arrSet (arrSet (arrSet cfg.ts_rate_decimator 0 4) 1 2) 2 1
          ts_periodicity := 4
          ts_layer_id := arrSet (arrSet (arrSet (arrSet cfg.ts_layer_id 0 0) 1 2) 2 1) 3 2 })
  | _ => none

/-- The loop "Set bitrate values for each layer": the `unsigned` target bitrate
is converted to `float`, multiplied by the `float` ratio in single precision,
and the product is converted to `unsigned` on assignment. -/
def layerBitrates (s : State) (cfg : vpx_codec_enc_cfg_t) : vpx_codec_enc_cfg_t :=
  (List.range cfg.ts_number_layers).foldl
    (fun c i =>
      { c with
        ts_target_bitrate :=
          arrSet c.ts_target_bitrate i
            (castUInt32
              (f32 (f32 (c.rc_target_bitrate : ℚ) * f32 (s.mTemporalLayerBitrateRatio i)))) })
    cfg

/-- The `if (mIntf->getSyncFramePeriod() >= 0)` block of `initEncoder`; the
period is a `uint32_t`. -/
def syncPeriodConfig (intf : Intf) (cfg : vpx_codec_enc_cfg_t) : vpx_codec_enc_cfg_t :=
  if getSyncFramePeriod intf ≥ 0 then
    { cfg with
      kf_max_dist := getSyncFramePeriod intf
      kf_min_dist := getSyncFramePeriod intf
      kf_mode := .VPX_KF_AUTO }
  else cfg

/-- The two quantizer overrides of `initEncoder`. -/
def quantizerConfig (s : State) (cfg : vpx_codec_enc_cfg_t) : vpx_codec_enc_cfg_t :=
  let c := if s.mMinQuantizer > 0 then { cfg with rc_min_quantizer := s.mMinQuantizer } else cfg
  if s.mMaxQuantizer > 0 then { c with rc_max_quantizer := s.mMaxQuantizer } else c

/-- The configuration record that `initEncoder` hands to `vpx_codec_enc_init`,
built from the state after the layer switch. -/
def finishConfig (s : State) (intf : Intf) (env : Env) (cfg : vpx_codec_enc_cfg_t) :
    vpx_codec_enc_cfg_t :=
  { quantizerConfig s (syncPeriodConfig intf (layerBitrates s cfg)) with
    g_profile := env.g_profile }

/-- The value passed with `VP8E_SET_MAX_INTRA_BITRATE_PCT`:
`(uint32_t)(rc_buf_optimal_sz * mFrameRate->value / 20 + 0.5)`, the product and
the quotient in single precision, the sum in double precision, raised to 300
when below. -/
def rcMaxIntraTarget (s : State) (cfg : vpx_codec_enc_cfg_t) : Nat :=
  let v : Nat :=
    castUInt32
      (f64 (f32 (f32 (f32 (cfg.rc_buf_optimal_sz : ℚ) * f32 s.mFrameRate.value) / 20) + 1 / 2))
  if v < 300 then 300 else v

/-- The block "Extra CBR settings": the last return code and the controls
issued. -/
def cbrControls (s : State) (cfg : vpx_codec_enc_cfg_t) (env : Env) :
    vpx_codec_err_t × List Event :=
  if s.mBitrateControlMode = .VPX_CBR then
    let e1 := [Event.vpx_codec_control .VP8E_SET_STATIC_THRESHOLD 1]
    if env.ctlStaticThreshold = VPX_CODEC_OK then
      let e2 := e1 ++ [Event.vpx_codec_control .VP8E_SET_MAX_INTRA_BITRATE_PCT
        (rcMaxIntraTarget s cfg)]
      if env.ctlMaxIntra = VPX_CODEC_OK then
        (env.ctlCpuUsed, e2 ++ [Event.vpx_codec_control .VP8E_SET_CPUUSED (-8)])
      else (env.ctlMaxIntra, e2)
    else (env.ctlStaticThreshold, e1)
  else (VPX_CODEC_OK, [])

/-- Rounding up to the stride alignment in `uint32_t` arithmetic:
`(x + mStrideAlign - 1) & ~(mStrideAlign - 1)`. -/
def alignStride (x align : Nat) : Nat :=
  ((x + align - 1) % U32) &&& ((U32 - 1) ^^^ ((align - 1) % U32))

/-- The size expression `stride * vstride * 3 / 2` in `uint32_t` arithmetic. -/
def bufferSize (stride vstride : Nat) : Nat :=
  ((((stride * vstride) % U32) * 3) % U32) / 2

/-- The label `CleanUp` of `initEncoder`. -/
def cleanUp (s : State) (tr : List Event) : status_t × State × List Event :=
  (.UNKNOWN_ERROR, (onRelease s).1, tr ++ (onRelease s).2)

/-- The last block of `initEncoder`: the size guard and the allocation of the
conversion buffer. -/
def allocConversionBuffer (s : State) (env : Env) (tr : List Event) :
    status_t × State × List Event :=
  let width := s.mSize.value.width
  let height := s.mSize.value.height
  if width * height > INT32_MAX / 3 then cleanUp s tr
  else
    let stride := alignStride width s.mStrideAlign
    let vstride := alignStride height s.mStrideAlign
    let s1 := { s with mConversionBuffer := env.allocate (bufferSize stride vstride) }
    let tr1 := tr ++ [Event.Allocate (bufferSize stride vstride)]
    if s1.mConversionBuffer.size = 0 then cleanUp s1 tr1
    else (.OK, { s1 with mNumInputFrames := -1 }, tr1)

/-- `C2SoftVpxEnc::initEncoder`. -/
def initEncoder (s0 : State) (intf : Intf) (env : Env) : status_t × State × List Event :=
  let s1 := { selectRateControl (loadParams s0 intf) with mCodecInterface := env.codecInterface }
  if !s1.mCodecInterface then cleanUp s1 []
  else
    let s2 := { s1 with mCodecConfiguration := some env.defaultConfig }
    let tr2 := [Event.vpx_codec_enc_config_default]
    if env.configDefault ≠ VPX_CODEC_OK then cleanUp s2 tr2
    else
      let cfg := baseConfig s2 env.defaultConfig
      match temporalConfig s2 cfg with
      | none => cleanUp { s2 with mCodecConfiguration := some cfg } tr2
      | some (s3, cfg3) =>
        let cfg4 := finishConfig s3 intf env cfg3
        let s4 := { s3 with mCodecConfiguration := some cfg4, mCodecContext := true }
        let tr4 := tr2 ++ [Event.vpx_codec_enc_init cfg4]
        if env.encInit ≠ VPX_CODEC_OK then cleanUp s4 tr4
        else
          let tr5 := tr4 ++ (cbrControls s4 cfg4 env).2
          if (cbrControls s4 cfg4 env).1 ≠ VPX_CODEC_OK then cleanUp s4 tr5
          else
            let tr6 := tr5 ++ [Event.setCodecSpecificControls]
            if env.specificControls ≠ VPX_CODEC_OK then cleanUp s4 tr6
            else allocConversionBuffer s4 env tr6

/-- `C2SoftVpxEnc::onInit`. -/
def onInit (s : State) (intf : Intf) (env : Env) : c2_status_t × State × List Event :=
  let r := initEncoder s intf env
  (if r.1 = .OK then .C2_OK else .C2_CORRUPTED, r.2.1, r.2.2)

/-! ## Work items -/

/-- The ordinal of a frame (`C2WorkOrdinalStruct`); the counters are 64 bits
wide. -/
structure C2WorkOrdinalStruct where
  timestamp : Nat
  frameIndex : Nat
  customOrdinal : Nat
  deriving DecidableEq, Repr

/-- Layout kinds of a mapped graphic block (`C2PlanarLayout::type_t`). -/
inductive type_t
  | TYPE_UNKNOWN
  | TYPE_YUV
  | TYPE_YUVA
  | TYPE_RGB
  | TYPE_RGBA
  deriving DecidableEq, Repr

/-- Column and row increment of one plane (`C2PlaneInfo`). -/
structure C2PlaneInfo where
  colInc : Int
  rowInc : Int
  deriving DecidableEq, Repr

/-- The first input buffer of a work item together with its mapped view: the
block dimensions, the error of the mapping, the layout, the answer of the helper
`IsYUV420` for the view, and the three plane pointers `data()[0..2]`. -/
structure InputBuffer where
  width : Nat
  height : Nat
  mapError : c2_status_t
  layoutType : type_t
  isYUV420 : Bool
  planeY : C2PlaneInfo
  planeU : C2PlaneInfo
  planeV : C2PlaneInfo
  data0 : Nat
  data1 : Nat
  data2 : Nat
  deriving DecidableEq, Repr

/-- An output buffer made by `createLinearBuffer(block, 0, sz)`: the bytes copied
into the block, the size of the buffer, and whether the picture type info
`SYNC_FRAME` was attached. -/
structure OutputBuffer where
  payload : List Nat
  size : Nat
  syncFrame : Bool
  deriving DecidableEq, Repr

/-- A work item (`C2Work`) with its single worklet: the input part is read, the
other fields are written by `process`. -/
structure C2Work where
  inputFlags : Nat
  inputOrdinal : C2WorkOrdinalStruct
  inputBuffers : List InputBuffer
  result : c2_status_t
  workletsProcessed : Nat
  outputFlags : Nat
  outputOrdinal : C2WorkOrdinalStruct
  outputBuffers : List OutputBuffer
  deriving DecidableEq, Repr

/-- What one `process` call leaves behind: the component state, the
configuration interface, the work item and the calls made. -/
structure Outcome where
  state : State
  intf : Intf
  work : C2Work
  trace : List Event

/-! ## Frame format adaptation -/

/-- Modelled from the spec: `vpx_img_wrap` of the engine library for the format
`VPX_IMG_FMT_I420`, which lays the three planes out one after the other in the
given memory; the stored width and height are rounded up to even numbers and
the luma stride to the alignment. -/
def vpx_img_wrap (d_w d_h stride_align data : Nat) : vpx_image_t :=
  let w := alignStride d_w 2
  let h := alignStride d_h 2
  let s := alignStride w stride_align
  { w := w
    h := h
    d_w := d_w
    d_h := d_h
    plane0 := data
    plane1 := data + h * s
    plane2 := data + h * s + (h / 2) * (s / 2)
    stride0 := s
    stride1 := s / 2
    stride2 := s / 2 }

/-- Modelled from the spec: `vpx_img_set_rect(img, 0, 0, w, h)` of the engine
library, which sets the displayed size when the rectangle fits and recomputes
the plane pointers for the origin of the rectangle. -/
def vpx_img_set_rect_origin (img : vpx_image_t) (w h : Nat) : vpx_image_t :=
  if w ≤ img.w ∧ h ≤ img.h then { img with d_w := w, d_h := h } else img

/-- The `switch (layout.type)` of `process`: the engine image for the frame, or
`none` on the paths that set `C2_BAD_VALUE` and return, together with the helper
calls made. -/
def adaptFrame (s : State) (env : Env) (v : InputBuffer) : Option vpx_image_t × List Event :=
  let width := s.mSize.value.width
  let height := s.mSize.value.height
  let stride := alignStride width s.mStrideAlign
  let vstride := alignStride height s.mStrideAlign
  match v.layoutType with
  | .TYPE_RGB | .TYPE_RGBA =>
    (some (vpx_img_wrap width height s.mStrideAlign s.mConversionBuffer.data),
      [Event.ConvertRGBToPlanarYUV])
  | .TYPE_YUV =>
    if !v.isYUV420 then (none, [])
    else if v.planeY.colInc = 1 ∧ v.planeU.colInc = 1 ∧ v.planeV.colInc = 1 then
      (some
        { vpx_img_wrap width height s.mStrideAlign v.data0 with
          plane1 := v.data1
          plane2 := v.data2
          stride0 := v.planeY.rowInc
          stride1 := v.planeU.rowInc
          stride2 := v.planeV.rowInc }, [])
    else if s.mConversionBuffer.size ≥ bufferSize stride vstride then
      if !env.imageCopyOk then (none, [Event.ImageCopy])
      else
        (some (vpx_img_set_rect_origin
            (vpx_img_wrap stride vstride s.mStrideAlign s.mConversionBuffer.data) width height),
          [Event.ImageCopy])
    else (none, [])
  | _ => (none, [])

/-! ## Dynamic configuration -/

/-- Modelled from the spec: `clearSyncFrameRequest()`, the call
`mIntf->config({ &clearSync }, ...)`, which replaces the sync request parameter
by a new object holding `C2_FALSE`. -/
def clearSync (intf : Intf) : Intf :=
  { intf with mRequestSync := ⟨intf.fresh, 0⟩, fresh := intf.fresh + 1 }

/-- Result of the block "handle dynamic config parameters". -/
structure DynamicResult where
  ok : Bool
  state : State
  intf : Intf
  flags : Nat
  trace : List Event

/-- The block "handle dynamic config parameters" of `process`. The three
parameters are read first; each is compared by pointer with the cached one.
`ok = false` is the path on which the bitrate update fails. -/
def dynamicConfig (s : State) (intf : Intf) (env : Env) (flags : Nat) : DynamicResult :=
  let intraRefresh := intf.mIntraRefresh
  let bitrate := intf.mBitrate
  let requestSync := intf.mRequestSync
  let s1 : State :=
    if intraRefresh.ne s.mIntraRefresh then { s with mIntraRefresh := intraRefresh } else s
  let sync : State × Intf × Nat × List Event :=
    if requestSync.ne s1.mRequestSync then
      if requestSync.value ≠ 0 then
        ({ s1 with mRequestSync := requestSync }, clearSync intf,
          flags ||| VPX_EFLAG_FORCE_KF, [Event.config_clearSync])
      else ({ s1 with mRequestSync := requestSync }, intf, flags, [])
    else (s1, intf, flags, [])
  let s2 := sync.1
  if bitrate.ne s2.mBitrate then
    let cfg := s2.mCodecConfiguration.map
      (fun c => { c with rc_target_bitrate := ((bitrate.value + 500) % U32) / 1000 })
    let s3 := { s2 with mBitrate := bitrate, mCodecConfiguration := cfg }
    let tr := sync.2.2.2 ++ [Event.vpx_codec_enc_config_set cfg]
    if env.configSet ≠ VPX_CODEC_OK then
      ⟨false, { s3 with mSignalledError := true }, sync.2.1, sync.2.2.1, tr⟩
    else ⟨true, s3, sync.2.1, sync.2.2.1, tr⟩
  else ⟨true, s2, sync.2.1, sync.2.2.1, sync.2.2.2⟩

/-- The computation of `frameDuration` in `process`; both timestamps are
compared as `uint64_t` and the difference is cast to `uint32_t`. The fallback
compares the `float` frame rate with the `double` constant `0.001`, divides
`1000000` by it in single precision, adds `0.5` in double precision and
truncates. -/
def frameDuration (s : State) (inputTimeStamp : Nat) : Nat :=
  if inputTimeStamp > s.mLastTimestamp then (inputTimeStamp - s.mLastTimestamp) % U32
  else
    let frameRate : ℚ :=
      if f32 s.mFrameRate.value < f64 (1 / 1000) then 30 else f32 s.mFrameRate.value
    castUInt32 (f64 (f32 (1000000 / frameRate) + 1 / 2))

/-! ## Packet draining -/

/-- Loop variables of the packet loop of `process`: state, work item, calls made,
the local `populated`, and the number of frame packets seen so far. -/
structure DrainAcc where
  state : State
  work : C2Work
  trace : List Event
  populated : Bool
  frames : Nat

/-- The `while` loop over `vpx_codec_get_cx_data`. The boolean of the result is
`true` when the loop was left by one of the two `return` statements. -/
def drainPackets (env : Env) (eos : Bool) : List vpx_codec_cx_pkt_t → DrainAcc → DrainAcc × Bool
  | [], acc => ({ acc with trace := acc.trace ++ [Event.vpx_codec_get_cx_data] }, false)
  | p :: ps, acc =>
    let a1 := { acc with trace := acc.trace ++ [Event.vpx_codec_get_cx_data] }
    if p.isFramePkt then
      let a2 := { a1 with trace := a1.trace ++ [Event.fetchLinearBlock p.sz] }
      if env.fetchLinearBlock a1.frames p.sz ≠ .C2_OK then
        ({ a2 with work := { a2.work with result := .C2_NO_MEMORY } }, true)
      else if env.mapWrite a1.frames ≠ .C2_OK then
        ({ a2 with work := { a2.work with result := .C2_CORRUPTED } }, true)
      else
        let flags : Nat := if eos then 0 ||| FLAG_END_OF_STREAM else 0
        let buffer : OutputBuffer :=
          { payload := p.buf.take p.sz
            size := p.sz
            syncFrame := p.flags &&& VPX_FRAME_IS_KEY ≠ 0 }
        let w : C2Work :=
          { a2.work with
            outputFlags := flags
            outputBuffers := [buffer]
            outputOrdinal := { a2.work.inputOrdinal with timestamp := p.pts }
            workletsProcessed := 1 }
        let st : State :=
          { a2.state with
            mNumInputFrames := a2.state.mNumInputFrames + 1
            mSignalledOutputEos := if eos then true else a2.state.mSignalledOutputEos }
        drainPackets env eos ps
          { state := st, work := w, trace := a2.trace, populated := true, frames := a1.frames + 1 }
    else drainPackets env eos ps a1

/-! ## process -/

/-- The part of `process` from `getEncodeFlags()` to the end, for a frame that
passed format adaptation with engine image `img`. -/
def encodeFrame (s : State) (intf : Intf) (env : Env) (w : C2Work) (tr : List Event)
    (img : vpx_image_t) : Outcome :=
  let eos : Bool := w.inputFlags &&& FLAG_END_OF_STREAM ≠ 0
  let fl := getEncodeFlags s
  let d := dynamicConfig fl.2 intf env fl.1
  if !d.ok then ⟨d.state, d.intf, { w with result := .C2_CORRUPTED }, tr ++ d.trace⟩
  else
    let inputTimeStamp := w.inputOrdinal.timestamp % U64
    let duration := frameDuration d.state inputTimeStamp
    let s1 := { d.state with mLastTimestamp := inputTimeStamp }
    let tr1 := tr ++ d.trace ++ [Event.vpx_codec_encode img inputTimeStamp duration d.flags]
    if env.encode ≠ VPX_CODEC_OK then
      ⟨{ s1 with mSignalledError := true }, d.intf, { w with result := .C2_CORRUPTED }, tr1⟩
    else
      let r := drainPackets env eos env.packets
        { state := s1, work := w, trace := tr1, populated := false, frames := 0 }
      if r.2 then ⟨r.1.state, d.intf, r.1.work, r.1.trace⟩
      else if !r.1.populated then
        ⟨r.1.state, d.intf, { r.1.work with workletsProcessed := 0 }, r.1.trace⟩
      else ⟨r.1.state, d.intf, r.1.work, r.1.trace⟩

/-- The part of `process` after the encoder is known to exist: the input buffer
checks, format adaptation, and the encode path. -/
def processFrame (s : State) (intf : Intf) (env : Env) (w : C2Work) (tr : List Event) :
    Outcome :=
  match w.inputBuffers with
  | [] =>
    ⟨s, intf,
      { w with
        outputFlags := if w.inputFlags &&& FLAG_END_OF_STREAM ≠ 0 then 0 ||| FLAG_END_OF_STREAM
          else 0
        outputBuffers := []
        outputOrdinal := w.inputOrdinal
        workletsProcessed := 1 }, tr⟩
  | v :: _ =>
    if v.mapError ≠ .C2_OK then ⟨s, intf, { w with result := .C2_CORRUPTED }, tr⟩
    else if v.width < s.mSize.value.width ∨ v.height < s.mSize.value.height then
      ⟨{ s with mSignalledError := true }, intf, { w with result := .C2_BAD_VALUE }, tr⟩
    else if s.mSize.value.width > 0x8000 ∨ s.mSize.value.height > 0x8000 then
      ⟨s, intf, { w with result := .C2_BAD_VALUE }, tr⟩
    else
      match adaptFrame s env v with
      | (none, ev) => ⟨s, intf, { w with result := .C2_BAD_VALUE }, tr ++ ev⟩
      | (some img, ev) => encodeFrame s intf env w (tr ++ ev) img

/-- The first three statements of `process` ("Initialize output work"). -/
def beginWork (work : C2Work) : C2Work :=
  { work with result := .C2_OK, workletsProcessed := 1, outputFlags := work.inputFlags }

/-- `C2SoftVpxEnc::process`. -/
def process (s : State) (intf : Intf) (env : Env) (work : C2Work) : Outcome :=
  let w0 : C2Work := beginWork work
  if s.mSignalledError || s.mSignalledOutputEos then
    ⟨s, intf, { w0 with result := .C2_BAD_VALUE }, []⟩
  else if !s.mCodecContext then
    let r := initEncoder s intf env
    if r.1 ≠ .OK then
      ⟨{ r.2.1 with mSignalledError := true }, intf, { w0 with result := .C2_CORRUPTED }, r.2.2⟩
    else processFrame r.2.1 intf env w0 r.2.2
  else processFrame s intf env w0 []

/-- Modelled from the spec: the drain mode `NO_DRAIN` (`~0u` in the framework
header). -/
def NO_DRAIN : Nat := U32 - 1

/-- Modelled from the spec: the drain mode `DRAIN_CHAIN` (`1 << 16` in the
framework header). -/
def DRAIN_CHAIN : Nat := 1 <<< 16

/-- `C2SoftVpxEnc::drain`. -/
def drain (s : State) (drainMode : Nat) : c2_status_t × State :=
  if drainMode = NO_DRAIN then (.C2_OK, s)
  else if drainMode = DRAIN_CHAIN then (.C2_OMITTED, s)
  else (.C2_OK, s)

/-- The flags returned by `n` consecutive `getEncodeFlags` calls, in order, and
the state after them. -/
def getEncodeFlagsN : Nat → State → List Nat × State
  | 0, s => ([], s)
  | n + 1, s =>
    ((getEncodeFlags s).1 :: (getEncodeFlagsN n (getEncodeFlags s).2).1,
      (getEncodeFlagsN n (getEncodeFlags s).2).2)

/-- The flags returned by the call that follows `n` earlier `getEncodeFlags`
calls. -/
def nthFlags (s : State) (n : Nat) : Nat :=
  (getEncodeFlags (getEncodeFlagsN n s).2).1

/-- The directive tables that the layer switch of `initEncoder` writes into
`mTemporalPattern`, per layer count, as lists. -/
def patternTable : Nat → List TemporalReferences
  | 1 => [.kTemporalUpdateLastRefAll]
  | 2 =>
    [.kTemporalUpdateLastAndGoldenRefAltRef, .kTemporalUpdateGoldenWithoutDependencyRefAltRef,
      .kTemporalUpdateLastRefAltRef, .kTemporalUpdateGoldenRefAltRef,
      .kTemporalUpdateLastRefAltRef, .kTemporalUpdateGoldenRefAltRef,
      .kTemporalUpdateLastRefAltRef, .kTemporalUpdateNone]
  | 3 =>
    [.kTemporalUpdateLastAndGoldenRefAltRef, .kTemporalUpdateNoneNoRefGoldenRefAltRef,
      .kTemporalUpdateGoldenWithoutDependencyRefAltRef, .kTemporalUpdateNone,
      .kTemporalUpdateLastRefAltRef, .kTemporalUpdateNone,
      .kTemporalUpdateGoldenRefAltRef, .kTemporalUpdateNone]
  | _ => []

/-- Flags as a function of the layer count and the cursor alone: the flags of the
table entry at the cursor modulo the table length, and 0 for an empty table. -/
def flagsAt (layerCount cursor : Nat) : Nat :=
  switchFlags ((patternTable layerCount)[cursor % (patternTable layerCount).length]?)

/-- The parameter values that the constructor of `IntfImpl` declares as defaults,
each in an object of its own. -/
def defaultIntf : Intf where
  mSize := ⟨1, ⟨320, 240⟩⟩
  mBitrateMode := ⟨2, .BITRATE_VARIABLE⟩
  mFrameRate := ⟨3, 30⟩
  mLayering := ⟨4, ⟨0, 0, []⟩⟩
  mSyncFramePeriod := ⟨5, 1000000⟩
  mBitrate := ⟨6, 64000⟩
  mIntraRefresh := ⟨7, ⟨0, 0⟩⟩
  mRequestSync := ⟨8, 0⟩
  mCodedColorAspects := ⟨9, ⟨2, 0, 0, 0⟩⟩
  fresh := 10

/-- A configuration record standing for the engine defaults in the examples. -/
def sampleDefaultConfig : vpx_codec_enc_cfg_t where
  g_profile := 0
  g_w := 320
  g_h := 240
  g_threads := 0
  g_error_resilient := 0
  g_timebase_num := 1
  g_timebase_den := 30
  g_pass := .VPX_RC_ONE_PASS
  g_lag_in_frames := 0
  rc_target_bitrate := 256
  rc_end_usage := .VPX_VBR
  rc_dropframe_thresh := 0
  rc_resize_allowed := 0
  rc_undershoot_pct := 100
  rc_overshoot_pct := 100
  rc_buf_initial_sz := 4000
  rc_buf_optimal_sz := 5000
  rc_buf_sz := 6000
  rc_min_quantizer := 4
  rc_max_quantizer := 63
  kf_mode := .VPX_KF_AUTO
  kf_min_dist := 0
  kf_max_dist := 128
  ts_number_layers := 1
  ts_target_bitrate := fun _ => 0
  ts_rate_decimator := fun _ => 0
  ts_periodicity := 0
  ts_layer_id := fun _ => 0

/-- Collaborators that succeed at everything in the examples: the allocator
returns a block of the requested size, the engine accepts every call and hands
out the given packets. -/
def sampleEnv (packets : List vpx_codec_cx_pkt_t) : Env where
  codecInterface := true
  g_profile := 0
  specificControls := VPX_CODEC_OK
  configDefault := VPX_CODEC_OK
  defaultConfig := sampleDefaultConfig
  encInit := VPX_CODEC_OK
  ctlStaticThreshold := VPX_CODEC_OK
  ctlMaxIntra := VPX_CODEC_OK
  ctlCpuUsed := VPX_CODEC_OK
  allocate := fun n => ⟨4096, n⟩
  imageCopyOk := true
  configSet := VPX_CODEC_OK
  encode := VPX_CODEC_OK
  packets := packets
  fetchLinearBlock := fun _ _ => .C2_OK
  mapWrite := fun _ => .C2_OK

/-- The default parameters with the temporal layering replaced by `layerCount`
layers and the given ratios. -/
def layeredIntf (layerCount : Nat) (ratios : List ℚ) : Intf :=
  { defaultIntf with mLayering := ⟨10, ⟨layerCount, 0, ratios⟩⟩, fresh := 11 }

/-- The state with which `process` goes on after its encoder check: the state
itself when a context exists, the state left by `initEncoder` otherwise. -/
def sessionState (s : State) (intf : Intf) (env : Env) : State :=
  if s.mCodecContext then s else (initEncoder s intf env).2.1

/-- The calls made by the encoder check of `process`: none when a context
exists, those of `initEncoder` otherwise. -/
def sessionTrace (s : State) (intf : Intf) (env : Env) : List Event :=
  if s.mCodecContext then [] else (initEncoder s intf env).2.2

/-- The conditions under which a `process` call gets as far as
`getEncodeFlags`: no latch is set, the encoder exists or `initEncoder`
succeeds, the work has an input buffer `v` whose view maps without error and
is at least as large as the configured size, the configured size is within
`0x8000`, and format adaptation yields the engine image `img` with helper
calls `ev`. -/
structure Encodes (s : State) (intf : Intf) (env : Env) (work : C2Work) (v : InputBuffer)
    (img : vpx_image_t) (ev : List Event) : Prop where
  noError : s.mSignalledError = false
  noEos : s.mSignalledOutputEos = false
  encoder : s.mCodecContext = true ∨ (initEncoder s intf env).1 = .OK
  buffer : work.inputBuffers.head? = some v
  mapped : v.mapError = .C2_OK
  wide : (sessionState s intf env).mSize.value.width ≤ v.width
  high : (sessionState s intf env).mSize.value.height ≤ v.height
  widthLimit : (sessionState s intf env).mSize.value.width ≤ 0x8000
  heightLimit : (sessionState s intf env).mSize.value.height ≤ 0x8000
  adapted : adaptFrame (sessionState s intf env) env v = (some img, ev)

/-- The arguments (image, timestamp, duration, flags) of the
`vpx_codec_encode` calls of a trace, in order. -/
def encodeCalls (tr : List Event) : List (vpx_image_t × Nat × Nat × Nat) :=
  tr.filterMap fun e =>
    match e with
    | .vpx_codec_encode img pts duration flags => some (img, pts, duration, flags)
    | _ => none

/-- The configuration records passed to `vpx_codec_enc_config_set` in a trace, in
order. -/
def configSets (tr : List Event) : List (Option vpx_codec_enc_cfg_t) :=
  tr.filterMap fun e =>
    match e with
    | .vpx_codec_enc_config_set cfg => some cfg
    | _ => none

/-- The configuration pushes and encode calls of a trace, in order, everything
else left out. -/
def pushesAndEncodes (tr : List Event) : List Event :=
  tr.filter fun e =>
    match e with
    | .vpx_codec_enc_config_set _ => true
    | .vpx_codec_encode _ _ _ _ => true
    | _ => false

/-- A sequence of `process` calls, each with its own collaborator answers and
work item, the configuration interface being left alone in between: the final
state and interface, and the result code and trace of every call. -/
def processAll : State → Intf → List (Env × C2Work) → State × Intf × List (c2_status_t × List Event)
  | s, intf, [] => (s, intf, [])
  | s, intf, (env, work) :: rest =>
    ((processAll (process s intf env work).state (process s intf env work).intf rest).1,
      (processAll (process s intf env work).state (process s intf env work).intf rest).2.1,
      ((process s intf env work).work.result, (process s intf env work).trace) ::
        (processAll (process s intf env work).state (process s intf env work).intf rest).2.2)

/-- An input buffer of 320 x 240 for the examples: planar YUV 4:2:0 with unit
column increments. -/
def sampleBuffer : InputBuffer where
  width := 320
  height := 240
  mapError := .C2_OK
  layoutType := .TYPE_YUV
  isYUV420 := true
  planeY := ⟨1, 320⟩
  planeU := ⟨1, 160⟩
  planeV := ⟨1, 160⟩
  data0 := 65536
  data1 := 142336
  data2 := 161536

/-- A work item for the examples with the given input flags, timestamp and
buffers; the output part is blank. -/
def sampleWork (flags timestamp : Nat) (buffers : List InputBuffer) : C2Work where
  inputFlags := flags
  inputOrdinal := ⟨timestamp, 0, 0⟩
  inputBuffers := buffers
  result := .C2_OK
  workletsProcessed := 0
  outputFlags := 0
  outputOrdinal := ⟨0, 0, 0⟩
  outputBuffers := []

/-- A frame packet for the examples. -/
def samplePacket (pts : Nat) : vpx_codec_cx_pkt_t where
  isFramePkt := true
  buf := [1, 2, 3]
  sz := 3
  pts := pts
  flags := 0

/-- Collaborators as in `sampleEnv`, except that the encode call fails. -/
def encodeFailEnv : Env :=
  { sampleEnv [] with encode := 1 }

/-- The outcome of a first frame whose encode call fails, on the constructed
component with the default parameters. -/
def afterEncodeFailure : Outcome :=
  process construct defaultIntf encodeFailEnv (sampleWork 0 0 [sampleBuffer])

/-- Collaborators as in `sampleEnv`, except that `vpx_codec_enc_init` fails. -/
def initFailEnv : Env :=
  { sampleEnv [] with encInit := 1 }

/-- The outcome of an empty work item carrying `FLAG_END_OF_STREAM` submitted to
the constructed component with the default parameters. -/
def afterEmptyEos : Outcome :=
  process construct defaultIntf (sampleEnv []) (sampleWork FLAG_END_OF_STREAM 0 [])

/-- An input buffer as `sampleBuffer` but only 160 pixels wide. -/
def narrowBuffer : InputBuffer :=
  { sampleBuffer with width := 160 }

/-- The outcome of a first frame that is narrower than the configured picture,
on the constructed component with the default parameters. -/
def afterNarrowFrame : Outcome :=
  process construct defaultIntf (sampleEnv [samplePacket 0]) (sampleWork 0 0 [narrowBuffer])

/-- An input buffer as `sampleBuffer` but with a YUVA plane layout, which the
component does not take. -/
def unsupportedBuffer : InputBuffer :=
  { sampleBuffer with layoutType := .TYPE_YUVA }

/-- The outcome of a first frame with an unsupported plane layout, on the
constructed component with the default parameters. -/
def afterUnsupportedFrame : Outcome :=
  process construct defaultIntf (sampleEnv []) (sampleWork 0 0 [unsupportedBuffer])

/-- The engine image that format adaptation makes of `sampleBuffer` at the
default picture size. -/
def sampleImage : vpx_image_t :=
  ⟨320, 240, 320, 240, 65536, 142336, 161536, 320, 160, 160⟩

/-- The outcome of a first valid frame with timestamp 0 on the constructed
component with the default parameters; the engine hands out one packet. -/
def afterFirstFrame : Outcome :=
  process construct defaultIntf (sampleEnv [samplePacket 0]) (sampleWork 0 0 [sampleBuffer])

/-- The configuration interface of `afterFirstFrame` after the client has set
the bitrate to 128000: the new value is in a new parameter object. -/
def bitrateChangedIntf : Intf :=
  { afterFirstFrame.intf with mBitrate := ⟨20, 128000⟩, fresh := 21 }

/-- Modelled from the spec: the framework helper `c2_clamp(min, value, max)`,
which bounds `value` from above by `max` and then from below by `min`. -/
def c2_clamp (lo value hi : ℚ) : ℚ :=
  max lo (min value hi)

/-- The loop of `LayeringSetter` over the bitrate ratios: each ratio is clamped
between the ratio already stored before it (0 for the first) and 1. -/
def clampRatios : ℚ → List ℚ → List ℚ
  | _, [] => []
  | prev, r :: rs => c2_clamp prev r 1 :: clampRatios (c2_clamp prev r 1) rs

/-- `C2SoftVpxEnc::IntfImpl::LayeringSetter`: the value it leaves in `me`. -/
def LayeringSetter (me : Layering) : Layering :=
  { layerCount := if me.layerCount > 4 then 4 else me.layerCount
    bLayerCount := 0
    bitrateRatios := clampRatios 0 me.bitrateRatios }

/-- The default parameters with bitrate mode CONSTANT. -/
def constIntf : Intf :=
  { defaultIntf with mBitrateMode := ⟨12, .BITRATE_CONST⟩, fresh := 13 }

/-- The default parameters with bitrate mode CONSTANT and the sync-frame interval
set to -1 (no periodic sync frames). -/
def noSyncConstIntf : Intf :=
  { defaultIntf with
    mSyncFramePeriod := ⟨11, -1⟩
    mBitrateMode := ⟨12, .BITRATE_CONST⟩
    fresh := 13 }

/-- The default parameters with the sync-frame interval set to 580000
microseconds and the frame rate to 25. -/
def shortIntervalIntf : Intf :=
  { defaultIntf with
    mSyncFramePeriod := ⟨11, 580000⟩
    mFrameRate := ⟨12, 25⟩
    fresh := 13 }

/-- The component after a session with three layers (ratios 1/4 and 1/2) was
brought up by `initEncoder` and stopped by `onStop`. -/
def afterThreeLayerStop : State :=
  (onStop (initEncoder construct (layeredIntf 3 [1 / 4, 1 / 2]) (sampleEnv [])).2.1).2.1

/-- The sum of the target bitrates of the first `n` temporal layers of a
configuration record. -/
def layerBitrateSum (cfg : vpx_codec_enc_cfg_t) (n : Nat) : Nat :=
  ((List.range n).map cfg.ts_target_bitrate).sum

/-- Modelled from the spec: engine frame flag "do not reference the last frame"
(engine header value); no directive of `getEncodeFlags` sets it. -/
def VP8_EFLAG_NO_REF_LAST : Nat := 1 <<< 16

/-- The three reference buffers of the engine. -/
inductive RefBuffer
  | last
  | golden
  | altref
  deriving DecidableEq, Repr

/-- Whether a frame encoded with the given flags may update the reference
buffer: its "no update" flag is not set. -/
def mayUpdate (flags : Nat) : RefBuffer → Bool
  | .last => flags &&& VP8_EFLAG_NO_UPD_LAST = 0
  | .golden => flags &&& VP8_EFLAG_NO_UPD_GF = 0
  | .altref => flags &&& VP8_EFLAG_NO_UPD_ARF = 0

/-- Whether a frame encoded with the given flags may reference the buffer: its
"no reference" flag is not set. -/
def mayReference (flags : Nat) : RefBuffer → Bool
  | .last => flags &&& VP8_EFLAG_NO_REF_LAST = 0
  | .golden => flags &&& VP8_EFLAG_NO_REF_GF = 0
  | .altref => flags &&& VP8_EFLAG_NO_REF_ARF = 0

/-- Modelled from the spec: `supportsAtAll` for the two fields of the picture
size, which the constructor of `IntfImpl` declares as `inRange(2, 2048, 2)`:
the values from 2 to 2048 in steps of 2. -/
def sizeFieldSupports (v : Nat) : Bool :=
  decide (2 ≤ v ∧ v ≤ 2048 ∧ (v - 2) % 2 = 0)

/-- The fields for which `SizeSetter` can report a bad value. -/
inductive SizeField
  | width
  | height
  deriving DecidableEq, Repr

/-- `C2SoftVpxEnc::IntfImpl::SizeSetter`: the bad-value failures collected in
`res` and the value left in `me`. -/
def SizeSetter (oldMe me : PictureSize) : List SizeField × PictureSize :=
  let r1 : List SizeField × PictureSize :=
    if !sizeFieldSupports me.width then ([SizeField.width], { me with width := oldMe.width })
    else ([], me)
  if !sizeFieldSupports r1.2.height then
    (r1.1 ++ [SizeField.height], { r1.2 with height := oldMe.height })
  else r1

/-- The allocator hands out blocks of exactly the requested size. -/
def AllocExact (env : Env) : Prop :=
  ∀ n, (env.allocate n).size = n

/-- The states of the component that the lifecycle operations and `process`
can produce from the constructed one, with allocators that return exactly the
requested size. -/
inductive Reachable : State → Prop
  | construct : Reachable construct
  | onInit (s : State) (intf : Intf) (env : Env) :
      Reachable s → AllocExact env → Reachable (onInit s intf env).2.1
  | process (s : State) (intf : Intf) (env : Env) (work : C2Work) :
      Reachable s → AllocExact env → Reachable (process s intf env work).state
  | onStop (s : State) : Reachable s → Reachable (onStop s).2.1
  | onReset (s : State) : Reachable s → Reachable (onReset s).1
  | onFlush_sm (s : State) : Reachable s → Reachable (onFlush_sm s).2.1
  | onRelease (s : State) : Reachable s → Reachable (onRelease s).1
  | drain (s : State) (drainMode : Nat) : Reachable s → Reachable (drain s drainMode).2

/-- The calls of a trace that read or write the scratch conversion buffer: the
two image helpers. -/
def scratchUses (tr : List Event) : List Event :=
  tr.filter fun e =>
    match e with
    | .ConvertRGBToPlanarYUV => true
    | .ImageCopy => true
    | _ => false

/-- The packets of kind `VPX_CODEC_CX_FRAME_PKT` among those the engine hands
out. -/
def framePackets (env : Env) : List vpx_codec_cx_pkt_t :=
  env.packets.filter fun p => p.isFramePkt

/-- The output buffer that the packet loop makes of one frame packet. -/
def packetBuffer (p : vpx_codec_cx_pkt_t) : OutputBuffer :=
  { payload := p.buf.take p.sz
    size := p.sz
    syncFrame := p.flags &&& VPX_FRAME_IS_KEY ≠ 0 }

/-- Rounding up to the next multiple of 2, without any wrap. -/
def roundUp2 (x : Nat) : Nat :=
  (x + 1) / 2 * 2

/-- A frame packet for the examples that the engine marks as key frame. -/
def keyPacket (pts : Nat) : vpx_codec_cx_pkt_t where
  isFramePkt := true
  buf := [7, 8, 9, 10]
  sz := 4
  pts := pts
  flags := VPX_FRAME_IS_KEY

/-- The component after a session with two layers has encoded three frames and
was stopped by `onStop`. -/
def afterThreeFramesStop : State :=
  (onStop
    (processAll construct (layeredIntf 2 [3 / 5])
      [(sampleEnv [samplePacket 0], sampleWork 0 0 [sampleBuffer]),
        (sampleEnv [samplePacket 33333], sampleWork 0 33333 [sampleBuffer]),
        (sampleEnv [samplePacket 66666], sampleWork 0 66666 [sampleBuffer])]).1).2.1

/-- The outcome of a first valid frame on the constructed component with two
layers (ratio 3/5) at the default bitrate. -/
def afterFirstLayeredFrame : Outcome :=
  process construct (layeredIntf 2 [3 / 5]) (sampleEnv [samplePacket 0])
    (sampleWork 0 0 [sampleBuffer])

/-- The configuration interface of `afterFirstLayeredFrame` after the client has
set the bitrate to 128000. -/
def layeredBitrateChangedIntf : Intf :=
  { afterFirstLayeredFrame.intf with mBitrate := ⟨20, 128000⟩, fresh := 21 }

/-- The assignments of the packet loop to the work item for one frame packet:
flags, the single output buffer, ordinal and processed count. -/
def emitPacket (w : C2Work) (eos : Bool) (p : vpx_codec_cx_pkt_t) : C2Work :=
  { w with
    outputFlags := if eos then 0 ||| FLAG_END_OF_STREAM else 0
    outputBuffers := [packetBuffer p]
    outputOrdinal := { w.inputOrdinal with timestamp := p.pts }
    workletsProcessed := 1 }

/-- The sizes requested from the block pool in a trace, in order. -/
def blockRequests (tr : List Event) : List Nat :=
  tr.filterMap fun e =>
    match e with
    | .fetchLinearBlock n => some n
    | _ => none

/-- The number of `vpx_codec_get_cx_data` calls in a trace. -/
def packetQueries (tr : List Event) : Nat :=
  (tr.filter fun e =>
    match e with
    | .vpx_codec_get_cx_data => true
    | _ => false).length

/-- The state in which `initEncoder` runs its layer switch: parameters loaded,
rate control chosen, interface and default configuration in place. -/
def initPrepared (s : State) (intf : Intf) (env : Env) : State :=
  { selectRateControl (loadParams s intf) with
    mCodecInterface := env.codecInterface
    mCodecConfiguration := some env.defaultConfig }

/-! ## Lemmas on floating-point rounding -/

theorem scale2_eq (q : ℚ) (e : Int) : scale2 q e = q * (2 : ℚ) ^ e := by
  unfold scale2
  split
  · rename_i h
    have : (2 : ℚ) ^ e = ((2 ^ e.toNat : Nat) : ℚ) := by
      conv_lhs => rw [← Int.toNat_of_nonneg h]
      rw [zpow_natCast]
      push_cast
      rfl
    rw [this]
  · rename_i h
    have hneg : 0 ≤ -e := by omega
    have : (2 : ℚ) ^ e = (((2 ^ (-e).toNat : Nat) : ℚ))⁻¹ := by
      have h1 : e = -((-e).toNat : Int) := by rw [Int.toNat_of_nonneg hneg]; ring
      conv_lhs => rw [h1]
      rw [zpow_neg, zpow_natCast]
      push_cast
      rfl
    rw [this, div_eq_mul_inv]

theorem bitLenAux_spec : ∀ fuel m : Nat, m ≤ fuel → 0 < m →
    2 ^ (bitLenAux fuel m - 1) ≤ m ∧ m < 2 ^ bitLenAux fuel m ∧ 0 < bitLenAux fuel m := by
  intro fuel
  induction fuel with
  | zero => intro m h0 hpos; omega
  | succ f ih =>
    intro m hle hpos
    have hm : m ≠ 0 := by omega
    simp only [bitLenAux, if_neg hm]
    rcases Nat.eq_zero_or_pos (m / 2) with hz | hp
    · have h1 : m = 1 := by omega
      subst h1
      cases f with
      | zero => simp [bitLenAux]
      | succ g => simp [bitLenAux]
    · obtain ⟨a, b, c⟩ := ih (m / 2) (by omega) hp
      refine ⟨?_, ?_, by omega⟩
      · have e1 : bitLenAux f (m / 2) + 1 - 1 = (bitLenAux f (m / 2) - 1) + 1 := by omega
        rw [e1, pow_succ]
        omega
      · rw [pow_succ]
        omega

theorem bitLen_spec (n : Nat) (h : 0 < n) :
    2 ^ (bitLen n - 1) ≤ n ∧ n < 2 ^ bitLen n ∧ 0 < bitLen n :=
  bitLenAux_spec n n (Nat.le_refl n) h

/-- The binary exponent found by `binadeExp` is not too large: `2^e ≤ a`. -/
theorem binadeExp_le (a : ℚ) (ha : 0 < a) : (2 : ℚ) ^ binadeExp a ≤ a := by
  unfold binadeExp
  simp only
  split
  · rename_i h
    rw [scale2_eq, one_mul] at h
    exact h
  · have hnum : 0 < a.num := Rat.num_pos.mpr ha
    have hn : 0 < a.num.natAbs := Int.natAbs_pos.mpr (ne_of_gt hnum)
    have hd : 0 < a.den := a.den_pos
    obtain ⟨n1, -, n3⟩ := bitLen_spec a.num.natAbs hn
    obtain ⟨-, d2, d3⟩ := bitLen_spec a.den hd
    have hcast : ((bitLen a.num.natAbs : Int) - (bitLen a.den : Int) - 1) =
        ((bitLen a.num.natAbs - 1 : Nat) : Int) - ((bitLen a.den : Nat) : Int) := by
      omega
    rw [hcast, zpow_sub₀ (by norm_num : (2 : ℚ) ≠ 0), zpow_natCast, zpow_natCast]
    have ha_eq : a = (a.num.natAbs : ℚ) / (a.den : ℚ) := by
      have h1 : (a.num : ℚ) = (a.num.natAbs : ℚ) := by
        rw [← Int.cast_natCast, Int.natAbs_of_nonneg (le_of_lt hnum)]
      rw [← h1]
      exact (Rat.num_div_den a).symm
    have hdq : (0 : ℚ) < (a.den : ℚ) := by exact_mod_cast hd
    have h2pos : (0 : ℚ) < (2 : ℚ) ^ bitLen a.den := by positivity
    have e1 : ((2 : ℚ) ^ (bitLen a.num.natAbs - 1)) ≤ (a.num.natAbs : ℚ) := by exact_mod_cast n1
    have e2 : (a.den : ℚ) ≤ (2 : ℚ) ^ bitLen a.den := by exact_mod_cast (le_of_lt d2)
    have key : (2 : ℚ) ^ (bitLen a.num.natAbs - 1) / (2 : ℚ) ^ bitLen a.den ≤
        (a.num.natAbs : ℚ) / (a.den : ℚ) := by
      rw [div_le_div_iff₀ h2pos hdq]
      exact mul_le_mul e1 e2 (le_of_lt hdq) (by positivity)
    exact le_of_le_of_eq key ha_eq.symm

theorem rat_floor_eq (q : ℚ) : q.floor = ⌊q⌋ := rfl

/-- The binary exponent found by `binadeExp` is not too small: `a < 2^(e+1)`. -/
theorem binadeExp_lt (a : ℚ) (ha : 0 < a) : a < (2 : ℚ) ^ (binadeExp a + 1) := by
  unfold binadeExp
  simp only
  split
  · have hnum : 0 < a.num := Rat.num_pos.mpr ha
    have hn : 0 < a.num.natAbs := Int.natAbs_pos.mpr (ne_of_gt hnum)
    have hd : 0 < a.den := a.den_pos
    obtain ⟨-, n2, n3⟩ := bitLen_spec a.num.natAbs hn
    obtain ⟨d1, -, d3⟩ := bitLen_spec a.den hd
    have hcast : ((bitLen a.num.natAbs : Int) - (bitLen a.den : Int) + 1) =
        ((bitLen a.num.natAbs : Nat) : Int) - ((bitLen a.den - 1 : Nat) : Int) := by
      omega
    rw [hcast, zpow_sub₀ (by norm_num : (2 : ℚ) ≠ 0), zpow_natCast, zpow_natCast]
    have ha_eq : a = (a.num.natAbs : ℚ) / (a.den : ℚ) := by
      have h1 : (a.num : ℚ) = (a.num.natAbs : ℚ) := by
        rw [← Int.cast_natCast, Int.natAbs_of_nonneg (le_of_lt hnum)]
      rw [← h1]
      exact (Rat.num_div_den a).symm
    have hdq : (0 : ℚ) < (a.den : ℚ) := by exact_mod_cast hd
    have h2pos : (0 : ℚ) < (2 : ℚ) ^ (bitLen a.den - 1) := by positivity
    have e1 : (a.num.natAbs : ℚ) < (2 : ℚ) ^ bitLen a.num.natAbs := by exact_mod_cast n2
    have e2 : (2 : ℚ) ^ (bitLen a.den - 1) ≤ (a.den : ℚ) := by exact_mod_cast d1
    have key : (a.num.natAbs : ℚ) / (a.den : ℚ) <
        (2 : ℚ) ^ bitLen a.num.natAbs / (2 : ℚ) ^ (bitLen a.den - 1) := by
      rw [div_lt_div_iff₀ hdq h2pos]
      calc (a.num.natAbs : ℚ) * (2 : ℚ) ^ (bitLen a.den - 1)
          ≤ (a.num.natAbs : ℚ) * (a.den : ℚ) :=
            mul_le_mul_of_nonneg_left e2 (Nat.cast_nonneg _)
        _ < (2 : ℚ) ^ bitLen a.num.natAbs * (a.den : ℚ) :=
            mul_lt_mul_of_pos_right e1 hdq
    exact lt_of_eq_of_lt ha_eq key
  · rename_i h
    rw [scale2_eq, one_mul] at h
    have : (bitLen a.num.natAbs : Int) - (bitLen a.den : Int) - 1 + 1 =
        (bitLen a.num.natAbs : Int) - (bitLen a.den : Int) := by ring
    rw [this]
    exact not_le.mp h

theorem roundHalfEven_cases (q : ℚ) : roundHalfEven q = ⌊q⌋ ∨ roundHalfEven q = ⌊q⌋ + 1 := by
  unfold roundHalfEven
  simp only [rat_floor_eq]
  split_ifs <;> simp

theorem roundHalfEven_error (q : ℚ) : |(roundHalfEven q : ℚ) - q| ≤ 1 / 2 := by
  have h1 : (⌊q⌋ : ℚ) ≤ q := Int.floor_le q
  have h2 : q < (⌊q⌋ : ℚ) + 1 := Int.lt_floor_add_one q
  unfold roundHalfEven
  simp only [rat_floor_eq]
  rw [abs_le]
  split_ifs with c1 c2 c3
  · constructor <;> linarith
  · push_cast; constructor <;> linarith
  · have : q - ⌊q⌋ = 1 / 2 := le_antisymm (not_lt.mp c2) (not_lt.mp c1)
    constructor <;> linarith
  · have : q - ⌊q⌋ = 1 / 2 := le_antisymm (not_lt.mp c2) (not_lt.mp c1)
    push_cast; constructor <;> linarith

/-- Rounding to the nearest integer does not cross an integer. -/
theorem roundHalfEven_le (q : ℚ) (n : Int) (h : q ≤ n) : roundHalfEven q ≤ n := by
  rcases roundHalfEven_cases q with hc | hc
  · rw [hc]
    have := Int.floor_le q
    exact Int.cast_le.mp (le_trans this h)
  · by_cases hq : q = n
    · unfold roundHalfEven
      simp only [rat_floor_eq, hq, Int.floor_intCast, sub_self]
      norm_num
    · have hlt : q < n := lt_of_le_of_ne h hq
      rw [hc]
      have : ⌊q⌋ < n := Int.floor_lt.mpr hlt
      omega

theorem le_roundHalfEven (q : ℚ) (n : Int) (h : (n : ℚ) ≤ q) : n ≤ roundHalfEven q := by
  have hf : n ≤ ⌊q⌋ := Int.le_floor.mpr h
  rcases roundHalfEven_cases q with hc | hc <;> rw [hc] <;> omega

/-- The shape of a rounded non-zero value: the magnitude is an integer multiple
of the spacing `2^ex`, nearest to the magnitude of the argument. -/
theorem roundFloat_pos (prec : Nat) (emin : Int) (q : ℚ) (hq : 0 < q) :
    roundFloat prec emin q =
      (roundHalfEven (q * (2 : ℚ) ^
        (-(max (binadeExp q - ((prec : Int) - 1)) (emin - ((prec : Int) - 1)))))  : ℚ) *
        (2 : ℚ) ^ (max (binadeExp q - ((prec : Int) - 1)) (emin - ((prec : Int) - 1))) := by
  unfold roundFloat
  rw [if_neg (ne_of_gt hq), abs_of_pos hq]
  simp only
  rw [if_neg (not_lt.mpr (le_of_lt hq)), scale2_eq, scale2_eq]

theorem roundFloat_neg (prec : Nat) (emin : Int) (q : ℚ) :
    roundFloat prec emin (-q) = -roundFloat prec emin q := by
  unfold roundFloat
  by_cases h0 : q = 0
  · simp [h0]
  · have h0' : -q ≠ 0 := neg_ne_zero.mpr h0
    rw [if_neg h0, if_neg h0', abs_neg]
    simp only
    rcases lt_or_gt_of_ne h0 with h | h
    · rw [if_neg (by linarith : ¬ -q < 0), if_pos h, neg_neg]
    · rw [if_pos (by linarith : -q < 0), if_neg (by linarith : ¬ q < 0)]

theorem roundFloat_zero (prec : Nat) (emin : Int) : roundFloat prec emin 0 = 0 := by
  unfold roundFloat
  rw [if_pos rfl]

/-- Rounding keeps the sign. -/
theorem roundFloat_nonneg (prec : Nat) (emin : Int) (q : ℚ) (hq : 0 ≤ q) :
    0 ≤ roundFloat prec emin q := by
  rcases eq_or_lt_of_le hq with h | h
  · rw [← h, roundFloat_zero]
  · rw [roundFloat_pos prec emin q h]
    have hy : ((0 : Int) : ℚ) ≤ q * (2 : ℚ) ^
        (-(max (binadeExp q - ((prec : Int) - 1)) (emin - ((prec : Int) - 1)))) := by
      push_cast
      positivity
    have hr := le_roundHalfEven _ 0 hy
    have hr' : (0 : ℚ) ≤ (roundHalfEven (q * (2 : ℚ) ^
        (-(max (binadeExp q - ((prec : Int) - 1)) (emin - ((prec : Int) - 1))))) : ℚ) := by
      exact_mod_cast hr
    positivity

theorem roundFloat_nonpos (prec : Nat) (emin : Int) (q : ℚ) (hq : q ≤ 0) :
    roundFloat prec emin q ≤ 0 := by
  have h := roundFloat_nonneg prec emin (-q) (by linarith)
  rw [roundFloat_neg] at h
  linarith

/-- Rounding does not cross a natural number that the format holds exactly:
a value of at most `m < 2^prec` rounds to at most `m`. -/
theorem roundFloat_le_nat (prec : Nat) (emin : Int) (hemin : emin ≤ (prec : Int) - 1)
    (q : ℚ) (m : Nat) (hm : m < 2 ^ prec) (h : q ≤ (m : ℚ)) :
    roundFloat prec emin q ≤ (m : ℚ) := by
  rcases le_or_lt q 0 with hq | hq
  · exact le_trans (roundFloat_nonpos prec emin q hq) (Nat.cast_nonneg m)
  · rw [roundFloat_pos prec emin q hq]
    have hexp : binadeExp q ≤ (prec : Int) - 1 := by
      by_contra hcon
      have hge : (prec : Int) ≤ binadeExp q := by omega
      have h1 : (2 : ℚ) ^ (prec : Int) ≤ (2 : ℚ) ^ binadeExp q :=
        zpow_le_zpow_right₀ (by norm_num) hge
      have h2 := binadeExp_le q hq
      have h3 : (m : ℚ) < (2 : ℚ) ^ (prec : Int) := by
        rw [zpow_natCast]
        exact_mod_cast hm
      linarith
    have hex : max (binadeExp q - ((prec : Int) - 1)) (emin - ((prec : Int) - 1)) ≤ 0 :=
      max_le (by omega) (by omega)
    obtain ⟨k, hk⟩ : ∃ k : Nat,
        max (binadeExp q - ((prec : Int) - 1)) (emin - ((prec : Int) - 1)) = -(k : Int) :=
      ⟨(-(max (binadeExp q - ((prec : Int) - 1)) (emin - ((prec : Int) - 1)))).toNat, by
        rw [Int.toNat_of_nonneg (by omega)]; ring⟩
    rw [hk, neg_neg, zpow_natCast, zpow_neg, zpow_natCast]
    have hpow : (0 : ℚ) < (2 : ℚ) ^ k := by positivity
    have hy : q * (2 : ℚ) ^ k ≤ ((m * 2 ^ k : Nat) : Int) := by
      push_cast
      exact mul_le_mul_of_nonneg_right h (le_of_lt hpow)
    have hr := roundHalfEven_le _ _ hy
    have hr' : (roundHalfEven (q * (2 : ℚ) ^ k) : ℚ) ≤ (m : ℚ) * (2 : ℚ) ^ k := by
      have : ((roundHalfEven (q * (2 : ℚ) ^ k) : Int) : ℚ) ≤ (((m * 2 ^ k : Nat) : Int) : ℚ) :=
        Int.cast_le.mpr hr
      push_cast at this
      exact this
    rw [← div_eq_mul_inv, div_le_iff₀ hpow]
    exact hr'

/-- The rounding error is at most half the spacing: relative `2^-prec` in the
normal range, absolute `2^(emin - prec)` below it. -/
theorem roundFloat_error (prec : Nat) (emin : Int) (q : ℚ) :
    |roundFloat prec emin q - q| ≤
      |q| * (2 : ℚ) ^ (-(prec : Int)) + (2 : ℚ) ^ (emin - (prec : Int)) ∧
    ((2 : ℚ) ^ emin ≤ |q| → |roundFloat prec emin q - q| ≤ |q| * (2 : ℚ) ^ (-(prec : Int))) := by
  have hpos : ∀ a : ℚ, 0 < a →
      |roundFloat prec emin a - a| ≤
        a * (2 : ℚ) ^ (-(prec : Int)) + (2 : ℚ) ^ (emin - (prec : Int)) ∧
      ((2 : ℚ) ^ emin ≤ a → |roundFloat prec emin a - a| ≤ a * (2 : ℚ) ^ (-(prec : Int))) := by
    intro a ha
    rw [roundFloat_pos prec emin a ha]
    generalize hex : max (binadeExp a - ((prec : Int) - 1)) (emin - ((prec : Int) - 1)) = ex
    have h2 : (0 : ℚ) < (2 : ℚ) ^ ex := by positivity
    have herr := roundHalfEven_error (a * (2 : ℚ) ^ (-ex))
    have hrew : (roundHalfEven (a * (2 : ℚ) ^ (-ex)) : ℚ) * (2 : ℚ) ^ ex - a =
        ((roundHalfEven (a * (2 : ℚ) ^ (-ex)) : ℚ) - a * (2 : ℚ) ^ (-ex)) * (2 : ℚ) ^ ex := by
      rw [sub_mul, mul_assoc, ← zpow_add₀ (by norm_num : (2 : ℚ) ≠ 0)]
      simp
    have hbound : |(roundHalfEven (a * (2 : ℚ) ^ (-ex)) : ℚ) * (2 : ℚ) ^ ex - a| ≤
        (2 : ℚ) ^ ex / 2 := by
      rw [hrew, abs_mul, abs_of_pos h2]
      calc |(roundHalfEven (a * (2 : ℚ) ^ (-ex)) : ℚ) - a * (2 : ℚ) ^ (-ex)| * (2 : ℚ) ^ ex
          ≤ 1 / 2 * (2 : ℚ) ^ ex := mul_le_mul_of_nonneg_right herr (le_of_lt h2)
        _ = (2 : ℚ) ^ ex / 2 := by ring
    have hA : (2 : ℚ) ^ (binadeExp a - ((prec : Int) - 1)) / 2 ≤ a * (2 : ℚ) ^ (-(prec : Int)) := by
      have e1 : (2 : ℚ) ^ (binadeExp a - ((prec : Int) - 1)) / 2 =
          (2 : ℚ) ^ binadeExp a * (2 : ℚ) ^ (-(prec : Int)) := by
        rw [show binadeExp a - ((prec : Int) - 1) = binadeExp a + (-(prec : Int)) + 1 by ring,
          zpow_add₀ (by norm_num : (2 : ℚ) ≠ 0), zpow_add₀ (by norm_num : (2 : ℚ) ≠ 0)]
        simp
      rw [e1]
      exact mul_le_mul_of_nonneg_right (binadeExp_le a ha) (by positivity)
    have hB : (2 : ℚ) ^ (emin - ((prec : Int) - 1)) / 2 = (2 : ℚ) ^ (emin - (prec : Int)) := by
      rw [show emin - ((prec : Int) - 1) = emin - (prec : Int) + 1 by ring,
        zpow_add₀ (by norm_num : (2 : ℚ) ≠ 0)]
      simp
    have hB' : (2 : ℚ) ^ emin ≤ a →
        (2 : ℚ) ^ (emin - ((prec : Int) - 1)) / 2 ≤ a * (2 : ℚ) ^ (-(prec : Int)) := by
      intro hn
      have e1 : (2 : ℚ) ^ (emin - ((prec : Int) - 1)) / 2 =
          (2 : ℚ) ^ emin * (2 : ℚ) ^ (-(prec : Int)) := by
        rw [show emin - ((prec : Int) - 1) = emin + (-(prec : Int)) + 1 by ring,
          zpow_add₀ (by norm_num : (2 : ℚ) ≠ 0), zpow_add₀ (by norm_num : (2 : ℚ) ≠ 0)]
        simp
      rw [e1]
      exact mul_le_mul_of_nonneg_right hn (by positivity)
    have hcase : ex = binadeExp a - ((prec : Int) - 1) ∨ ex = emin - ((prec : Int) - 1) := by
      rw [← hex]
      rcases le_total (binadeExp a - ((prec : Int) - 1)) (emin - ((prec : Int) - 1)) with h | h
      · right; exact max_eq_right h
      · left; exact max_eq_left h
    have hposA : (0 : ℚ) ≤ a * (2 : ℚ) ^ (-(prec : Int)) := by positivity
    have hposB : (0 : ℚ) ≤ (2 : ℚ) ^ (emin - (prec : Int)) := by positivity
    rcases hcase with hc | hc
    · rw [hc] at hbound ⊢
      exact ⟨by linarith, fun _ => by linarith⟩
    · rw [hc] at hbound ⊢
      exact ⟨by linarith, fun hn => by have := hB' hn; linarith⟩
  rcases lt_trichotomy q 0 with h | h | h
  · have hneg : 0 < -q := by linarith
    obtain ⟨a1, a2⟩ := hpos (-q) hneg
    rw [roundFloat_neg] at a1 a2
    have e : |-(roundFloat prec emin q) - -q| = |roundFloat prec emin q - q| := by
      rw [← abs_neg]; ring_nf
    rw [e] at a1 a2
    rw [abs_of_neg h]
    exact ⟨a1, a2⟩
  · subst h
    rw [roundFloat_zero]
    simp only [sub_self, abs_zero, zero_mul, zero_add]
    exact ⟨by positivity, fun _ => le_refl _⟩
  · obtain ⟨a1, a2⟩ := hpos q h
    rw [abs_of_pos h]
    exact ⟨a1, a2⟩

/-- The cast of a value in `[0, n]` is at most `n`. -/
theorem castUInt32_le (q : ℚ) (n : Nat) (h0 : 0 ≤ q) (h : q ≤ (n : ℚ)) : castUInt32 q ≤ n := by
  unfold castUInt32
  rw [if_pos h0, rat_floor_eq]
  have hf0 : 0 ≤ ⌊q⌋ := Int.floor_nonneg.mpr h0
  have hfn : ⌊q⌋ ≤ (n : Int) := by
    have : (⌊q⌋ : ℚ) ≤ ((n : Int) : ℚ) := le_trans (Int.floor_le q) (by exact_mod_cast h)
    exact Int.cast_le.mp this
  have hU : (U32 : Int) = 4294967296 := by unfold U32; norm_num
  rw [hU]
  omega

/-- The cast of a value in `[0, 2^32)` is its integer part. -/
theorem castUInt32_eq (q : ℚ) (h0 : 0 ≤ q) (h : q < (U32 : ℚ)) :
    (castUInt32 q : Int) = ⌊q⌋ := by
  unfold castUInt32
  rw [if_pos h0, rat_floor_eq]
  have hf0 : 0 ≤ ⌊q⌋ := Int.floor_nonneg.mpr h0
  have hfn : ⌊q⌋ < (U32 : Int) := Int.floor_lt.mpr (by exact_mod_cast h)
  rw [Int.emod_eq_of_lt hf0 hfn, Int.toNat_of_nonneg hf0]

/-! ## Lemmas on initEncoder -/

theorem cleanUp_status (s : State) (tr : List Event) : (cleanUp s tr).1 = .UNKNOWN_ERROR := rfl

theorem allocConversionBuffer_ok {s : State} {env : Env} {tr : List Event}
    (h : (allocConversionBuffer s env tr).1 = .OK) :
    (allocConversionBuffer s env tr).2.1 =
      { s with
        mConversionBuffer :=
          env.allocate (bufferSize (alignStride s.mSize.value.width s.mStrideAlign)
            (alignStride s.mSize.value.height s.mStrideAlign))
        mNumInputFrames := -1 } := by
  unfold allocConversionBuffer at h ⊢
  simp only at h ⊢
  split at h
  · simp [cleanUp] at h
  · rename_i h1
    rw [if_neg h1]
    split at h
    · simp [cleanUp] at h
    · rename_i h2
      rw [if_neg h2]

/-- A successful `initEncoder` went through the layer switch, and its final state
is the state after the switch with the finished configuration, a live context
and the freshly allocated conversion buffer. -/
theorem initEncoder_ok {s : State} {intf : Intf} {env : Env}
    (h : (initEncoder s intf env).1 = .OK) :
    ∃ s3 cfg3,
      temporalConfig (initPrepared s intf env)
        (baseConfig (initPrepared s intf env) env.defaultConfig) = some (s3, cfg3) ∧
      (initEncoder s intf env).2.1 =
        { s3 with
          mCodecConfiguration := some (finishConfig s3 intf env cfg3)
          mCodecContext := true
          mConversionBuffer :=
            env.allocate (bufferSize (alignStride s3.mSize.value.width s3.mStrideAlign)
              (alignStride s3.mSize.value.height s3.mStrideAlign))
          mNumInputFrames := -1 } := by
  unfold initEncoder at h ⊢
  simp only at h ⊢
  split at h
  · simp [cleanUp] at h
  · rename_i h1
    rw [if_neg h1]
    split at h
    · simp [cleanUp] at h
    · rename_i h2
      rw [if_neg h2]
      split at h
      · simp [cleanUp] at h
      · rename_i s3 cfg3 heq
        refine ⟨s3, cfg3, ?_, ?_⟩
        · simpa [initPrepared] using heq
        · split at h
          · simp [cleanUp] at h
          · rename_i h3
            split at h
            · simp [cleanUp] at h
            · rename_i h4
              split at h
              · simp [cleanUp] at h
              · rename_i h5
                simp only [heq, if_neg h3, if_neg h4, if_neg h5]
                rw [allocConversionBuffer_ok h]

/-! ## Lemmas on the temporal pattern -/

/-- After a successful `initEncoder` the layer count is at most 3, the pattern
length and the entries below it are those of `patternTable`, and the cursor is
the one from before the call. -/
theorem initEncoder_pattern {s : State} {intf : Intf} {env : Env}
    (h : (initEncoder s intf env).1 = .OK) :
    intf.mLayering.value.layerCount ≤ 3 ∧
    (initEncoder s intf env).2.1.mTemporalPatternLength =
      (patternTable intf.mLayering.value.layerCount).length ∧
    (∀ i, i < (patternTable intf.mLayering.value.layerCount).length →
      (initEncoder s intf env).2.1.mTemporalPattern i =
        (patternTable intf.mLayering.value.layerCount)[i]?) ∧
    (initEncoder s intf env).2.1.mTemporalPatternIdx = s.mTemporalPatternIdx := by
  obtain ⟨s3, cfg3, ht, hs⟩ := initEncoder_ok h
  rw [hs]
  have hL : (initPrepared s intf env).mTemporalLayers = intf.mLayering.value.layerCount := by
    simp only [initPrepared, selectRateControl, loadParams]
    split <;> rfl
  have hI : (initPrepared s intf env).mTemporalPatternIdx = s.mTemporalPatternIdx := by
    simp only [initPrepared, selectRateControl, loadParams]
    split <;> rfl
  unfold temporalConfig at ht
  rw [hL] at ht
  split at ht
  · rename_i h0
    simp only [Option.some.injEq, Prod.mk.injEq] at ht
    obtain ⟨rfl, -⟩ := ht
    simp [h0, patternTable, hI]
  · rename_i h0
    simp only [Option.some.injEq, Prod.mk.injEq] at ht
    obtain ⟨rfl, -⟩ := ht
    refine ⟨by omega, by simp [h0, patternTable], ?_, by simp [hI]⟩
    intro i hi
    simp only [h0, patternTable, List.length_singleton, Nat.lt_one_iff] at hi
    subst hi
    simp [h0, patternTable, arrSet]
  · rename_i h0
    simp only [Option.some.injEq, Prod.mk.injEq] at ht
    obtain ⟨rfl, -⟩ := ht
    refine ⟨by omega, by simp [h0, patternTable], ?_, by simp [hI]⟩
    intro i hi
    simp only [h0, patternTable, List.length_cons, List.length_nil] at hi
    interval_cases i <;> simp [h0, patternTable, arrSet]
  · rename_i h0
    simp only [Option.some.injEq, Prod.mk.injEq] at ht
    obtain ⟨rfl, -⟩ := ht
    refine ⟨by omega, by simp [h0, patternTable], ?_, by simp [hI]⟩
    intro i hi
    simp only [h0, patternTable, List.length_cons, List.length_nil] at hi
    interval_cases i <;> simp [h0, patternTable, arrSet]
  · simp at ht

/-- Consecutive `getEncodeFlags` calls change nothing but the cursor, and the
cursor advances by one per call modulo any pattern length dividing `2^64`. -/
theorem getEncodeFlagsN_cursor (n : Nat) :
    ∀ t : State, 0 < t.mTemporalPatternLength → t.mTemporalPatternLength ∣ U64 →
      (getEncodeFlagsN n t).2.mTemporalPattern = t.mTemporalPattern ∧
      (getEncodeFlagsN n t).2.mTemporalPatternLength = t.mTemporalPatternLength ∧
      (getEncodeFlagsN n t).2.mTemporalPatternIdx % t.mTemporalPatternLength =
        (t.mTemporalPatternIdx + n) % t.mTemporalPatternLength := by
  induction n with
  | zero => intro t _ _; simp [getEncodeFlagsN]
  | succ k ih =>
    intro t hpos hdvd
    have hstep : getEncodeFlags t =
        (switchFlags (t.mTemporalPattern (t.mTemporalPatternIdx % t.mTemporalPatternLength)),
          { t with mTemporalPatternIdx := (t.mTemporalPatternIdx + 1) % U64 }) := by
      unfold getEncodeFlags
      rw [if_pos hpos]
    obtain ⟨h1, h2, h3⟩ :=
      ih { t with mTemporalPatternIdx := (t.mTemporalPatternIdx + 1) % U64 } hpos hdvd
    simp only [getEncodeFlagsN, hstep]
    refine ⟨h1, h2, ?_⟩
    rw [h3]
    simp only
    rw [Nat.add_mod, Nat.mod_mod_of_dvd _ hdvd, ← Nat.add_mod]
    congr 1
    omega

/-- With a pattern length dividing `2^64`, the flags of the call after `n`
earlier ones are those of the entry at the starting cursor plus `n`. -/
theorem nthFlags_eq (t : State) (n : Nat) (hpos : 0 < t.mTemporalPatternLength)
    (hdvd : t.mTemporalPatternLength ∣ U64) :
    nthFlags t n =
      switchFlags (t.mTemporalPattern ((t.mTemporalPatternIdx + n) % t.mTemporalPatternLength)) := by
  obtain ⟨h1, h2, h3⟩ := getEncodeFlagsN_cursor n t hpos hdvd
  unfold nthFlags getEncodeFlags
  rw [h2, if_pos hpos, h1, h3]

/-- Without a pattern (`mTemporalPatternLength = 0`) every call returns 0 and
leaves the state as it is. -/
theorem getEncodeFlagsN_none (n : Nat) (t : State) (h0 : t.mTemporalPatternLength = 0) :
    getEncodeFlagsN n t = (List.replicate n 0, t) := by
  have hstep : getEncodeFlags t = (0, t) := by
    unfold getEncodeFlags
    simp [h0]
  induction n with
  | zero => rfl
  | succ k ih => simp [getEncodeFlagsN, hstep, ih, List.replicate_succ]

/-- The list of the first `n` flags consists of `nthFlags 0 .. n-1`. -/
theorem getEncodeFlagsN_eq_map (n : Nat) :
    ∀ t : State, (getEncodeFlagsN n t).1 = (List.range n).map (nthFlags t) := by
  induction n with
  | zero => intro t; rfl
  | succ k ih =>
    intro t
    rw [List.range_succ_eq_map]
    simp only [getEncodeFlagsN, List.map_cons, List.map_map, ih]
    congr 1

theorem one_dvd_U64 : 1 ∣ U64 := one_dvd _

theorem eight_dvd_U64 : 8 ∣ U64 := by
  unfold U64
  exact Dvd.intro (2 ^ 61) (by norm_num)

/-- After a successful `initEncoder`, the flags of every later call are given by
`flagsAt` at the layer count and the starting cursor plus the number of calls
made before. -/
theorem nthFlags_after_init {s : State} {intf : Intf} {env : Env}
    (h : (initEncoder s intf env).1 = .OK) (n : Nat) :
    nthFlags (initEncoder s intf env).2.1 n =
      flagsAt intf.mLayering.value.layerCount (s.mTemporalPatternIdx + n) := by
  obtain ⟨hL, hlen, hpat, hidx⟩ := initEncoder_pattern h
  have hcases : intf.mLayering.value.layerCount = 0 ∨ intf.mLayering.value.layerCount = 1 ∨
      intf.mLayering.value.layerCount = 2 ∨ intf.mLayering.value.layerCount = 3 := by omega
  rcases hcases with h0 | h1
  · have hz : (initEncoder s intf env).2.1.mTemporalPatternLength = 0 := by
      rw [hlen, h0]; rfl
    unfold nthFlags
    rw [getEncodeFlagsN_none n _ hz]
    unfold getEncodeFlags
    simp [hz, h0, flagsAt, patternTable, switchFlags]
  · have hpos : 0 < (initEncoder s intf env).2.1.mTemporalPatternLength := by
      rw [hlen]
      rcases h1 with h1 | h1 | h1 <;> rw [h1] <;> simp [patternTable]
    have hdvd : (initEncoder s intf env).2.1.mTemporalPatternLength ∣ U64 := by
      rw [hlen]
      rcases h1 with h1 | h1 | h1 <;> rw [h1]
      · exact one_dvd_U64
      · exact eight_dvd_U64
      · exact eight_dvd_U64
    rw [nthFlags_eq _ n hpos hdvd, hidx, hlen]
    rw [hlen] at hpos
    rw [hpat _ (Nat.mod_lt _ hpos)]
    rfl

/-- In the tables for 2 and 3 layers only entry 0 has the flags of entry 0. -/
theorem flagsAt_zero_unique (L : Nat) (hL : L = 2 ∨ L = 3) (i : Nat) (hi : i < 8)
    (h : flagsAt L i = flagsAt L 0) : i = 0 := by
  rcases hL with rfl | rfl <;> interval_cases i <;> first | rfl | (exfalso; revert h; decide)

theorem flagsAt_mod_eight (L : Nat) (hL : L = 2 ∨ L = 3) (k : Nat) :
    flagsAt L k = flagsAt L (k % 8) := by
  rcases hL with rfl | rfl <;> simp [flagsAt, patternTable]

/-- C1: with two temporal layers and the cursor at 0, the eight `getEncodeFlags`
calls that follow a successful `initEncoder` return, in order, the flag sets
{NO_UPD_ARF, NO_REF_GF}; {NO_REF_GF, NO_UPD_ARF, NO_UPD_LAST};
{NO_UPD_GF, NO_UPD_ARF, NO_REF_GF}; {NO_UPD_ARF, NO_UPD_LAST};
{NO_UPD_GF, NO_UPD_ARF, NO_REF_GF}; {NO_UPD_ARF, NO_UPD_LAST};
{NO_UPD_GF, NO_UPD_ARF, NO_REF_GF}; {NO_UPD_GF, NO_UPD_ARF, NO_UPD_LAST,
NO_UPD_ENTROPY}, which are the flags of the eight entries of the 2-layer
pattern. -/
theorem C1_two_layer_flag_sequence (s : State) (intf : Intf) (env : Env)
    (hL : intf.mLayering.value.layerCount = 2)
    (hcur : s.mTemporalPatternIdx = 0)
    (hok : (initEncoder s intf env).1 = .OK) :
    (getEncodeFlagsN 8 (initEncoder s intf env).2.1).1 =
      [VP8_EFLAG_NO_UPD_ARF ||| VP8_EFLAG_NO_REF_GF,
        VP8_EFLAG_NO_REF_GF ||| VP8_EFLAG_NO_UPD_ARF ||| VP8_EFLAG_NO_UPD_LAST,
        VP8_EFLAG_NO_UPD_GF ||| VP8_EFLAG_NO_UPD_ARF ||| VP8_EFLAG_NO_REF_GF,
        VP8_EFLAG_NO_UPD_ARF ||| VP8_EFLAG_NO_UPD_LAST,
        VP8_EFLAG_NO_UPD_GF ||| VP8_EFLAG_NO_UPD_ARF ||| VP8_EFLAG_NO_REF_GF,
        VP8_EFLAG_NO_UPD_ARF ||| VP8_EFLAG_NO_UPD_LAST,
        VP8_EFLAG_NO_UPD_GF ||| VP8_EFLAG_NO_UPD_ARF ||| VP8_EFLAG_NO_REF_GF,
        VP8_EFLAG_NO_UPD_GF ||| VP8_EFLAG_NO_UPD_ARF ||| VP8_EFLAG_NO_UPD_LAST
          ||| VP8_EFLAG_NO_UPD_ENTROPY] ∧
    (getEncodeFlagsN 8 (initEncoder s intf env).2.1).1 =
      (patternTable 2).map (fun d => switchFlags (some d)) := by
  have hflags : (getEncodeFlagsN 8 (initEncoder s intf env).2.1).1 =
      (List.range 8).map (fun n => flagsAt 2 n) := by
    rw [getEncodeFlagsN_eq_map]
    apply List.map_congr_left
    intro n _
    rw [nthFlags_after_init hok, hL, hcur, Nat.zero_add]
  rw [hflags]
  constructor <;> decide

/-- C1 at the constructed component with the default parameters and two layers. -/
theorem C1_two_layer_flag_sequence_witness :
    (layeredIntf 2 [3 / 5]).mLayering.value.layerCount = 2 ∧
    construct.mTemporalPatternIdx = 0 ∧
    (initEncoder construct (layeredIntf 2 [3 / 5]) (sampleEnv [])).1 = .OK ∧
    (getEncodeFlagsN 8 (initEncoder construct (layeredIntf 2 [3 / 5]) (sampleEnv [])).2.1).1 =
      [VP8_EFLAG_NO_UPD_ARF ||| VP8_EFLAG_NO_REF_GF,
        VP8_EFLAG_NO_REF_GF ||| VP8_EFLAG_NO_UPD_ARF ||| VP8_EFLAG_NO_UPD_LAST,
        VP8_EFLAG_NO_UPD_GF ||| VP8_EFLAG_NO_UPD_ARF ||| VP8_EFLAG_NO_REF_GF,
        VP8_EFLAG_NO_UPD_ARF ||| VP8_EFLAG_NO_UPD_LAST,
        VP8_EFLAG_NO_UPD_GF ||| VP8_EFLAG_NO_UPD_ARF ||| VP8_EFLAG_NO_REF_GF,
        VP8_EFLAG_NO_UPD_ARF ||| VP8_EFLAG_NO_UPD_LAST,
        VP8_EFLAG_NO_UPD_GF ||| VP8_EFLAG_NO_UPD_ARF ||| VP8_EFLAG_NO_REF_GF,
        VP8_EFLAG_NO_UPD_GF ||| VP8_EFLAG_NO_UPD_ARF ||| VP8_EFLAG_NO_UPD_LAST
          ||| VP8_EFLAG_NO_UPD_ENTROPY] :=
  ⟨rfl, rfl, by decide,
    (C1_two_layer_flag_sequence construct (layeredIntf 2 [3 / 5]) (sampleEnv []) rfl rfl
      (by decide)).1⟩

/-- C2: after a successful `initEncoder` with layer count L and pattern length P
(the `mTemporalPatternLength` it sets): P is 1, 8, 8 for L = 1, 2, 3; for these
L the flags of the n-th and the (n + P)-th `getEncodeFlags` call are equal for
every n, and every p > 0 with that property is at least P; for L = 0 every call
returns 0 and leaves the state, cursor included, as it is; and the flags of
every call are a function (`flagsAt`) of the layer count and of the starting
cursor plus the number of earlier calls. -/
theorem C2_flags_cycle_with_declared_period (s : State) (intf : Intf) (env : Env)
    (hok : (initEncoder s intf env).1 = .OK) :
    (intf.mLayering.value.layerCount = 1 →
      (initEncoder s intf env).2.1.mTemporalPatternLength = 1) ∧
    (intf.mLayering.value.layerCount = 2 →
      (initEncoder s intf env).2.1.mTemporalPatternLength = 8) ∧
    (intf.mLayering.value.layerCount = 3 →
      (initEncoder s intf env).2.1.mTemporalPatternLength = 8) ∧
    (intf.mLayering.value.layerCount = 1 ∨ intf.mLayering.value.layerCount = 2 ∨
        intf.mLayering.value.layerCount = 3 →
      (∀ n, nthFlags (initEncoder s intf env).2.1
          (n + (initEncoder s intf env).2.1.mTemporalPatternLength) =
        nthFlags (initEncoder s intf env).2.1 n) ∧
      (∀ p, 0 < p →
        (∀ n, nthFlags (initEncoder s intf env).2.1 (n + p) =
          nthFlags (initEncoder s intf env).2.1 n) →
        (initEncoder s intf env).2.1.mTemporalPatternLength ≤ p)) ∧
    (intf.mLayering.value.layerCount = 0 →
      ∀ n, getEncodeFlagsN n (initEncoder s intf env).2.1 =
        (List.replicate n 0, (initEncoder s intf env).2.1)) ∧
    (∀ n, nthFlags (initEncoder s intf env).2.1 n =
      flagsAt intf.mLayering.value.layerCount (s.mTemporalPatternIdx + n)) := by
  obtain ⟨hL, hlen, -, -⟩ := initEncoder_pattern hok
  have h1 : intf.mLayering.value.layerCount = 1 →
      (initEncoder s intf env).2.1.mTemporalPatternLength = 1 := by
    intro h; rw [hlen, h]; rfl
  have h2 : intf.mLayering.value.layerCount = 2 →
      (initEncoder s intf env).2.1.mTemporalPatternLength = 8 := by
    intro h; rw [hlen, h]; rfl
  have h3 : intf.mLayering.value.layerCount = 3 →
      (initEncoder s intf env).2.1.mTemporalPatternLength = 8 := by
    intro h; rw [hlen, h]; rfl
  refine ⟨h1, h2, h3, ?_, ?_, fun n => nthFlags_after_init hok n⟩
  · intro hcase
    constructor
    · intro n
      rw [nthFlags_after_init hok, nthFlags_after_init hok]
      rcases hcase with h | h | h
      · rw [h1 h, h]; simp [flagsAt, patternTable, Nat.mod_one]
      · rw [h2 h, h, flagsAt_mod_eight 2 (Or.inl rfl), flagsAt_mod_eight 2 (Or.inl rfl) (_ + n)]
        congr 1
        omega
      · rw [h3 h, h, flagsAt_mod_eight 3 (Or.inr rfl), flagsAt_mod_eight 3 (Or.inr rfl) (_ + n)]
        congr 1
        omega
    · intro p hp hper
      rcases hcase with h | h23
      · rw [h1 h]; omega
      · have hP : (initEncoder s intf env).2.1.mTemporalPatternLength = 8 := by
          rcases h23 with h | h
          · exact h2 h
          · exact h3 h
        rw [hP]
        have hq := hper (8 - s.mTemporalPatternIdx % 8)
        rw [nthFlags_after_init hok, nthFlags_after_init hok,
          flagsAt_mod_eight _ h23, flagsAt_mod_eight _ h23 (_ + (8 - _))] at hq
        have e1 : (s.mTemporalPatternIdx + (8 - s.mTemporalPatternIdx % 8 + p)) % 8 = p % 8 := by
          omega
        have e2 : (s.mTemporalPatternIdx + (8 - s.mTemporalPatternIdx % 8)) % 8 = 0 := by
          omega
        rw [e1, e2] at hq
        have := flagsAt_zero_unique _ h23 (p % 8) (Nat.mod_lt _ (by norm_num)) hq
        omega
  · intro h0 n
    apply getEncodeFlagsN_none
    rw [hlen, h0]
    rfl

/-- C2 at the constructed component with the default parameters and three
layers. -/
theorem C2_flags_cycle_with_declared_period_witness :
    (initEncoder construct (layeredIntf 3 [2 / 5, 3 / 5]) (sampleEnv [])).1 = .OK ∧
    (initEncoder construct (layeredIntf 3 [2 / 5, 3 / 5]) (sampleEnv [])).2.1.mTemporalPatternLength
      = 8 ∧
    nthFlags (initEncoder construct (layeredIntf 3 [2 / 5, 3 / 5]) (sampleEnv [])).2.1 (3 + 8) =
      nthFlags (initEncoder construct (layeredIntf 3 [2 / 5, 3 / 5]) (sampleEnv [])).2.1 3 :=
  ⟨by decide,
    (C2_flags_cycle_with_declared_period construct (layeredIntf 3 [2 / 5, 3 / 5]) (sampleEnv [])
      (by decide)).2.2.1 rfl,
    by
      have h := ((C2_flags_cycle_with_declared_period construct (layeredIntf 3 [2 / 5, 3 / 5])
        (sampleEnv []) (by decide)).2.2.2.1 (Or.inr (Or.inr rfl))).1 3
      rw [(C2_flags_cycle_with_declared_period construct (layeredIntf 3 [2 / 5, 3 / 5])
        (sampleEnv []) (by decide)).2.2.1 rfl] at h
      exact h⟩

/-! ## The target bitrate set by initEncoder -/

theorem foldl_layer_rc (ratio : Nat → ℚ) (l : List Nat) :
    ∀ c : vpx_codec_enc_cfg_t,
      (l.foldl
        (fun c i =>
          { c with
            ts_target_bitrate :=
              arrSet c.ts_target_bitrate i
                (castUInt32 (f32 (f32 (c.rc_target_bitrate : ℚ) * f32 (ratio i)))) })
        c).rc_target_bitrate = c.rc_target_bitrate := by
  induction l with
  | nil => intro c; rfl
  | cons a t ih => intro c; rw [List.foldl_cons, ih]

theorem layerBitrates_rc (s : State) (cfg : vpx_codec_enc_cfg_t) :
    (layerBitrates s cfg).rc_target_bitrate = cfg.rc_target_bitrate :=
  foldl_layer_rc _ _ cfg

theorem finishConfig_rc (s : State) (intf : Intf) (env : Env) (cfg : vpx_codec_enc_cfg_t) :
    (finishConfig s intf env cfg).rc_target_bitrate = cfg.rc_target_bitrate := by
  unfold finishConfig quantizerConfig syncPeriodConfig
  simp only
  split <;> split <;> split <;> simp [layerBitrates_rc]

theorem baseConfig_rc (s : State) (cfg : vpx_codec_enc_cfg_t) :
    (baseConfig s cfg).rc_target_bitrate = ((s.mBitrate.value + 500) % U32) / 1000 := by
  unfold baseConfig
  simp only
  split <;> rfl

/-- The layer switch changes only the three temporal members of the state and
leaves the target bitrate of the record alone. -/
theorem temporalConfig_some {s s3 : State} {cfg cfg3 : vpx_codec_enc_cfg_t}
    (h : temporalConfig s cfg = some (s3, cfg3)) :
    (∃ pat ratio len,
      s3 = { s with
        mTemporalPattern := pat
        mTemporalLayerBitrateRatio := ratio
        mTemporalPatternLength := len }) ∧
    cfg3.rc_target_bitrate = cfg.rc_target_bitrate := by
  unfold temporalConfig at h
  split at h
  all_goals first
    | (simp at h; done)
    | (simp only [Option.some.injEq, Prod.mk.injEq] at h
       obtain ⟨rfl, rfl⟩ := h
       exact ⟨⟨_, _, _, rfl⟩, rfl⟩)

theorem initPrepared_bitrate (s : State) (intf : Intf) (env : Env) :
    (initPrepared s intf env).mBitrate = intf.mBitrate := by
  simp only [initPrepared, selectRateControl, loadParams]
  split <;> rfl

/-- The target bitrate of the configuration record after a successful
`initEncoder`. -/
theorem initEncoder_rc {s : State} {intf : Intf} {env : Env}
    (h : (initEncoder s intf env).1 = .OK) :
    ∃ cfg, (initEncoder s intf env).2.1.mCodecConfiguration = some cfg ∧
      cfg.rc_target_bitrate = ((intf.mBitrate.value + 500) % U32) / 1000 := by
  obtain ⟨s3, cfg3, ht, hs⟩ := initEncoder_ok h
  obtain ⟨-, hrc⟩ := temporalConfig_some ht
  refine ⟨finishConfig s3 intf env cfg3, by rw [hs], ?_⟩
  rw [finishConfig_rc, hrc, baseConfig_rc, initPrepared_bitrate]

/-- C3: for every configured bitrate b with 4096 ≤ b ≤ 40,000,000, the sum
b + 500 stays below 2^32, a successful `initEncoder` leaves
`rc_target_bitrate = (b + 500) div 1000` in the configuration record, and this
value k is b / 1000 rounded half-up: 1000 k - 500 ≤ b < 1000 k + 500. -/
theorem C3_target_bitrate_rounds_half_up (s : State) (intf : Intf) (env : Env)
    (hlo : 4096 ≤ intf.mBitrate.value) (hhi : intf.mBitrate.value ≤ 40000000)
    (hok : (initEncoder s intf env).1 = .OK) :
    intf.mBitrate.value + 500 < U32 ∧
    ∃ cfg, (initEncoder s intf env).2.1.mCodecConfiguration = some cfg ∧
      cfg.rc_target_bitrate = (intf.mBitrate.value + 500) / 1000 ∧
      (1000 * (cfg.rc_target_bitrate : ℤ) - 500 ≤ intf.mBitrate.value) ∧
      ((intf.mBitrate.value : ℤ) < 1000 * cfg.rc_target_bitrate + 500) := by
  have hlt : intf.mBitrate.value + 500 < U32 := by unfold U32; omega
  obtain ⟨cfg, hc, hrc⟩ := initEncoder_rc hok
  rw [Nat.mod_eq_of_lt hlt] at hrc
  refine ⟨hlt, cfg, hc, hrc, ?_, ?_⟩ <;> rw [hrc] <;> omega

/-- C3 at the default parameters (64000 bits per second give 64 kbps). -/
theorem C3_target_bitrate_rounds_half_up_witness :
    4096 ≤ defaultIntf.mBitrate.value ∧ defaultIntf.mBitrate.value ≤ 40000000 ∧
    (initEncoder construct defaultIntf (sampleEnv [])).1 = .OK ∧
    ∃ cfg, (initEncoder construct defaultIntf (sampleEnv [])).2.1.mCodecConfiguration = some cfg ∧
      cfg.rc_target_bitrate = 64 :=
  ⟨by decide, by decide, by decide,
    (C3_target_bitrate_rounds_half_up construct defaultIntf (sampleEnv []) (by decide)
      (by decide) (by decide)).2.imp fun _ h => ⟨h.1, h.2.1⟩⟩

/-! ## Lemmas on process -/

/-- With a latch set, `process` returns at its first check. -/
theorem process_latched (s : State) (intf : Intf) (env : Env) (work : C2Work)
    (h : s.mSignalledError = true ∨ s.mSignalledOutputEos = true) :
    process s intf env work =
      ⟨s, intf, { beginWork work with result := .C2_BAD_VALUE }, []⟩ := by
  unfold process
  have : (s.mSignalledError || s.mSignalledOutputEos) = true := by
    rcases h with h | h <;> simp [h]
  simp [this]

/-- Without a latch, `process` continues with `processFrame` unless
`initEncoder` was needed and failed. -/
theorem process_session (s : State) (intf : Intf) (env : Env) (work : C2Work)
    (he : s.mSignalledError = false) (hs : s.mSignalledOutputEos = false)
    (hi : s.mCodecContext = true ∨ (initEncoder s intf env).1 = .OK) :
    process s intf env work =
      processFrame (sessionState s intf env) intf env (beginWork work)
        (sessionTrace s intf env) := by
  unfold process sessionState sessionTrace
  simp only [he, hs, Bool.or_self, Bool.false_eq_true, if_false]
  by_cases hc : s.mCodecContext = true
  · simp [hc]
  · have hok : (initEncoder s intf env).1 = .OK := by
      rcases hi with h | h
      · exact absurd h hc
      · exact h
    simp [hc, hok]

/-- A call that satisfies `Encodes` is the encode path run on the session state. -/
theorem process_encodes {s : State} {intf : Intf} {env : Env} {work : C2Work}
    {v : InputBuffer} {img : vpx_image_t} {ev : List Event}
    (h : Encodes s intf env work v img ev) :
    process s intf env work =
      encodeFrame (sessionState s intf env) intf env (beginWork work)
        (sessionTrace s intf env ++ ev) img := by
  rw [process_session s intf env work h.noError h.noEos h.encoder]
  have hb : (beginWork work).inputBuffers.head? = some v := h.buffer
  unfold processFrame
  split
  · rename_i hnil
    rw [hnil] at hb
    simp at hb
  · rename_i v2 rest hcons
    rw [hcons] at hb
    simp only [List.head?_cons, Option.some.injEq] at hb
    subst hb
    have h1 := h.mapped
    have h2 := h.wide
    have h3 := h.high
    have h4 := h.widthLimit
    have h5 := h.heightLimit
    rw [if_neg (by simp [h1]), if_neg (by omega), if_neg (by omega)]
    rw [h.adapted]

/-- `getEncodeFlags` changes nothing but the cursor. -/
theorem getEncodeFlags_state (s : State) :
    ∃ idx, (getEncodeFlags s).2 = { s with mTemporalPatternIdx := idx } := by
  unfold getEncodeFlags
  split
  · exact ⟨_, rfl⟩
  · exact ⟨s.mTemporalPatternIdx, rfl⟩

/-- The packet loop changes nothing in the state but the frame counter and the
end-of-stream latch. -/
theorem drainPackets_state (env : Env) (eos : Bool) (ps : List vpx_codec_cx_pkt_t) :
    ∀ acc : DrainAcc, ∃ n e,
      (drainPackets env eos ps acc).1.state =
        { acc.state with mNumInputFrames := n, mSignalledOutputEos := e } := by
  induction ps with
  | nil => intro acc; exact ⟨_, _, rfl⟩
  | cons p ps ih =>
    intro acc
    unfold drainPackets
    simp only
    split
    · split
      · exact ⟨_, _, rfl⟩
      · split
        · exact ⟨_, _, rfl⟩
        · obtain ⟨n, e, h⟩ := ih
            { state :=
                { acc.state with
                  mNumInputFrames := acc.state.mNumInputFrames + 1
                  mSignalledOutputEos := if eos then true else acc.state.mSignalledOutputEos }
              work :=
                { acc.work with
                  outputFlags := if eos then 0 ||| FLAG_END_OF_STREAM else 0
                  outputBuffers :=
                    [{ payload := p.buf.take p.sz
                       size := p.sz
                       syncFrame := p.flags &&& VPX_FRAME_IS_KEY ≠ 0 }]
                  outputOrdinal := { acc.work.inputOrdinal with timestamp := p.pts }
                  workletsProcessed := 1 }
              trace := acc.trace ++ [Event.vpx_codec_get_cx_data] ++ [Event.fetchLinearBlock p.sz]
              populated := true
              frames := acc.frames + 1 }
          exact ⟨n, e, h⟩
    · obtain ⟨n, e, h⟩ := ih { acc with trace := acc.trace ++ [Event.vpx_codec_get_cx_data] }
      exact ⟨n, e, h⟩

/-- The packet loop appends only packet queries and block pool requests to the
trace. -/
theorem drainPackets_trace (env : Env) (eos : Bool) (ps : List vpx_codec_cx_pkt_t) :
    ∀ acc : DrainAcc, ∃ post,
      (drainPackets env eos ps acc).1.trace = acc.trace ++ post ∧
      encodeCalls post = [] ∧ configSets post = [] ∧ pushesAndEncodes post = [] := by
  induction ps with
  | nil => intro acc; exact ⟨[Event.vpx_codec_get_cx_data], rfl, rfl, rfl, rfl⟩
  | cons p ps ih =>
    intro acc
    unfold drainPackets
    simp only
    split
    · split
      · exact ⟨[Event.vpx_codec_get_cx_data, Event.fetchLinearBlock p.sz], by simp, rfl, rfl, rfl⟩
      · split
        · exact ⟨[Event.vpx_codec_get_cx_data, Event.fetchLinearBlock p.sz], by simp, rfl, rfl,
            rfl⟩
        · obtain ⟨post, h, h1, h2, h3⟩ := ih
            { state :=
                { acc.state with
                  mNumInputFrames := acc.state.mNumInputFrames + 1
                  mSignalledOutputEos := if eos then true else acc.state.mSignalledOutputEos }
              work :=
                { acc.work with
                  outputFlags := if eos then 0 ||| FLAG_END_OF_STREAM else 0
                  outputBuffers :=
                    [{ payload := p.buf.take p.sz
                       size := p.sz
                       syncFrame := p.flags &&& VPX_FRAME_IS_KEY ≠ 0 }]
                  outputOrdinal := { acc.work.inputOrdinal with timestamp := p.pts }
                  workletsProcessed := 1 }
              trace := acc.trace ++ [Event.vpx_codec_get_cx_data] ++ [Event.fetchLinearBlock p.sz]
              populated := true
              frames := acc.frames + 1 }
          refine ⟨[Event.vpx_codec_get_cx_data, Event.fetchLinearBlock p.sz] ++ post, ?_, ?_, ?_,
            ?_⟩
          · rw [h]; simp
          · simp [encodeCalls] at h1 ⊢; exact h1
          · simp [configSets] at h2 ⊢; exact h2
          · simp [pushesAndEncodes] at h3 ⊢; exact h3
    · obtain ⟨post, h, h1, h2, h3⟩ :=
        ih { acc with trace := acc.trace ++ [Event.vpx_codec_get_cx_data] }
      refine ⟨[Event.vpx_codec_get_cx_data] ++ post, ?_, ?_, ?_, ?_⟩
      · rw [h]; simp
      · simp [encodeCalls] at h1 ⊢; exact h1
      · simp [configSets] at h2 ⊢; exact h2
      · simp [pushesAndEncodes] at h3 ⊢; exact h3

theorem dynamicConfig_frame (s : State) (intf : Intf) (env : Env) (flags : Nat) :
    ∃ ir rs br cfg err,
      (dynamicConfig s intf env flags).state =
        { s with
          mIntraRefresh := ir
          mRequestSync := rs
          mBitrate := br
          mCodecConfiguration := cfg
          mSignalledError := err } := by
  unfold dynamicConfig
  simp only
  split_ifs <;> exact ⟨_, _, _, _, _, rfl⟩

theorem dynamicConfig_bitrate_same (s : State) (intf : Intf) (env : Env) (flags : Nat)
    (h : intf.mBitrate.addr = s.mBitrate.addr) :
    (dynamicConfig s intf env flags).ok = true ∧
    configSets (dynamicConfig s intf env flags).trace = [] ∧
    pushesAndEncodes (dynamicConfig s intf env flags).trace = [] ∧
    (dynamicConfig s intf env flags).state.mCodecConfiguration = s.mCodecConfiguration ∧
    (dynamicConfig s intf env flags).state.mBitrate = s.mBitrate ∧
    (dynamicConfig s intf env flags).state.mSignalledError = s.mSignalledError := by
  unfold dynamicConfig
  simp only [SharedPtr.ne]
  split_ifs <;> simp_all [configSets, pushesAndEncodes]

theorem dynamicConfig_bitrate_new (s : State) (intf : Intf) (env : Env) (flags : Nat)
    (h : intf.mBitrate.addr ≠ s.mBitrate.addr) :
    ((dynamicConfig s intf env flags).ok = true ↔ env.configSet = VPX_CODEC_OK) ∧
    configSets (dynamicConfig s intf env flags).trace =
      [s.mCodecConfiguration.map
        (fun c => { c with rc_target_bitrate := ((intf.mBitrate.value + 500) % U32) / 1000 })] ∧
    pushesAndEncodes (dynamicConfig s intf env flags).trace =
      [Event.vpx_codec_enc_config_set (s.mCodecConfiguration.map
        (fun c => { c with rc_target_bitrate := ((intf.mBitrate.value + 500) % U32) / 1000 }))] ∧
    (dynamicConfig s intf env flags).state.mCodecConfiguration =
      s.mCodecConfiguration.map
        (fun c => { c with rc_target_bitrate := ((intf.mBitrate.value + 500) % U32) / 1000 }) ∧
    (dynamicConfig s intf env flags).state.mBitrate = intf.mBitrate ∧
    ((dynamicConfig s intf env flags).ok = false →
      (dynamicConfig s intf env flags).state.mSignalledError = true) ∧
    ((dynamicConfig s intf env flags).ok = true →
      (dynamicConfig s intf env flags).state.mSignalledError = s.mSignalledError) := by
  unfold dynamicConfig
  simp only [SharedPtr.ne]
  split_ifs <;> simp_all [configSets, pushesAndEncodes]

theorem dynamicConfig_sync_new (s : State) (intf : Intf) (env : Env) (flags : Nat)
    (h : intf.mRequestSync.addr ≠ s.mRequestSync.addr) (hv : intf.mRequestSync.value ≠ 0) :
    (dynamicConfig s intf env flags).flags = flags ||| VPX_EFLAG_FORCE_KF ∧
    (dynamicConfig s intf env flags).intf = clearSync intf ∧
    (dynamicConfig s intf env flags).state.mRequestSync = intf.mRequestSync := by
  unfold dynamicConfig
  simp only [SharedPtr.ne]
  split_ifs <;> simp_all

theorem dynamicConfig_sync_old (s : State) (intf : Intf) (env : Env) (flags : Nat)
    (h : intf.mRequestSync.addr = s.mRequestSync.addr ∨ intf.mRequestSync.value = 0) :
    (dynamicConfig s intf env flags).flags = flags ∧
    (dynamicConfig s intf env flags).intf = intf := by
  unfold dynamicConfig
  simp only [SharedPtr.ne]
  rcases h with h | h <;> split_ifs <;> simp_all

/-- The encode path when the bitrate update fails: nothing follows it. -/
theorem encodeFrame_push_failed (s : State) (intf : Intf) (env : Env) (w : C2Work)
    (tr : List Event) (img : vpx_image_t)
    (h : (dynamicConfig (getEncodeFlags s).2 intf env (getEncodeFlags s).1).ok = false) :
    encodeFrame s intf env w tr img =
      ⟨(dynamicConfig (getEncodeFlags s).2 intf env (getEncodeFlags s).1).state,
        (dynamicConfig (getEncodeFlags s).2 intf env (getEncodeFlags s).1).intf,
        { w with result := .C2_CORRUPTED },
        tr ++ (dynamicConfig (getEncodeFlags s).2 intf env (getEncodeFlags s).1).trace⟩ := by
  unfold encodeFrame
  simp [h]

/-- The encode path when dynamic configuration succeeds: one encode call with the
computed duration and flags, followed only by packet handling; the state keeps
everything but the timestamp, the frame counter and the two latches. -/
theorem encodeFrame_encoded (s : State) (intf : Intf) (env : Env) (w : C2Work)
    (tr : List Event) (img : vpx_image_t)
    (h : (dynamicConfig (getEncodeFlags s).2 intf env (getEncodeFlags s).1).ok = true) :
    (encodeFrame s intf env w tr img).intf =
      (dynamicConfig (getEncodeFlags s).2 intf env (getEncodeFlags s).1).intf ∧
    ∃ post n e err,
      (encodeFrame s intf env w tr img).trace =
        tr ++ (dynamicConfig (getEncodeFlags s).2 intf env (getEncodeFlags s).1).trace ++
          [Event.vpx_codec_encode img (w.inputOrdinal.timestamp % U64)
            (frameDuration (dynamicConfig (getEncodeFlags s).2 intf env (getEncodeFlags s).1).state
              (w.inputOrdinal.timestamp % U64))
            (dynamicConfig (getEncodeFlags s).2 intf env (getEncodeFlags s).1).flags] ++ post ∧
      encodeCalls post = [] ∧ configSets post = [] ∧ pushesAndEncodes post = [] ∧
      (encodeFrame s intf env w tr img).state =
        { (dynamicConfig (getEncodeFlags s).2 intf env (getEncodeFlags s).1).state with
          mLastTimestamp := w.inputOrdinal.timestamp % U64
          mNumInputFrames := n
          mSignalledOutputEos := e
          mSignalledError := err } ∧
      (env.encode ≠ VPX_CODEC_OK →
        err = true ∧ (encodeFrame s intf env w tr img).work.result = .C2_CORRUPTED) ∧
      (env.encode = VPX_CODEC_OK →
        err = (dynamicConfig (getEncodeFlags s).2 intf env (getEncodeFlags s).1).state.mSignalledError)
      := by
  unfold encodeFrame
  simp only [h, Bool.not_true, Bool.false_eq_true, if_false]
  by_cases henc : env.encode = VPX_CODEC_OK
  · rw [if_neg (fun hne => hne henc)]
    obtain ⟨post, hp, h1, h2, h3⟩ := drainPackets_trace env
      (decide (w.inputFlags &&& FLAG_END_OF_STREAM ≠ 0)) env.packets
      { state := { (dynamicConfig (getEncodeFlags s).2 intf env (getEncodeFlags s).1).state with
          mLastTimestamp := w.inputOrdinal.timestamp % U64 }
        work := w
        trace := tr ++ (dynamicConfig (getEncodeFlags s).2 intf env (getEncodeFlags s).1).trace ++
          [Event.vpx_codec_encode img (w.inputOrdinal.timestamp % U64)
            (frameDuration (dynamicConfig (getEncodeFlags s).2 intf env (getEncodeFlags s).1).state
              (w.inputOrdinal.timestamp % U64))
            (dynamicConfig (getEncodeFlags s).2 intf env (getEncodeFlags s).1).flags]
        populated := false
        frames := 0 }
    obtain ⟨n, e, hs⟩ := drainPackets_state env
      (decide (w.inputFlags &&& FLAG_END_OF_STREAM ≠ 0)) env.packets
      { state := { (dynamicConfig (getEncodeFlags s).2 intf env (getEncodeFlags s).1).state with
          mLastTimestamp := w.inputOrdinal.timestamp % U64 }
        work := w
        trace := tr ++ (dynamicConfig (getEncodeFlags s).2 intf env (getEncodeFlags s).1).trace ++
          [Event.vpx_codec_encode img (w.inputOrdinal.timestamp % U64)
            (frameDuration (dynamicConfig (getEncodeFlags s).2 intf env (getEncodeFlags s).1).state
              (w.inputOrdinal.timestamp % U64))
            (dynamicConfig (getEncodeFlags s).2 intf env (getEncodeFlags s).1).flags]
        populated := false
        frames := 0 }
    refine ⟨by split_ifs <;> rfl, post, n, e,
      (dynamicConfig (getEncodeFlags s).2 intf env (getEncodeFlags s).1).state.mSignalledError,
      ?_, h1, h2, h3, ?_, fun hne => absurd henc hne, fun _ => rfl⟩
    · split_ifs <;> exact hp
    · split_ifs <;> rw [hs]
  · rw [if_pos henc]
    exact ⟨rfl, [], _, _, true, by simp, rfl, rfl, rfl, rfl, fun _ => ⟨rfl, rfl⟩,
      fun h' => absurd h' henc⟩

/-- A failed bitrate update always leaves the error latch set. -/
theorem dynamicConfig_failed_latches (s : State) (intf : Intf) (env : Env) (flags : Nat)
    (h : (dynamicConfig s intf env flags).ok = false) :
    (dynamicConfig s intf env flags).state.mSignalledError = true := by
  by_cases hb : intf.mBitrate.addr = s.mBitrate.addr
  · have := (dynamicConfig_bitrate_same s intf env flags hb).1
    rw [this] at h
    exact absurd h (by simp)
  · exact (dynamicConfig_bitrate_new s intf env flags hb).2.2.2.2.2.1 h

theorem getEncodeFlags_mBitrate (s : State) : (getEncodeFlags s).2.mBitrate = s.mBitrate := by
  obtain ⟨idx, h⟩ := getEncodeFlags_state s
  rw [h]

/-- Once a latch is set, a sequence of `process` calls changes nothing, makes no
call and answers each work item with `C2_BAD_VALUE`. -/
theorem processAll_latched (calls : List (Env × C2Work)) :
    ∀ (s : State) (intf : Intf), s.mSignalledError = true ∨ s.mSignalledOutputEos = true →
      processAll s intf calls = (s, intf, calls.map fun _ => (.C2_BAD_VALUE, [])) := by
  induction calls with
  | nil => intro s intf _; rfl
  | cons c rest ih =>
    intro s intf h
    obtain ⟨env, work⟩ := c
    simp only [processAll, process_latched s intf env work h, ih s intf h, List.map_cons]

/-- C4 (amended): when the encode call or the live bitrate update of a `process`
call fails, that call returns `C2_CORRUPTED` and sets the error latch; every
subsequent `process` call then returns `C2_BAD_VALUE` (not `C2_CORRUPTED`),
makes no call to the engine or to any other collaborator and leaves state and
configuration interface as they are; `onStop` and `onReset` clear the latch. -/
theorem C4_error_latch_rejects_with_bad_value (s : State) (intf : Intf) (env : Env)
    (work : C2Work) (v : InputBuffer) (img : vpx_image_t) (ev : List Event)
    (calls : List (Env × C2Work))
    (h : Encodes s intf env work v img ev)
    (hfail : env.encode ≠ VPX_CODEC_OK ∨
      (intf.mBitrate.addr ≠ (sessionState s intf env).mBitrate.addr ∧
        env.configSet ≠ VPX_CODEC_OK)) :
    (process s intf env work).work.result = .C2_CORRUPTED ∧
    (process s intf env work).state.mSignalledError = true ∧
    processAll (process s intf env work).state (process s intf env work).intf calls =
      ((process s intf env work).state, (process s intf env work).intf,
        calls.map fun _ => (.C2_BAD_VALUE, [])) ∧
    (onStop (process s intf env work).state).2.1.mSignalledError = false ∧
    (onReset (process s intf env work).state).1.mSignalledError = false := by
  have key : (process s intf env work).work.result = .C2_CORRUPTED ∧
      (process s intf env work).state.mSignalledError = true := by
    rw [process_encodes h]
    by_cases hd : (dynamicConfig (getEncodeFlags (sessionState s intf env)).2 intf env
        (getEncodeFlags (sessionState s intf env)).1).ok = true
    · have henc : env.encode ≠ VPX_CODEC_OK := by
        rcases hfail with hf | ⟨hb, hc⟩
        · exact hf
        · exfalso
          rw [← getEncodeFlags_mBitrate] at hb
          exact hc ((dynamicConfig_bitrate_new _ intf env _ hb).1.mp hd)
      obtain ⟨-, post, n, e, err, -, -, -, -, hst, hfailed, -⟩ :=
        encodeFrame_encoded (sessionState s intf env) intf env (beginWork work)
          (sessionTrace s intf env ++ ev) img hd
      obtain ⟨herr, hres⟩ := hfailed henc
      exact ⟨hres, by rw [hst, herr]⟩
    · have hd' : (dynamicConfig (getEncodeFlags (sessionState s intf env)).2 intf env
          (getEncodeFlags (sessionState s intf env)).1).ok = false := by
        simpa using hd
      rw [encodeFrame_push_failed _ intf env _ _ img hd']
      exact ⟨rfl, dynamicConfig_failed_latches _ intf env _ hd'⟩
  refine ⟨key.1, key.2, processAll_latched calls _ _ (Or.inl key.2), rfl, rfl⟩

/-- C4 on the constructed component: the encode call of the first frame fails. -/
theorem C4_error_latch_rejects_with_bad_value_witness :
    afterEncodeFailure.work.result = .C2_CORRUPTED ∧
    afterEncodeFailure.state.mSignalledError = true ∧
    processAll afterEncodeFailure.state afterEncodeFailure.intf
        [(sampleEnv [samplePacket 5], sampleWork 0 5 [sampleBuffer])] =
      (afterEncodeFailure.state, afterEncodeFailure.intf, [(.C2_BAD_VALUE, [])]) :=
  have h := C4_error_latch_rejects_with_bad_value construct defaultIntf encodeFailEnv
    (sampleWork 0 0 [sampleBuffer]) sampleBuffer
    ⟨320, 240, 320, 240, 65536, 142336, 161536, 320, 160, 160⟩ []
    [(sampleEnv [samplePacket 5], sampleWork 0 5 [sampleBuffer])]
    { noError := rfl
      noEos := rfl
      encoder := Or.inr (by decide)
      buffer := rfl
      mapped := rfl
      wide := by decide
      high := by decide
      widthLimit := by decide
      heightLimit := by decide
      adapted := by rfl }
    (Or.inl (by decide))
  ⟨h.1, h.2.1, h.2.2.1⟩

/-- C4 as stated fails: after the encode call of a first frame has failed and the
error is latched, the next `process` call returns `C2_BAD_VALUE`, which is not
`C2_CORRUPTED`. -/
theorem C4_counterexample :
    afterEncodeFailure.state.mSignalledError = true ∧
    (process afterEncodeFailure.state afterEncodeFailure.intf (sampleEnv [samplePacket 5])
      (sampleWork 0 5 [sampleBuffer])).work.result = .C2_BAD_VALUE ∧
    (process afterEncodeFailure.state afterEncodeFailure.intf (sampleEnv [samplePacket 5])
      (sampleWork 0 5 [sampleBuffer])).work.result ≠ .C2_CORRUPTED := by
  decide

theorem onRelease_trace (s : State) :
    encodeCalls (onRelease s).2 = [] ∧ configSets (onRelease s).2 = [] ∧
      pushesAndEncodes (onRelease s).2 = [] := by
  unfold onRelease
  simp only
  split <;> exact ⟨rfl, rfl, rfl⟩

theorem cbrControls_trace (s : State) (cfg : vpx_codec_enc_cfg_t) (env : Env) :
    encodeCalls (cbrControls s cfg env).2 = [] ∧ configSets (cbrControls s cfg env).2 = [] ∧
      pushesAndEncodes (cbrControls s cfg env).2 = [] := by
  unfold cbrControls
  simp only
  split_ifs <;> exact ⟨rfl, rfl, rfl⟩

theorem cleanUp_trace (s : State) (tr : List Event)
    (h : encodeCalls tr = [] ∧ configSets tr = [] ∧ pushesAndEncodes tr = []) :
    encodeCalls (cleanUp s tr).2.2 = [] ∧ configSets (cleanUp s tr).2.2 = [] ∧
      pushesAndEncodes (cleanUp s tr).2.2 = [] := by
  obtain ⟨h1, h2, h3⟩ := onRelease_trace s
  unfold encodeCalls configSets pushesAndEncodes at *
  simp only [cleanUp, List.filterMap_append, List.filter_append, h.1, h.2.1, h.2.2, h1, h2, h3,
    List.append_nil]
  exact ⟨trivial, trivial, trivial⟩

theorem allocConversionBuffer_trace (s : State) (env : Env) (tr : List Event)
    (h : encodeCalls tr = [] ∧ configSets tr = [] ∧ pushesAndEncodes tr = []) :
    encodeCalls (allocConversionBuffer s env tr).2.2 = [] ∧
      configSets (allocConversionBuffer s env tr).2.2 = [] ∧
      pushesAndEncodes (allocConversionBuffer s env tr).2.2 = [] := by
  have h' : encodeCalls (tr ++ [Event.Allocate (bufferSize
        (alignStride s.mSize.value.width s.mStrideAlign)
        (alignStride s.mSize.value.height s.mStrideAlign))]) = [] ∧
      configSets (tr ++ [Event.Allocate (bufferSize
        (alignStride s.mSize.value.width s.mStrideAlign)
        (alignStride s.mSize.value.height s.mStrideAlign))]) = [] ∧
      pushesAndEncodes (tr ++ [Event.Allocate (bufferSize
        (alignStride s.mSize.value.width s.mStrideAlign)
        (alignStride s.mSize.value.height s.mStrideAlign))]) = [] := by
    unfold encodeCalls configSets pushesAndEncodes at *
    simp only [List.filterMap_append, List.filter_append, h.1, h.2.1, h.2.2]
    exact ⟨rfl, rfl, rfl⟩
  unfold allocConversionBuffer
  simp only
  split_ifs
  · exact cleanUp_trace _ _ h
  · exact cleanUp_trace _ _ h'
  · exact h'

/-- `initEncoder` neither encodes nor pushes a configuration. -/
theorem initEncoder_trace (s : State) (intf : Intf) (env : Env) :
    encodeCalls (initEncoder s intf env).2.2 = [] ∧
      configSets (initEncoder s intf env).2.2 = [] ∧
      pushesAndEncodes (initEncoder s intf env).2.2 = [] := by
  unfold initEncoder
  simp only
  split
  · exact cleanUp_trace _ _ ⟨rfl, rfl, rfl⟩
  · split
    · exact cleanUp_trace _ _ ⟨rfl, rfl, rfl⟩
    · split
      · exact cleanUp_trace _ _ ⟨rfl, rfl, rfl⟩
      · rename_i s3 cfg3 heq
        have h4 : ∀ c : vpx_codec_enc_cfg_t,
            encodeCalls ([Event.vpx_codec_enc_config_default] ++ [Event.vpx_codec_enc_init c]) = [] ∧
            configSets ([Event.vpx_codec_enc_config_default] ++ [Event.vpx_codec_enc_init c]) = [] ∧
            pushesAndEncodes ([Event.vpx_codec_enc_config_default] ++ [Event.vpx_codec_enc_init c])
              = [] := fun _ => ⟨rfl, rfl, rfl⟩
        have app : ∀ a b : List Event,
            (encodeCalls a = [] ∧ configSets a = [] ∧ pushesAndEncodes a = []) →
            (encodeCalls b = [] ∧ configSets b = [] ∧ pushesAndEncodes b = []) →
            (encodeCalls (a ++ b) = [] ∧ configSets (a ++ b) = [] ∧
              pushesAndEncodes (a ++ b) = []) := by
          intro a b ha hb
          unfold encodeCalls configSets pushesAndEncodes at *
          simp only [List.filterMap_append, List.filter_append, ha.1, ha.2.1, ha.2.2, hb.1, hb.2.1,
            hb.2.2, List.append_nil]
          exact ⟨trivial, trivial, trivial⟩
        split
        · exact cleanUp_trace _ _ (h4 _)
        · split
          · exact cleanUp_trace _ _ (app _ _ (h4 _) (cbrControls_trace _ _ _))
          · split
            · exact cleanUp_trace _ _
                (app _ _ (app _ _ (h4 _) (cbrControls_trace _ _ _)) ⟨rfl, rfl, rfl⟩)
            · exact allocConversionBuffer_trace _ _ _
                (app _ _ (app _ _ (h4 _) (cbrControls_trace _ _ _)) ⟨rfl, rfl, rfl⟩)

/-- A successful `initEncoder` keeps the latches, the last timestamp and the
cursor, and caches the parameters of the interface. -/
theorem initEncoder_keeps {s : State} {intf : Intf} {env : Env}
    (h : (initEncoder s intf env).1 = .OK) :
    (initEncoder s intf env).2.1.mSignalledError = s.mSignalledError ∧
    (initEncoder s intf env).2.1.mSignalledOutputEos = s.mSignalledOutputEos ∧
    (initEncoder s intf env).2.1.mLastTimestamp = s.mLastTimestamp ∧
    (initEncoder s intf env).2.1.mTemporalPatternIdx = s.mTemporalPatternIdx ∧
    (initEncoder s intf env).2.1.mCodecContext = true ∧
    (initEncoder s intf env).2.1.mFrameRate = intf.mFrameRate ∧
    (initEncoder s intf env).2.1.mBitrate = intf.mBitrate ∧
    (initEncoder s intf env).2.1.mRequestSync = intf.mRequestSync ∧
    (initEncoder s intf env).2.1.mSize = intf.mSize := by
  obtain ⟨s3, cfg3, ht, hs⟩ := initEncoder_ok h
  obtain ⟨⟨pat, ratio, len, rfl⟩, -⟩ := temporalConfig_some ht
  rw [hs]
  simp only [initPrepared, selectRateControl, loadParams]
  split <;> simp

/-- Format adaptation calls only the two image helpers. -/
theorem adaptFrame_trace (s : State) (env : Env) (v : InputBuffer) :
    encodeCalls (adaptFrame s env v).2 = [] ∧ configSets (adaptFrame s env v).2 = [] ∧
      pushesAndEncodes (adaptFrame s env v).2 = [] := by
  unfold adaptFrame
  simp only
  split
  · exact ⟨rfl, rfl, rfl⟩
  · exact ⟨rfl, rfl, rfl⟩
  · split_ifs <;> exact ⟨rfl, rfl, rfl⟩
  · exact ⟨rfl, rfl, rfl⟩

/-- Dynamic configuration makes no encode call. -/
theorem dynamicConfig_no_encode (s : State) (intf : Intf) (env : Env) (flags : Nat) :
    encodeCalls (dynamicConfig s intf env flags).trace = [] := by
  unfold dynamicConfig
  simp only
  split_ifs <;> rfl

theorem encodeCalls_append (a b : List Event) :
    encodeCalls (a ++ b) = encodeCalls a ++ encodeCalls b := by
  unfold encodeCalls
  rw [List.filterMap_append]

theorem configSets_append (a b : List Event) :
    configSets (a ++ b) = configSets a ++ configSets b := by
  unfold configSets
  rw [List.filterMap_append]

theorem pushesAndEncodes_append (a b : List Event) :
    pushesAndEncodes (a ++ b) = pushesAndEncodes a ++ pushesAndEncodes b := by
  unfold pushesAndEncodes
  rw [List.filter_append]

theorem sessionTrace_quiet (s : State) (intf : Intf) (env : Env) :
    encodeCalls (sessionTrace s intf env) = [] ∧ configSets (sessionTrace s intf env) = [] ∧
      pushesAndEncodes (sessionTrace s intf env) = [] := by
  unfold sessionTrace
  split
  · exact ⟨rfl, rfl, rfl⟩
  · exact initEncoder_trace s intf env

/-- The session state of a call that passes the encoder check has no latch set,
a live context, and the last timestamp and cursor of the state before. -/
theorem sessionState_keeps (s : State) (intf : Intf) (env : Env)
    (hi : s.mCodecContext = true ∨ (initEncoder s intf env).1 = .OK) :
    (sessionState s intf env).mSignalledError = s.mSignalledError ∧
    (sessionState s intf env).mSignalledOutputEos = s.mSignalledOutputEos ∧
    (sessionState s intf env).mLastTimestamp = s.mLastTimestamp ∧
    (sessionState s intf env).mTemporalPatternIdx = s.mTemporalPatternIdx ∧
    (sessionState s intf env).mCodecContext = true := by
  unfold sessionState
  by_cases hc : s.mCodecContext = true
  · simp [hc]
  · have hok : (initEncoder s intf env).1 = .OK := by
      rcases hi with h | h
      · exact absurd h hc
      · exact h
    obtain ⟨h1, h2, h3, h4, h5, -⟩ := initEncoder_keeps hok
    simp [hc, h1, h2, h3, h4, h5]

/-- A call that satisfies `Encodes` and whose bitrate update, if any, succeeds
makes exactly one encode call, with the adapted image, the input timestamp, the
computed duration and the flags left by dynamic configuration. -/
theorem process_encodes_once {s : State} {intf : Intf} {env : Env} {work : C2Work}
    {v : InputBuffer} {img : vpx_image_t} {ev : List Event}
    (h : Encodes s intf env work v img ev)
    (hd : (dynamicConfig (getEncodeFlags (sessionState s intf env)).2 intf env
        (getEncodeFlags (sessionState s intf env)).1).ok = true) :
    encodeCalls (process s intf env work).trace =
      [(img, work.inputOrdinal.timestamp % U64,
        frameDuration
          (dynamicConfig (getEncodeFlags (sessionState s intf env)).2 intf env
            (getEncodeFlags (sessionState s intf env)).1).state
          (work.inputOrdinal.timestamp % U64),
        (dynamicConfig (getEncodeFlags (sessionState s intf env)).2 intf env
          (getEncodeFlags (sessionState s intf env)).1).flags)] := by
  rw [process_encodes h]
  obtain ⟨-, post, n, e, err, htr, hp, -, -, -, -, -⟩ :=
    encodeFrame_encoded (sessionState s intf env) intf env (beginWork work)
      (sessionTrace s intf env ++ ev) img hd
  have hev : encodeCalls ev = [] := by
    have := (adaptFrame_trace (sessionState s intf env) env v).1
    rw [h.adapted] at this
    exact this
  rw [htr]
  simp only [encodeCalls_append, (sessionTrace_quiet s intf env).1, hev,
    dynamicConfig_no_encode, hp, List.nil_append, List.append_nil]
  rfl

/-- C5: the code at the failing input. An empty work item carrying
`FLAG_END_OF_STREAM` is answered with `C2_OK` and output flags carrying
`FLAG_END_OF_STREAM`, yet `mSignalledOutputEos` stays clear; the next `process`
call, with a valid frame, is accepted (`C2_OK`, one encode call) instead of being
rejected with `C2_BAD_VALUE`. -/
theorem C5_empty_eos_marker_does_not_latch :
    afterEmptyEos.work.result = .C2_OK ∧
    afterEmptyEos.work.outputFlags &&& FLAG_END_OF_STREAM = FLAG_END_OF_STREAM ∧
    afterEmptyEos.state.mSignalledOutputEos = false ∧
    (process afterEmptyEos.state afterEmptyEos.intf (sampleEnv [samplePacket 9])
      (sampleWork 0 9 [sampleBuffer])).work.result = .C2_OK ∧
    (encodeCalls (process afterEmptyEos.state afterEmptyEos.intf (sampleEnv [samplePacket 9])
      (sampleWork 0 9 [sampleBuffer])).trace).length = 1 := by
  decide!

/-- C6 as stated fails: on the constructed component, which is not latched, an
empty work item makes `process` run `initEncoder`; when the engine refuses
`vpx_codec_enc_init` the result is `C2_CORRUPTED` rather than `C2_OK`, and even
when initialization succeeds engine calls are made. -/
theorem C6_counterexample :
    construct.mSignalledError = false ∧ construct.mSignalledOutputEos = false ∧
    (sampleWork 0 0 []).inputBuffers = [] ∧
    (process construct defaultIntf initFailEnv (sampleWork 0 0 [])).work.result = .C2_CORRUPTED ∧
    (process construct defaultIntf (sampleEnv []) (sampleWork 0 0 [])).work.result = .C2_OK ∧
    ((process construct defaultIntf (sampleEnv []) (sampleWork 0 0 [])).trace.any
      Event.isEngineCall) = true := by
  decide!

/-- C6 (amended): for a `process` call on a non-latched session whose input has
no buffers. If the session has an engine handle, the result is `C2_OK` with one
processed worklet, no output buffer, the input ordinal, output flags exactly
`FLAG_END_OF_STREAM` or empty as the input carries that flag or not, no call to
the engine or any collaborator, and state and configuration interface
unchanged. If it has no handle, `initEncoder` runs first: when it fails the
result is `C2_CORRUPTED` and the error is latched; when it succeeds the same
output is produced, the calls made are those of `initEncoder` (no encode call),
and cursor and last timestamp are unchanged. -/
theorem C6_empty_input_passes_through (s : State) (intf : Intf) (env : Env) (work : C2Work)
    (he : s.mSignalledError = false) (hs : s.mSignalledOutputEos = false)
    (hb : work.inputBuffers = []) :
    (s.mCodecContext = true →
      process s intf env work =
        ⟨s, intf,
          { work with
            result := .C2_OK
            workletsProcessed := 1
            outputFlags :=
              if work.inputFlags &&& FLAG_END_OF_STREAM ≠ 0 then FLAG_END_OF_STREAM else 0
            outputBuffers := []
            outputOrdinal := work.inputOrdinal }, []⟩) ∧
    (s.mCodecContext = false → (initEncoder s intf env).1 ≠ .OK →
      (process s intf env work).work.result = .C2_CORRUPTED ∧
      (process s intf env work).state.mSignalledError = true ∧
      (process s intf env work).trace = (initEncoder s intf env).2.2) ∧
    (s.mCodecContext = false → (initEncoder s intf env).1 = .OK →
      process s intf env work =
        ⟨(initEncoder s intf env).2.1, intf,
          { work with
            result := .C2_OK
            workletsProcessed := 1
            outputFlags :=
              if work.inputFlags &&& FLAG_END_OF_STREAM ≠ 0 then FLAG_END_OF_STREAM else 0
            outputBuffers := []
            outputOrdinal := work.inputOrdinal }, (initEncoder s intf env).2.2⟩ ∧
      encodeCalls (initEncoder s intf env).2.2 = [] ∧
      (initEncoder s intf env).2.1.mTemporalPatternIdx = s.mTemporalPatternIdx ∧
      (initEncoder s intf env).2.1.mLastTimestamp = s.mLastTimestamp) := by
  have hflag : (0 ||| FLAG_END_OF_STREAM) = FLAG_END_OF_STREAM := by decide
  refine ⟨?_, ?_, ?_⟩
  · intro hc
    rw [process_session s intf env work he hs (Or.inl hc)]
    simp only [processFrame, beginWork, hb, sessionState, sessionTrace, hc, if_true, hflag]
  · intro hc hfail
    unfold process
    simp only [he, hs, Bool.or_self, Bool.false_eq_true, if_false, hc, Bool.not_false, if_true,
      hfail, ne_eq, not_false_eq_true]
    exact ⟨trivial, trivial, trivial⟩
  · intro hc hok
    obtain ⟨-, -, h3, h4, -⟩ := initEncoder_keeps hok
    refine ⟨?_, (initEncoder_trace s intf env).1, h4, h3⟩
    rw [process_session s intf env work he hs (Or.inr hok)]
    simp only [processFrame, beginWork, hb, sessionState, sessionTrace, hc, Bool.false_eq_true,
      if_false, hflag]

/-- C6 on a session that was brought up by a first frame: an empty work item
carrying end of stream passes through. -/
theorem C6_empty_input_passes_through_witness :
    (process construct defaultIntf (sampleEnv [samplePacket 0])
      (sampleWork 0 0 [sampleBuffer])).state.mCodecContext = true ∧
    (process
      (process construct defaultIntf (sampleEnv [samplePacket 0])
        (sampleWork 0 0 [sampleBuffer])).state defaultIntf (sampleEnv [])
      (sampleWork FLAG_END_OF_STREAM 40 [])).work.outputFlags = FLAG_END_OF_STREAM ∧
    (process
      (process construct defaultIntf (sampleEnv [samplePacket 0])
        (sampleWork 0 0 [sampleBuffer])).state defaultIntf (sampleEnv [])
      (sampleWork FLAG_END_OF_STREAM 40 [])).trace = [] := by
  have h := (C6_empty_input_passes_through
    (process construct defaultIntf (sampleEnv [samplePacket 0])
      (sampleWork 0 0 [sampleBuffer])).state defaultIntf (sampleEnv [])
    (sampleWork FLAG_END_OF_STREAM 40 []) (by decide!) (by decide!) rfl).1 (by decide!)
  refine ⟨by decide!, ?_, ?_⟩
  · rw [h]; decide
  · rw [h]

/-- C7 as stated fails for the dimension check: a first frame narrower than the
configured picture is answered with `C2_BAD_VALUE` and sets the error latch, so
the valid frame that follows is rejected with `C2_BAD_VALUE` and never reaches
the engine. -/
theorem C7_counterexample :
    narrowBuffer.width < defaultIntf.mSize.value.width ∧
    afterNarrowFrame.work.result = .C2_BAD_VALUE ∧
    afterNarrowFrame.state.mSignalledError = true ∧
    (process afterNarrowFrame.state afterNarrowFrame.intf (sampleEnv [samplePacket 5])
      (sampleWork 0 5 [sampleBuffer])).work.result = .C2_BAD_VALUE ∧
    encodeCalls (process afterNarrowFrame.state afterNarrowFrame.intf (sampleEnv [samplePacket 5])
      (sampleWork 0 5 [sampleBuffer])).trace = [] := by
  decide!

/-- C7 (amended): for a `process` call that passes the latch and encoder checks
with a mapped input buffer `v`. (a) If `v` is at least as large as the
configured picture, the configured size is within `0x8000` and the plane layout
is neither RGB/RGBA nor YUV 4:2:0, the frame is rejected with `C2_BAD_VALUE`
and nothing else happens: the state is the session state, both latches are
clear, the context is live, so that a following frame satisfying `Encodes` is
encoded by exactly one encode call. (b) If `v` is narrower or lower than the
configured picture, the frame is rejected with `C2_BAD_VALUE` and the error
latch is set, so that every following call is rejected with `C2_BAD_VALUE`
without any call being made. -/
theorem C7_format_rejection_is_per_frame (s : State) (intf : Intf) (env : Env) (work : C2Work)
    (v : InputBuffer)
    (he : s.mSignalledError = false) (hs : s.mSignalledOutputEos = false)
    (hi : s.mCodecContext = true ∨ (initEncoder s intf env).1 = .OK)
    (hb : work.inputBuffers.head? = some v) (hm : v.mapError = .C2_OK) :
    ((sessionState s intf env).mSize.value.width ≤ v.width →
      (sessionState s intf env).mSize.value.height ≤ v.height →
      (sessionState s intf env).mSize.value.width ≤ 0x8000 →
      (sessionState s intf env).mSize.value.height ≤ 0x8000 →
      (v.layoutType = .TYPE_UNKNOWN ∨ v.layoutType = .TYPE_YUVA ∨
        (v.layoutType = .TYPE_YUV ∧ v.isYUV420 = false)) →
      (process s intf env work).work.result = .C2_BAD_VALUE ∧
      (process s intf env work).state = sessionState s intf env ∧
      (process s intf env work).intf = intf ∧
      (process s intf env work).state.mSignalledError = false ∧
      (process s intf env work).state.mSignalledOutputEos = false ∧
      (process s intf env work).state.mCodecContext = true ∧
      ∀ env2 work2 v2 img2 ev2,
        Encodes (process s intf env work).state (process s intf env work).intf env2 work2 v2
          img2 ev2 →
        (process s intf env work).intf.mBitrate.addr =
            (process s intf env work).state.mBitrate.addr ∨ env2.configSet = VPX_CODEC_OK →
        (encodeCalls (process (process s intf env work).state (process s intf env work).intf
          env2 work2).trace).length = 1) ∧
    ((v.width < (sessionState s intf env).mSize.value.width ∨
        v.height < (sessionState s intf env).mSize.value.height) →
      (process s intf env work).work.result = .C2_BAD_VALUE ∧
      (process s intf env work).state.mSignalledError = true ∧
      ∀ env2 work2,
        (process (process s intf env work).state (process s intf env work).intf env2
          work2).work.result = .C2_BAD_VALUE ∧
        (process (process s intf env work).state (process s intf env work).intf env2
          work2).trace = []) := by
  obtain ⟨k1, k2, -, -, k5⟩ := sessionState_keeps s intf env hi
  have hb' : (beginWork work).inputBuffers.head? = some v := hb
  constructor
  · intro hw hh hwl hhl hfmt
    have hproc : process s intf env work =
        ⟨sessionState s intf env, intf, { beginWork work with result := .C2_BAD_VALUE },
          sessionTrace s intf env ++ []⟩ := by
      rw [process_session s intf env work he hs hi]
      unfold processFrame
      split
      · rename_i hnil
        rw [hnil] at hb'
        simp at hb'
      · rename_i v2 rest hcons
        rw [hcons] at hb'
        simp only [List.head?_cons, Option.some.injEq] at hb'
        subst hb'
        rw [if_neg (by simp [hm]), if_neg (by omega), if_neg (by omega)]
        have had : adaptFrame (sessionState s intf env) env v2 = (none, []) := by
          unfold adaptFrame
          rcases hfmt with h | h | ⟨h, h'⟩ <;> simp [h, *]
        rw [had]
    rw [hproc]
    refine ⟨rfl, rfl, rfl, by rw [k1, he], by rw [k2, hs], k5, ?_⟩
    intro env2 work2 v2 img2 ev2 henc hpush
    have hd : (dynamicConfig (getEncodeFlags (sessionState (sessionState s intf env) intf env2)).2
        intf env2 (getEncodeFlags (sessionState (sessionState s intf env) intf env2)).1).ok
        = true := by
      have hss : sessionState (sessionState s intf env) intf env2 = sessionState s intf env := by
        unfold sessionState at k5 ⊢
        rw [if_pos k5]
      rw [hss]
      by_cases hba : intf.mBitrate.addr = (getEncodeFlags (sessionState s intf env)).2.mBitrate.addr
      · exact (dynamicConfig_bitrate_same _ intf env2 _ hba).1
      · rw [getEncodeFlags_mBitrate] at hba
        rcases hpush with hp | hp
        · exact absurd hp hba
        · rw [← getEncodeFlags_mBitrate] at hba
          exact (dynamicConfig_bitrate_new _ intf env2 _ hba).1.mpr hp
    rw [process_encodes_once henc hd]
    rfl
  · intro hsmall
    have hproc : process s intf env work =
        ⟨{ sessionState s intf env with mSignalledError := true }, intf,
          { beginWork work with result := .C2_BAD_VALUE }, sessionTrace s intf env⟩ := by
      rw [process_session s intf env work he hs hi]
      unfold processFrame
      split
      · rename_i hnil
        rw [hnil] at hb'
        simp at hb'
      · rename_i v2 rest hcons
        rw [hcons] at hb'
        simp only [List.head?_cons, Option.some.injEq] at hb'
        subst hb'
        rw [if_neg (by simp [hm]), if_pos hsmall]
    rw [hproc]
    refine ⟨rfl, rfl, ?_⟩
    intro env2 work2
    rw [process_latched _ _ env2 work2 (Or.inl rfl)]
    exact ⟨rfl, rfl⟩

/-- C7 on the constructed component: a first frame with a YUVA layout is
rejected, no latch is set, and the valid frame that follows is encoded. -/
theorem C7_format_rejection_is_per_frame_witness :
    afterUnsupportedFrame.work.result = .C2_BAD_VALUE ∧
    afterUnsupportedFrame.state.mSignalledError = false ∧
    (encodeCalls (process afterUnsupportedFrame.state afterUnsupportedFrame.intf
      (sampleEnv [samplePacket 5]) (sampleWork 0 5 [sampleBuffer])).trace).length = 1 :=
  have h := (C7_format_rejection_is_per_frame construct defaultIntf (sampleEnv [])
    (sampleWork 0 0 [unsupportedBuffer]) unsupportedBuffer rfl rfl (Or.inr (by decide)) rfl
    rfl).1 (by decide!) (by decide!) (by decide!) (by decide!) (Or.inr (Or.inl rfl))
  ⟨h.1, h.2.2.2.1,
    h.2.2.2.2.2.2 (sampleEnv [samplePacket 5]) (sampleWork 0 5 [sampleBuffer]) sampleBuffer
      sampleImage []
      { noError := by decide!
        noEos := by decide!
        encoder := Or.inl (by decide!)
        buffer := rfl
        mapped := rfl
        wide := by decide!
        high := by decide!
        widthLimit := by decide!
        heightLimit := by decide!
        adapted := by rfl }
      (Or.inr rfl)⟩

theorem getEncodeFlags_mCodecConfiguration (s : State) :
    (getEncodeFlags s).2.mCodecConfiguration = s.mCodecConfiguration := by
  obtain ⟨idx, h⟩ := getEncodeFlags_state s
  rw [h]

/-- The paths of `processFrame`: either it returns before `getEncodeFlags`,
with a state that differs from the given one at most in the error latch, the
interface untouched and only image helper calls made, or it runs the encode
path on an adapted image. -/
theorem processFrame_cases (s : State) (intf : Intf) (env : Env) (w : C2Work)
    (tr : List Event) :
    (∃ err wk ev,
      processFrame s intf env w tr = ⟨{ s with mSignalledError := err }, intf, wk, tr ++ ev⟩ ∧
      encodeCalls ev = [] ∧ configSets ev = [] ∧ pushesAndEncodes ev = []) ∨
    (∃ v img ev, adaptFrame s env v = (some img, ev) ∧
      encodeCalls ev = [] ∧ configSets ev = [] ∧ pushesAndEncodes ev = [] ∧
      processFrame s intf env w tr = encodeFrame s intf env w (tr ++ ev) img) := by
  unfold processFrame
  split
  · exact Or.inl ⟨s.mSignalledError, _, [], by rw [List.append_nil], rfl, rfl, rfl⟩
  · rename_i v rest hcons
    split_ifs
    · exact Or.inl ⟨s.mSignalledError, _, [], by rw [List.append_nil], rfl, rfl, rfl⟩
    · exact Or.inl ⟨true, _, [], by rw [List.append_nil], rfl, rfl, rfl⟩
    · exact Or.inl ⟨s.mSignalledError, _, [], by rw [List.append_nil], rfl, rfl, rfl⟩
    · have hq := adaptFrame_trace s env v
      split
      · rename_i ev hnone
        rw [hnone] at hq
        exact Or.inl ⟨s.mSignalledError, _, ev, rfl, hq⟩
      · rename_i img ev hsome
        rw [hsome] at hq
        exact Or.inr ⟨v, img, ev, hsome, hq.1, hq.2.1, hq.2.2, rfl⟩

/-- On a session with a live context whose cached bitrate object is the one of
the interface, a `process` call pushes no configuration and leaves the
configuration record as it is. -/
theorem process_no_push (t : State) (intf : Intf) (env : Env) (work : C2Work)
    (hc : t.mCodecContext = true) (hb : intf.mBitrate.addr = t.mBitrate.addr) :
    configSets (process t intf env work).trace = [] ∧
    (process t intf env work).state.mCodecConfiguration = t.mCodecConfiguration := by
  by_cases hl : t.mSignalledError = true ∨ t.mSignalledOutputEos = true
  · rw [process_latched t intf env work hl]
    exact ⟨rfl, rfl⟩
  · have he : t.mSignalledError = false := by
      cases h : t.mSignalledError
      · rfl
      · exact absurd (Or.inl h) hl
    have hs : t.mSignalledOutputEos = false := by
      cases h : t.mSignalledOutputEos
      · rfl
      · exact absurd (Or.inr h) hl
    rw [process_session t intf env work he hs (Or.inl hc)]
    have hss : sessionState t intf env = t := by unfold sessionState; rw [if_pos hc]
    have hst : sessionTrace t intf env = [] := by unfold sessionTrace; rw [if_pos hc]
    rw [hss, hst]
    rcases processFrame_cases t intf env (beginWork work) [] with
      ⟨err, wk, ev, hp, -, h2, -⟩ | ⟨v, img, ev, -, -, h2, -, hp⟩
    · rw [hp]
      exact ⟨by simpa using h2, rfl⟩
    · rw [hp]
      have hb' : intf.mBitrate.addr = (getEncodeFlags t).2.mBitrate.addr := by
        rw [getEncodeFlags_mBitrate]; exact hb
      obtain ⟨hok, hcs, -, hcfg, -, -⟩ :=
        dynamicConfig_bitrate_same (getEncodeFlags t).2 intf env (getEncodeFlags t).1 hb'
      obtain ⟨-, post, n, e, err, htr, -, hp2, -, hstate, -, -⟩ :=
        encodeFrame_encoded t intf env (beginWork work) ([] ++ ev) img hok
      rw [htr, hstate]
      refine ⟨?_, ?_⟩
      · simp only [configSets_append, h2, hcs, hp2, List.nil_append, List.append_nil]
        rfl
      · simp only [hcfg, getEncodeFlags_mCodecConfiguration]

/-- C8: on a session with a live engine and configuration record `cfg`, when the
bitrate b' of the configuration interface differs from the cached bitrate at a
frame submission that reaches the encoder (one parameter object holding one
value, b' within the valid range), `process` sets `rc_target_bitrate` to
`(b' + 500) div 1000` and pushes the record into the engine before the encode
call of that frame (which is made when the push succeeds); a following
submission with the interface unchanged pushes no configuration and leaves the
record, hence `rc_target_bitrate`, unchanged. -/
theorem C8_bitrate_change_pushed_before_encode (s : State) (intf : Intf) (env : Env)
    (work : C2Work) (v : InputBuffer) (img : vpx_image_t) (ev : List Event)
    (cfg : vpx_codec_enc_cfg_t)
    (h : Encodes s intf env work v img ev)
    (hlive : s.mCodecContext = true)
    (hcfg : s.mCodecConfiguration = some cfg)
    (hnew : intf.mBitrate.value ≠ s.mBitrate.value)
    (hobj : intf.mBitrate.addr = s.mBitrate.addr → intf.mBitrate.value = s.mBitrate.value)
    (hrange : intf.mBitrate.value ≤ 40000000) :
    (process s intf env work).state.mCodecConfiguration =
      some { cfg with rc_target_bitrate := (intf.mBitrate.value + 500) / 1000 } ∧
    (env.configSet = VPX_CODEC_OK →
      ∃ pts duration flags,
        pushesAndEncodes (process s intf env work).trace =
          [Event.vpx_codec_enc_config_set
              (some { cfg with rc_target_bitrate := (intf.mBitrate.value + 500) / 1000 }),
            Event.vpx_codec_encode img pts duration flags]) ∧
    (env.configSet ≠ VPX_CODEC_OK →
      pushesAndEncodes (process s intf env work).trace =
        [Event.vpx_codec_enc_config_set
          (some { cfg with rc_target_bitrate := (intf.mBitrate.value + 500) / 1000 })]) ∧
    ∀ env2 work2,
      configSets (process (process s intf env work).state (process s intf env work).intf env2
        work2).trace = [] ∧
      (process (process s intf env work).state (process s intf env work).intf env2
        work2).state.mCodecConfiguration = (process s intf env work).state.mCodecConfiguration := by
  have hss : sessionState s intf env = s := by unfold sessionState; rw [if_pos hlive]
  have hst : sessionTrace s intf env = [] := by unfold sessionTrace; rw [if_pos hlive]
  have haddr : intf.mBitrate.addr ≠ (getEncodeFlags s).2.mBitrate.addr := by
    rw [getEncodeFlags_mBitrate]
    exact fun hEq => hnew (hobj hEq)
  have hmod : (intf.mBitrate.value + 500) % U32 = intf.mBitrate.value + 500 := by
    apply Nat.mod_eq_of_lt
    unfold U32
    omega
  obtain ⟨hok, -, hpe, hc, hbr, hlatch, hkeep⟩ :=
    dynamicConfig_bitrate_new (getEncodeFlags s).2 intf env (getEncodeFlags s).1 haddr
  rw [getEncodeFlags_mCodecConfiguration, hcfg, Option.map_some', hmod] at hpe hc
  have hev : pushesAndEncodes ev = [] := by
    have := (adaptFrame_trace (sessionState s intf env) env v).2.2
    rw [h.adapted] at this
    exact this
  have hproc := process_encodes h
  rw [hss, hst] at hproc
  by_cases hset : env.configSet = VPX_CODEC_OK
  · have hd := hok.mpr hset
    obtain ⟨hintf, post, n, e, err, htr, -, -, hp3, hstate, -, -⟩ :=
      encodeFrame_encoded s intf env (beginWork work) ([] ++ ev) img hd
    have hcfg' : (process s intf env work).state.mCodecConfiguration =
        some { cfg with rc_target_bitrate := (intf.mBitrate.value + 500) / 1000 } := by
      rw [hproc, hstate]
      exact hc
    refine ⟨hcfg', ?_, fun hne => absurd hset hne, ?_⟩
    · intro _
      rw [hproc, htr]
      simp only [pushesAndEncodes_append, hev, hpe, hp3, List.nil_append, List.append_nil]
      exact ⟨_, _, _, rfl⟩
    · intro env2 work2
      apply process_no_push
      · rw [hproc, hstate]
        obtain ⟨ir, rs, br, c, er, hfr⟩ :=
          dynamicConfig_frame (getEncodeFlags s).2 intf env (getEncodeFlags s).1
        obtain ⟨idx, hg⟩ := getEncodeFlags_state s
        rw [hfr, hg]
        exact hlive
      · rw [hproc, hintf, hstate]
        show _ = (dynamicConfig (getEncodeFlags s).2 intf env (getEncodeFlags s).1).state.mBitrate.addr
        rw [hbr]
        by_cases hsync : intf.mRequestSync.addr ≠ (getEncodeFlags s).2.mRequestSync.addr ∧
            intf.mRequestSync.value ≠ 0
        · rw [(dynamicConfig_sync_new _ intf env _ hsync.1 hsync.2).2.1]
          rfl
        · have : intf.mRequestSync.addr = (getEncodeFlags s).2.mRequestSync.addr ∨
              intf.mRequestSync.value = 0 := by
            by_cases ha : intf.mRequestSync.addr = (getEncodeFlags s).2.mRequestSync.addr
            · exact Or.inl ha
            · by_cases hv : intf.mRequestSync.value = 0
              · exact Or.inr hv
              · exact absurd ⟨ha, hv⟩ hsync
          rw [(dynamicConfig_sync_old _ intf env _ this).2]
  · have hd : (dynamicConfig (getEncodeFlags s).2 intf env (getEncodeFlags s).1).ok = false := by
      cases hq : (dynamicConfig (getEncodeFlags s).2 intf env (getEncodeFlags s).1).ok
      · rfl
      · exact absurd (hok.mp hq) hset
    have hfail := encodeFrame_push_failed s intf env (beginWork work) ([] ++ ev) img hd
    rw [hfail] at hproc
    refine ⟨by rw [hproc]; exact hc, fun hq => absurd hq hset, ?_, ?_⟩
    · intro _
      rw [hproc]
      simp only [pushesAndEncodes_append, hev, hpe, List.nil_append]
    · intro env2 work2
      rw [hproc]
      rw [process_latched _ _ env2 work2 (Or.inl (hlatch hd))]
      exact ⟨rfl, rfl⟩

/-- C8 on a running session: after a first frame at 64000 bits per second the
client sets 128000; the next frame pushes a record with target 128. -/
theorem C8_bitrate_change_pushed_before_encode_witness :
    ∃ cfg, afterFirstFrame.state.mCodecConfiguration = some cfg ∧
      (process afterFirstFrame.state bitrateChangedIntf (sampleEnv [samplePacket 40])
        (sampleWork 0 40 [sampleBuffer])).state.mCodecConfiguration =
          some { cfg with rc_target_bitrate := 128 } ∧
      ∃ pts duration flags,
        pushesAndEncodes (process afterFirstFrame.state bitrateChangedIntf
          (sampleEnv [samplePacket 40]) (sampleWork 0 40 [sampleBuffer])).trace =
          [Event.vpx_codec_enc_config_set (some { cfg with rc_target_bitrate := 128 }),
            Event.vpx_codec_encode sampleImage pts duration flags] := by
  have hs : afterFirstFrame.state.mCodecConfiguration.isSome = true := by decide!
  obtain ⟨cfg, hcfg⟩ := Option.isSome_iff_exists.mp hs
  have h := C8_bitrate_change_pushed_before_encode afterFirstFrame.state bitrateChangedIntf
    (sampleEnv [samplePacket 40]) (sampleWork 0 40 [sampleBuffer]) sampleBuffer sampleImage []
    cfg
    { noError := by decide!
      noEos := by decide!
      encoder := Or.inl (by decide!)
      buffer := rfl
      mapped := rfl
      wide := by decide!
      high := by decide!
      widthLimit := by decide!
      heightLimit := by decide!
      adapted := by rfl }
    (by decide!) hcfg (by decide!) (fun hEq => absurd hEq (by decide!)) (by decide!)
  exact ⟨cfg, hcfg, h.1, h.2.1 rfl⟩

theorem dynamicConfig_ok_of (s : State) (intf : Intf) (env : Env) (flags : Nat)
    (h : intf.mBitrate.addr = s.mBitrate.addr ∨ env.configSet = VPX_CODEC_OK) :
    (dynamicConfig s intf env flags).ok = true := by
  by_cases hb : intf.mBitrate.addr = s.mBitrate.addr
  · exact (dynamicConfig_bitrate_same s intf env flags hb).1
  · rcases h with h | h
    · exact absurd h hb
    · exact (dynamicConfig_bitrate_new s intf env flags hb).1.mpr h

/-- C10 as stated fails. After a frame with timestamp 0, a frame with timestamp
2^32 has t > p, yet the duration passed to the engine is 0 and not t - p = 2^32,
because the difference is cast to 32 bits. And a first frame whose timestamp
2^63 exceeds the "unset" value gets duration 1 and not the frame-rate fallback
33333. -/
theorem C10_counterexample :
    afterFirstFrame.state.mLastTimestamp = 0 ∧
    encodeCalls (process afterFirstFrame.state afterFirstFrame.intf
        (sampleEnv [samplePacket 4294967296]) (sampleWork 0 4294967296 [sampleBuffer])).trace =
      [(sampleImage, 4294967296, 0, 0)] ∧
    4294967296 - afterFirstFrame.state.mLastTimestamp ≠ 0 ∧
    construct.mLastTimestamp = kLastTimestampUnset ∧
    encodeCalls (process construct defaultIntf (sampleEnv [samplePacket 0])
        (sampleWork 0 9223372036854775808 [sampleBuffer])).trace =
      [(sampleImage, 9223372036854775808, 1, 0)] := by
  decide!

theorem dynamicConfig_keeps (s : State) (intf : Intf) (env : Env) (flags : Nat) :
    (dynamicConfig s intf env flags).state.mLastTimestamp = s.mLastTimestamp ∧
    (dynamicConfig s intf env flags).state.mFrameRate = s.mFrameRate := by
  obtain ⟨ir, rs, br, c, er, hfr⟩ := dynamicConfig_frame s intf env flags
  rw [hfr]
  exact ⟨rfl, rfl⟩

theorem getEncodeFlags_keeps (s : State) :
    (getEncodeFlags s).2.mLastTimestamp = s.mLastTimestamp ∧
    (getEncodeFlags s).2.mFrameRate = s.mFrameRate := by
  obtain ⟨idx, h⟩ := getEncodeFlags_state s
  rw [h]
  exact ⟨rfl, rfl⟩

/-- C10 (amended): for every frame that reaches the encoder, with timestamp t
(64 bits), previous accepted timestamp p (`mLastTimestamp`, which is
`0x7FFFFFFFFFFFFFFF` after construction or reset) and cached `float` frame
rate: the call makes one encode call with timestamp t whose duration is
(t - p) mod 2^32 if t > p (hence t - p itself when the gap is below 2^32), and
otherwise the truncation of `1000000 / frameRate + 0.5`, the quotient rounded
to single precision and the sum to double precision, with frameRate replaced
by 30 when it is below the `double` constant 0.001; the rounded quotient is
within the single-precision rounding error of the exact one, and the fallback
is 33333 at 30 frames per second. So every frame with t ≤ p, in particular a
first frame with t up to the unset value and any duplicate or out-of-order
timestamp, gets the same fallback; afterwards p is t. -/
theorem C10_frame_duration (s : State) (intf : Intf) (env : Env) (work : C2Work)
    (v : InputBuffer) (img : vpx_image_t) (ev : List Event)
    (h : Encodes s intf env work v img ev)
    (hpush : intf.mBitrate.addr = (sessionState s intf env).mBitrate.addr ∨
      env.configSet = VPX_CODEC_OK) :
    ∃ duration flags,
      encodeCalls (process s intf env work).trace =
        [(img, work.inputOrdinal.timestamp % U64, duration, flags)] ∧
      (work.inputOrdinal.timestamp % U64 > s.mLastTimestamp →
        duration = (work.inputOrdinal.timestamp % U64 - s.mLastTimestamp) % U32) ∧
      (work.inputOrdinal.timestamp % U64 > s.mLastTimestamp →
        work.inputOrdinal.timestamp % U64 - s.mLastTimestamp < U32 →
        duration = work.inputOrdinal.timestamp % U64 - s.mLastTimestamp) ∧
      (work.inputOrdinal.timestamp % U64 ≤ s.mLastTimestamp →
        duration =
          castUInt32 (f64 (f32 (1000000 /
              (if f32 (sessionState s intf env).mFrameRate.value < f64 (1 / 1000) then (30 : ℚ)
                else f32 (sessionState s intf env).mFrameRate.value)) + 1 / 2))) ∧
      (∀ r : ℚ, |f32 (1000000 / r) - 1000000 / r| ≤
        |1000000 / r| * (2 : ℚ) ^ (-24 : Int) + (2 : ℚ) ^ (-150 : Int)) ∧
      (work.inputOrdinal.timestamp % U64 ≤ s.mLastTimestamp →
        (sessionState s intf env).mFrameRate.value = 30 → duration = 33333) ∧
      (s.mLastTimestamp = kLastTimestampUnset →
        work.inputOrdinal.timestamp % U64 ≤ kLastTimestampUnset →
        (sessionState s intf env).mFrameRate.value = 30 → duration = 33333) ∧
      (process s intf env work).state.mLastTimestamp = work.inputOrdinal.timestamp % U64 := by
  have hpush' : intf.mBitrate.addr = (getEncodeFlags (sessionState s intf env)).2.mBitrate.addr ∨
      env.configSet = VPX_CODEC_OK := by
    rw [getEncodeFlags_mBitrate]; exact hpush
  have hd := dynamicConfig_ok_of (getEncodeFlags (sessionState s intf env)).2 intf env
    (getEncodeFlags (sessionState s intf env)).1 hpush'
  have honce := process_encodes_once h hd
  obtain ⟨k1, k2⟩ := dynamicConfig_keeps (getEncodeFlags (sessionState s intf env)).2 intf env
    (getEncodeFlags (sessionState s intf env)).1
  obtain ⟨g1, g2⟩ := getEncodeFlags_keeps (sessionState s intf env)
  obtain ⟨-, -, s3, -, -⟩ := sessionState_keeps s intf env h.encoder
  have hp : (dynamicConfig (getEncodeFlags (sessionState s intf env)).2 intf env
      (getEncodeFlags (sessionState s intf env)).1).state.mLastTimestamp = s.mLastTimestamp := by
    rw [k1, g1, s3]
  have hf : (dynamicConfig (getEncodeFlags (sessionState s intf env)).2 intf env
      (getEncodeFlags (sessionState s intf env)).1).state.mFrameRate =
      (sessionState s intf env).mFrameRate := by
    rw [k2, g2]
  have h30 : castUInt32 (f64 (f32 (1000000 /
      (if f32 30 < f64 (1 / 1000) then (30 : ℚ) else f32 30)) + 1 / 2)) = 33333 := by decide!
  have hgt : work.inputOrdinal.timestamp % U64 > s.mLastTimestamp →
      frameDuration (dynamicConfig (getEncodeFlags (sessionState s intf env)).2 intf env
        (getEncodeFlags (sessionState s intf env)).1).state (work.inputOrdinal.timestamp % U64) =
        (work.inputOrdinal.timestamp % U64 - s.mLastTimestamp) % U32 := by
    intro hlt
    unfold frameDuration
    rw [hp, if_pos hlt]
  have hle : work.inputOrdinal.timestamp % U64 ≤ s.mLastTimestamp →
      frameDuration (dynamicConfig (getEncodeFlags (sessionState s intf env)).2 intf env
        (getEncodeFlags (sessionState s intf env)).1).state (work.inputOrdinal.timestamp % U64) =
        castUInt32 (f64 (f32 (1000000 /
            (if f32 (sessionState s intf env).mFrameRate.value < f64 (1 / 1000) then (30 : ℚ)
              else f32 (sessionState s intf env).mFrameRate.value)) + 1 / 2)) := by
    intro hlt
    unfold frameDuration
    rw [hp, if_neg (by omega), hf]
  have hle30 : work.inputOrdinal.timestamp % U64 ≤ s.mLastTimestamp →
      (sessionState s intf env).mFrameRate.value = 30 →
      frameDuration (dynamicConfig (getEncodeFlags (sessionState s intf env)).2 intf env
        (getEncodeFlags (sessionState s intf env)).1).state (work.inputOrdinal.timestamp % U64) =
        33333 := by
    intro hlt hfr
    rw [hle hlt, hfr, h30]
  have herr : ∀ r : ℚ, |f32 (1000000 / r) - 1000000 / r| ≤
      |1000000 / r| * (2 : ℚ) ^ (-24 : Int) + (2 : ℚ) ^ (-150 : Int) := by
    intro r
    exact (roundFloat_error 24 (-126) (1000000 / r)).1
  refine ⟨_, _, honce, hgt, ?_, hle, herr, hle30, ?_, ?_⟩
  · intro hlt hsmall
    rw [hgt hlt, Nat.mod_eq_of_lt hsmall]
  · intro hunset hlt hfr
    exact hle30 (by rw [hunset]; exact hlt) hfr
  · rw [process_encodes h]
    obtain ⟨-, post, n, e, err, -, -, -, -, hstate, -, -⟩ :=
      encodeFrame_encoded (sessionState s intf env) intf env (beginWork work)
        (sessionTrace s intf env ++ ev) img hd
    rw [hstate]
    rfl

/-- C10 on the constructed component: the first frame, with timestamp 0, is
encoded with the fallback duration 33333, and the last timestamp becomes 0. At
the frame rate 29.56 the fallback is 33830, the single-precision quotient being
33829.5, where the exact quotient 33829.499... rounds to 33829. -/
theorem C10_frame_duration_witness :
    (∃ flags,
      encodeCalls (process construct defaultIntf (sampleEnv [samplePacket 0])
        (sampleWork 0 0 [sampleBuffer])).trace = [(sampleImage, 0, 33333, flags)]) ∧
    (process construct defaultIntf (sampleEnv [samplePacket 0])
      (sampleWork 0 0 [sampleBuffer])).state.mLastTimestamp = 0 ∧
    frameDuration { construct with mFrameRate := ⟨3, 2956 / 100⟩ } 0 = 33830 ∧
    f32 (1000000 / f32 (2956 / 100)) = 67659 / 2 ∧
    ((1000000 : ℚ) / f32 (2956 / 100) + 1 / 2).floor = 33829 := by
  obtain ⟨duration, flags, h1, -, -, -, -, -, h6, h7⟩ :=
    C10_frame_duration construct defaultIntf (sampleEnv [samplePacket 0])
      (sampleWork 0 0 [sampleBuffer]) sampleBuffer sampleImage []
      { noError := rfl
        noEos := rfl
        encoder := Or.inr (by decide)
        buffer := rfl
        mapped := rfl
        wide := by decide
        high := by decide
        widthLimit := by decide
        heightLimit := by decide
        adapted := by rfl }
      (Or.inr rfl)
  have hd : duration = 33333 := h6 rfl (by decide) (by decide!)
  rw [hd] at h1
  exact ⟨⟨flags, h1⟩, h7, by decide!, by decide!, by decide!⟩

/-- Truncating a value clamped between two integers is clamping the truncated
value. -/
theorem floor_clamp (x : ℚ) (hi : ℕ) :
    (max (min x (hi : ℚ)) 1).floor = max (min ⌊x⌋ (hi : ℤ)) 1 := by
  rw [rat_floor_eq, (Int.floor_mono (α := ℚ)).map_max, (Int.floor_mono (α := ℚ)).map_min]
  have h1 : ⌊((hi : ℕ) : ℚ)⌋ = (hi : ℤ) := Int.floor_natCast hi
  have h2 : ⌊(1 : ℚ)⌋ = 1 := Int.floor_one
  rw [h1, h2]

/-- Outside the two "no sync frame" cases, `getSyncFramePeriod` is the integer
part of the double-precision value `period + 0.5`, clamped into
[1, UINT32_MAX]. -/
theorem getSyncFramePeriod_eq (intf : Intf)
    (hn : ¬(intf.mSyncFramePeriod.value < 0 ∨ intf.mSyncFramePeriod.value = INT64_MAX)) :
    (getSyncFramePeriod intf : ℤ) =
      max (min ⌊f64 (f64 (f64 (f64 (intf.mSyncFramePeriod.value : ℚ) / 1000000) *
        f32 intf.mFrameRate.value) + 1 / 2)⌋ (UINT32_MAX : ℤ)) 1 := by
  unfold getSyncFramePeriod
  rw [if_neg hn]
  simp only
  have h1 : (1 : ℚ) ≤ max (min (f64 (f64 (f64 (f64 (intf.mSyncFramePeriod.value : ℚ) / 1000000) *
      f32 intf.mFrameRate.value) + 1 / 2)) (UINT32_MAX : ℚ)) 1 := le_max_right _ _
  have h2 : max (min (f64 (f64 (f64 (f64 (intf.mSyncFramePeriod.value : ℚ) / 1000000) *
      f32 intf.mFrameRate.value) + 1 / 2)) (UINT32_MAX : ℚ)) 1 ≤ (UINT32_MAX : ℚ) :=
    max_le (min_le_right _ _) (by unfold UINT32_MAX; norm_num)
  have h3 : ((UINT32_MAX : ℕ) : ℚ) < ((U32 : ℕ) : ℚ) := by unfold UINT32_MAX U32; norm_num
  rw [castUInt32_eq _ (by linarith) (by linarith), ← rat_floor_eq, floor_clamp]

theorem getSyncFramePeriod_range (intf : Intf)
    (hn : ¬(intf.mSyncFramePeriod.value < 0 ∨ intf.mSyncFramePeriod.value = INT64_MAX)) :
    1 ≤ getSyncFramePeriod intf ∧ getSyncFramePeriod intf ≤ UINT32_MAX := by
  have h := getSyncFramePeriod_eq intf hn
  have h1 : (1 : ℤ) ≤ (getSyncFramePeriod intf : ℤ) := by rw [h]; exact le_max_right _ _
  have h2 : (getSyncFramePeriod intf : ℤ) ≤ (UINT32_MAX : ℤ) := by
    rw [h]
    exact max_le (min_le_right _ _) (by unfold UINT32_MAX; norm_num)
  exact ⟨by exact_mod_cast h1, by exact_mod_cast h2⟩

/-- The error of a double rounding in the two forms used below. -/
theorem f64_error (q : ℚ) :
    |f64 q - q| ≤ |q| * (1 / 9007199254740992) + (2 : ℚ) ^ (-1075 : Int) ∧
    ((2 : ℚ) ^ (-1022 : Int) ≤ |q| → |f64 q - q| ≤ |q| * (1 / 9007199254740992)) := by
  have h := roundFloat_error 53 (-1022) q
  have e1 : (2 : ℚ) ^ (-((53 : Nat) : Int)) = 1 / 9007199254740992 := by norm_num
  have e2 : ((-1022 : Int) - ((53 : Nat) : Int)) = -1075 := by norm_num
  rw [e1, e2] at h
  exact h

/-- Four roundings in a row: the conversion of the interval, the division by
`10^6`, the product with the frame rate and the sum with `1/2` stay close to
the exact value. -/
theorem period_chain (V F a1 a2 p q η : ℚ) (hV : 1 ≤ V) (hη : η ≤ 1 / 2 ^ 60)
    (h1 : |a1 - V| ≤ |V| * (1 / 9007199254740992))
    (h2 : |a2 - a1 / 1000000| ≤ |a1 / 1000000| * (1 / 9007199254740992))
    (h3 : |p - a2 * F| ≤ |a2 * F| * (1 / 9007199254740992) + η)
    (h4 : |q - (p + 1 / 2)| ≤ |p + 1 / 2| * (1 / 9007199254740992) + η) :
    |q - (V / 1000000 * F + 1 / 2)| ≤ |V / 1000000 * F| * (1 / 2 ^ 50) + 1 / 2 ^ 50 := by
  have hVabs : |V| = V := abs_of_pos (by linarith)
  rw [hVabs] at h1
  have hb : 0 < V / 1000000 := by positivity
  -- a1 / M
  have k1 : |a1 / 1000000 - V / 1000000| ≤ V / 1000000 * (1 / 9007199254740992) := by
    have : a1 / 1000000 - V / 1000000 = (a1 - V) / 1000000 := by ring
    rw [this, abs_div, abs_of_pos (by norm_num : (0 : ℚ) < 1000000)]
    calc |a1 - V| / 1000000 ≤ V * (1 / 9007199254740992) / 1000000 :=
          div_le_div_of_nonneg_right h1 (by norm_num)
      _ = V / 1000000 * (1 / 9007199254740992) := by ring
  have k1' : |a1 / 1000000| ≤ V / 1000000 * 2 := by
    have := abs_sub_abs_le_abs_sub (a1 / 1000000) (V / 1000000)
    rw [abs_of_pos hb] at this
    nlinarith [hb]
  have k2 : |a2 - V / 1000000| ≤ V / 1000000 * (3 / 9007199254740992) := by
    have : a2 - V / 1000000 = (a2 - a1 / 1000000) + (a1 / 1000000 - V / 1000000) := by ring
    rw [this]
    refine le_trans (abs_add _ _) ?_
    nlinarith [hb, abs_nonneg (a1 / 1000000)]
  have hx : |V / 1000000 * F| = V / 1000000 * |F| := by
    rw [abs_mul, abs_of_pos hb]
  have k3 : |a2 * F - V / 1000000 * F| ≤ |V / 1000000 * F| * (3 / 9007199254740992) := by
    have : a2 * F - V / 1000000 * F = (a2 - V / 1000000) * F := by ring
    rw [this, abs_mul, hx]
    have := mul_le_mul_of_nonneg_right k2 (abs_nonneg F)
    linarith
  have k3' : |a2 * F| ≤ |V / 1000000 * F| * 2 := by
    have := abs_sub_abs_le_abs_sub (a2 * F) (V / 1000000 * F)
    nlinarith [abs_nonneg (V / 1000000 * F)]
  have k4 : |p - V / 1000000 * F| ≤ |V / 1000000 * F| * (5 / 9007199254740992) + η := by
    have : p - V / 1000000 * F = (p - a2 * F) + (a2 * F - V / 1000000 * F) := by ring
    rw [this]
    refine le_trans (abs_add _ _) ?_
    nlinarith [abs_nonneg (V / 1000000 * F), abs_nonneg (a2 * F)]
  have k4' : |p + 1 / 2| ≤ |V / 1000000 * F| * 2 + 1 := by
    have e : p + 1 / 2 = (p - V / 1000000 * F) + (V / 1000000 * F) + 1 / 2 := by ring
    rw [e]
    have t1 := abs_add ((p - V / 1000000 * F) + (V / 1000000 * F)) (1 / 2)
    have t2 := abs_add (p - V / 1000000 * F) (V / 1000000 * F)
    have t3 : |(1 / 2 : ℚ)| = 1 / 2 := abs_of_pos (by norm_num)
    have hpow : (1 : ℚ) / 2 ^ 60 ≤ 1 / 4 := by norm_num
    nlinarith [abs_nonneg (V / 1000000 * F)]
  have e : q - (V / 1000000 * F + 1 / 2) = (q - (p + 1 / 2)) + (p - V / 1000000 * F) := by ring
  rw [e]
  refine le_trans (abs_add _ _) ?_
  have hpow : (1 : ℚ) / 2 ^ 60 = 1 / 1152921504606846976 := by norm_num
  have hpow2 : (1 : ℚ) / 2 ^ 50 = 1 / 1125899906842624 := by norm_num
  rw [hpow] at hη
  rw [hpow2]
  nlinarith [abs_nonneg (V / 1000000 * F), abs_nonneg (p + 1 / 2)]

/-- Clamping the integer parts of two values that are at most 1 apart gives
results at most 1 apart. -/
theorem clamp_floor_near (q y : ℚ) (hi : Int) (h : |q - y| ≤ 1) :
    max (min ⌊y⌋ hi) 1 - 1 ≤ max (min ⌊q⌋ hi) 1 ∧ max (min ⌊q⌋ hi) 1 ≤ max (min ⌊y⌋ hi) 1 + 1 := by
  obtain ⟨h1, h2⟩ := abs_le.mp h
  have a1 : ⌊q⌋ ≤ ⌊y⌋ + 1 := by
    have : ⌊q⌋ ≤ ⌊y + 1⌋ := Int.floor_le_floor (by linarith)
    rwa [Int.floor_add_one] at this
  have a2 : ⌊y⌋ ≤ ⌊q⌋ + 1 := by
    have : ⌊y⌋ ≤ ⌊q + 1⌋ := Int.floor_le_floor (by linarith)
    rwa [Int.floor_add_one] at this
  simp only [max_def, min_def]
  split_ifs <;> omega

/-- Outside the two "no sync frame" cases, `getSyncFramePeriod` differs by at
most 1 from the exact product of the interval in seconds and the `float` frame
rate, rounded half-up and clamped into [1, UINT32_MAX]. -/
theorem getSyncFramePeriod_near (intf : Intf)
    (hn : ¬(intf.mSyncFramePeriod.value < 0 ∨ intf.mSyncFramePeriod.value = INT64_MAX)) :
    max (min ⌊(intf.mSyncFramePeriod.value : ℚ) / 1000000 * f32 intf.mFrameRate.value + 1 / 2⌋
        (UINT32_MAX : ℤ)) 1 - 1 ≤ (getSyncFramePeriod intf : ℤ) ∧
    (getSyncFramePeriod intf : ℤ) ≤
      max (min ⌊(intf.mSyncFramePeriod.value : ℚ) / 1000000 * f32 intf.mFrameRate.value + 1 / 2⌋
        (UINT32_MAX : ℤ)) 1 + 1 := by
  rw [getSyncFramePeriod_eq intf hn]
  have hv0 : 0 ≤ intf.mSyncFramePeriod.value := by
    by_contra hc
    exact hn (Or.inl (by omega))
  generalize intf.mSyncFramePeriod.value = v at hv0 ⊢
  generalize f32 intf.mFrameRate.value = F
  rcases eq_or_lt_of_le hv0 with hz | hpos
  · subst hz
    have e0 : f64 (f64 (f64 ((0 : ℤ) : ℚ) / 1000000) * F) = 0 := by
      simp [f64, roundFloat_zero]
    have e1 : f64 ((0 : ℚ) + 1 / 2) = 1 / 2 := by decide!
    rw [e0, e1]
    norm_num
  · have hV : (1 : ℚ) ≤ (v : ℚ) := by exact_mod_cast hpos
    have hη : (2 : ℚ) ^ (-1075 : Int) ≤ 1 / 2 ^ 60 := by
      have : (2 : ℚ) ^ (-1075 : Int) ≤ (2 : ℚ) ^ (-60 : Int) :=
        zpow_le_zpow_right₀ (by norm_num) (by norm_num)
      have e : (2 : ℚ) ^ (-60 : Int) = 1 / 2 ^ 60 := by norm_num
      rwa [e] at this
    have hsmall : (2 : ℚ) ^ (-1022 : Int) ≤ 1 / 4000000 := by
      have : (2 : ℚ) ^ (-1022 : Int) ≤ (2 : ℚ) ^ (-22 : Int) :=
        zpow_le_zpow_right₀ (by norm_num) (by norm_num)
      have e : (2 : ℚ) ^ (-22 : Int) ≤ 1 / 4000000 := by norm_num
      linarith
    -- the four roundings
    have r1 := (f64_error (v : ℚ)).2 (by
      rw [abs_of_pos (by linarith)]
      exact le_trans hsmall (by linarith))
    have ha1 : (1 : ℚ) / 2 ≤ f64 (v : ℚ) := by
      have := (abs_le.mp r1).1
      rw [abs_of_pos (by linarith : (0 : ℚ) < (v : ℚ))] at this
      nlinarith
    have r2 := (f64_error (f64 (v : ℚ) / 1000000)).2 (by
      rw [abs_of_pos (by positivity)]
      have : (1 : ℚ) / 4000000 ≤ f64 (v : ℚ) / 1000000 := by
        rw [div_le_div_iff₀ (by norm_num) (by norm_num)]
        linarith
      exact le_trans hsmall this)
    have r3 := (f64_error (f64 (f64 (v : ℚ) / 1000000) * F)).1
    have r4 := (f64_error (f64 (f64 (f64 (v : ℚ) / 1000000) * F) + 1 / 2)).1
    have hchain := period_chain (v : ℚ) F _ _ _ _ _ hV hη r1 r2 r3 r4
    set x : ℚ := (v : ℚ) / 1000000 * F with hx
    set q : ℚ := f64 (f64 (f64 (f64 (v : ℚ) / 1000000) * F) + 1 / 2) with hq
    have hpow : (1 : ℚ) / 2 ^ 50 = 1 / 1125899906842624 := by norm_num
    rw [hpow] at hchain
    have hU : (UINT32_MAX : ℤ) = 4294967295 := by unfold UINT32_MAX; norm_num
    rw [hU]
    rcases le_or_lt |x| 17179869184 with hs | hb
    · have hnear : |q - (x + 1 / 2)| ≤ 1 := by nlinarith [abs_nonneg x]
      exact clamp_floor_near q (x + 1 / 2) 4294967295 hnear
    · obtain ⟨c1, c2⟩ := abs_le.mp hchain
      rcases le_or_lt 0 x with hxp | hxn
      · rw [abs_of_nonneg hxp] at hb c1 c2
        have hq1 : ((4294967295 : Int) : ℚ) ≤ q := by push_cast; nlinarith
        have hy1 : ((4294967295 : Int) : ℚ) ≤ x + 1 / 2 := by push_cast; linarith
        have fq : (4294967295 : Int) ≤ ⌊q⌋ := Int.le_floor.mpr hq1
        have fy : (4294967295 : Int) ≤ ⌊x + 1 / 2⌋ := Int.le_floor.mpr hy1
        simp only [max_def, min_def]
        split_ifs <;> omega
      · rw [abs_of_neg hxn] at hb c1 c2
        have hq1 : q < ((1 : Int) : ℚ) := by push_cast; nlinarith
        have hy1 : x + 1 / 2 < ((1 : Int) : ℚ) := by push_cast; linarith
        have fq : ⌊q⌋ < 1 := Int.floor_lt.mpr hq1
        have fy : ⌊x + 1 / 2⌋ < 1 := Int.floor_lt.mpr hy1
        simp only [max_def, min_def]
        split_ifs <;> omega

/-- C11 as stated fails: with the interval 580000 microseconds and the frame
rate 25 (exactly a `float`), `getSyncFramePeriod` returns 14, whereas
580000 / 1,000,000 * 25 = 14.5 rounds half-up to 15: the quotient 0.58 is not a
`double`, and the double-precision product lies below 14.5. -/
theorem C11_counterexample :
    ¬(shortIntervalIntf.mSyncFramePeriod.value < 0 ∨
      shortIntervalIntf.mSyncFramePeriod.value = INT64_MAX) ∧
    f32 shortIntervalIntf.mFrameRate.value = 25 ∧
    getSyncFramePeriod shortIntervalIntf = 14 ∧
    ((shortIntervalIntf.mSyncFramePeriod.value : ℚ) / 1000000 *
      shortIntervalIntf.mFrameRate.value + 1 / 2).floor = 15 ∧
    f64 (f64 (f64 (580000 : ℚ) / 1000000) * 25) < 29 / 2 := by
  decide!

/-- C11 (amended): `getSyncFramePeriod` returns 0 exactly when the sync-frame
interval is negative or equals `INT64_MAX`; for every other interval v and
`float` frame rate f it returns the integer part of `period + 0.5` clamped into
[1, UINT32_MAX], where `period = v / 1e6 * f` and the sum are evaluated in
double precision, each operation rounding to the nearest `double`; hence a
value of at least 1 and at most UINT32_MAX, which differs by at most 1 from the
exact product v / 1,000,000 * f rounded half-up and clamped into
[1, UINT32_MAX]; interval 0 gives 1 and the default interval 1,000,000 at 30
frames per second gives 30. -/
theorem C11_sync_frame_period (intf : Intf) :
    (getSyncFramePeriod intf = 0 ↔
      intf.mSyncFramePeriod.value < 0 ∨ intf.mSyncFramePeriod.value = INT64_MAX) ∧
    (¬(intf.mSyncFramePeriod.value < 0 ∨ intf.mSyncFramePeriod.value = INT64_MAX) →
      (getSyncFramePeriod intf : ℤ) =
        max (min ⌊f64 (f64 (f64 (f64 (intf.mSyncFramePeriod.value : ℚ) / 1000000) *
          f32 intf.mFrameRate.value) + 1 / 2)⌋ (UINT32_MAX : ℤ)) 1 ∧
      1 ≤ getSyncFramePeriod intf ∧ getSyncFramePeriod intf ≤ UINT32_MAX ∧
      max (min ⌊(intf.mSyncFramePeriod.value : ℚ) / 1000000 * f32 intf.mFrameRate.value + 1 / 2⌋
          (UINT32_MAX : ℤ)) 1 - 1 ≤ (getSyncFramePeriod intf : ℤ) ∧
      (getSyncFramePeriod intf : ℤ) ≤
        max (min ⌊(intf.mSyncFramePeriod.value : ℚ) / 1000000 * f32 intf.mFrameRate.value + 1 / 2⌋
          (UINT32_MAX : ℤ)) 1 + 1) ∧
    (intf.mSyncFramePeriod.value = 0 → getSyncFramePeriod intf = 1) ∧
    (intf.mSyncFramePeriod.value = 1000000 → intf.mFrameRate.value = 30 →
      getSyncFramePeriod intf = 30) := by
  refine ⟨⟨?_, ?_⟩, fun hn => ⟨getSyncFramePeriod_eq intf hn, (getSyncFramePeriod_range intf hn).1,
    (getSyncFramePeriod_range intf hn).2, getSyncFramePeriod_near intf hn⟩, ?_, ?_⟩
  · intro h0
    by_contra hn
    have := (getSyncFramePeriod_range intf hn).1
    omega
  · intro hc
    unfold getSyncFramePeriod
    rw [if_pos hc]
  · intro hv
    have hn : ¬(intf.mSyncFramePeriod.value < 0 ∨ intf.mSyncFramePeriod.value = INT64_MAX) := by
      rw [hv]; unfold INT64_MAX; norm_num
    have h := getSyncFramePeriod_eq intf hn
    rw [hv] at h
    have e0 : f64 (f64 (f64 ((0 : ℤ) : ℚ) / 1000000) * f32 intf.mFrameRate.value) = 0 := by
      simp [f64, roundFloat_zero]
    have e1 : ⌊f64 ((0 : ℚ) + 1 / 2)⌋ = 0 := by decide!
    rw [e0, e1] at h
    have : (getSyncFramePeriod intf : ℤ) = 1 := by rw [h]; unfold UINT32_MAX; norm_num
    exact_mod_cast this
  · intro hv hf
    have hn : ¬(intf.mSyncFramePeriod.value < 0 ∨ intf.mSyncFramePeriod.value = INT64_MAX) := by
      rw [hv]; unfold INT64_MAX; norm_num
    have h := getSyncFramePeriod_eq intf hn
    rw [hv, hf] at h
    have hfl : ⌊f64 (f64 (f64 (f64 ((1000000 : ℤ) : ℚ) / 1000000) * f32 30) + 1 / 2)⌋ = 30 := by
      decide!
    rw [hfl] at h
    have : (getSyncFramePeriod intf : ℤ) = 30 := by rw [h]; unfold UINT32_MAX; norm_num
    exact_mod_cast this

/-- C11 at the default parameters: the interval 1,000,000 at 30 frames per
second gives 30. -/
theorem C11_sync_frame_period_witness : getSyncFramePeriod defaultIntf = 30 :=
  (C11_sync_frame_period defaultIntf).2.2.2 rfl rfl

/-! ## The configuration record built by initEncoder -/

theorem foldl_layer_frame (ratio : Nat → ℚ) (l : List Nat) :
    ∀ c : vpx_codec_enc_cfg_t, ∃ f,
      l.foldl
        (fun c i =>
          { c with
            ts_target_bitrate :=
              arrSet c.ts_target_bitrate i
                (castUInt32 (f32 (f32 (c.rc_target_bitrate : ℚ) * f32 (ratio i)))) })
        c = { c with ts_target_bitrate := f } := by
  induction l with
  | nil => intro c; exact ⟨c.ts_target_bitrate, rfl⟩
  | cons a t ih =>
    intro c
    rw [List.foldl_cons]
    obtain ⟨f, hf⟩ := ih
      { c with
        ts_target_bitrate :=
          arrSet c.ts_target_bitrate a
            (castUInt32 (f32 (f32 (c.rc_target_bitrate : ℚ) * f32 (ratio a)))) }
    exact ⟨f, hf⟩

/-- `finishConfig` writes the layer targets, the key-frame distances and mode,
possibly the quantizers, and the profile; everything else is kept. -/
theorem finishConfig_frame (s : State) (intf : Intf) (env : Env) (cfg : vpx_codec_enc_cfg_t) :
    ∃ f q1 q2,
      finishConfig s intf env cfg =
        { cfg with
          ts_target_bitrate := f
          kf_max_dist := getSyncFramePeriod intf
          kf_min_dist := getSyncFramePeriod intf
          kf_mode := .VPX_KF_AUTO
          rc_min_quantizer := q1
          rc_max_quantizer := q2
          g_profile := env.g_profile } := by
  obtain ⟨f, hf⟩ := foldl_layer_frame s.mTemporalLayerBitrateRatio
    (List.range cfg.ts_number_layers) cfg
  unfold finishConfig quantizerConfig syncPeriodConfig layerBitrates
  rw [hf, if_pos (Nat.zero_le _)]
  simp only
  split_ifs <;> exact ⟨_, _, _, rfl⟩

/-- The layer switch writes only the four layering fields of the record. -/
theorem temporalConfig_frame {s s3 : State} {cfg cfg3 : vpx_codec_enc_cfg_t}
    (h : temporalConfig s cfg = some (s3, cfg3)) :
    ∃ n d p l,
      cfg3 = { cfg with
        ts_number_layers := n
        ts_rate_decimator := d
        ts_periodicity := p
        ts_layer_id := l } := by
  unfold temporalConfig at h
  split at h
  all_goals first
    | (simp at h; done)
    | (simp only [Option.some.injEq, Prod.mk.injEq] at h
       obtain ⟨-, rfl⟩ := h
       exact ⟨_, _, _, _, rfl⟩)

theorem initPrepared_mode (s : State) (intf : Intf) (env : Env) :
    (initPrepared s intf env).mBitrateControlMode =
      (if intf.mBitrateMode.value = .BITRATE_CONST then .VPX_CBR else .VPX_VBR) := by
  simp only [initPrepared, selectRateControl, loadParams]
  split <;> simp_all

/-- The configuration record after a successful `initEncoder`, as the chain of
the three building steps applied to the engine defaults. -/
theorem initEncoder_record {s : State} {intf : Intf} {env : Env}
    (h : (initEncoder s intf env).1 = .OK) :
    ∃ s3 cfg3,
      temporalConfig (initPrepared s intf env)
        (baseConfig (initPrepared s intf env) env.defaultConfig) = some (s3, cfg3) ∧
      (initEncoder s intf env).2.1.mCodecConfiguration = some (finishConfig s3 intf env cfg3) := by
  obtain ⟨s3, cfg3, ht, hs⟩ := initEncoder_ok h
  exact ⟨s3, cfg3, ht, by rw [hs]⟩

/-- C12: the code at the failing input. With the sync-frame interval -1 and
bitrate mode CONSTANT, `getSyncFramePeriod` is 0, `initEncoder` succeeds, and the
record it builds has `kf_min_dist = kf_max_dist = 0`: the distances of the
engine defaults (0 and 128 here) and the CONSTANT-mode value 3000 are
overwritten with the period 0. -/
theorem C12_no_sync_interval_still_overwrites_distances :
    getSyncFramePeriod noSyncConstIntf = 0 ∧
    (initEncoder construct noSyncConstIntf (sampleEnv [])).1 = .OK ∧
    sampleDefaultConfig.kf_max_dist = 128 ∧
    (initEncoder construct noSyncConstIntf (sampleEnv [])).2.1.mCodecConfiguration.map
      (fun c => (c.kf_min_dist, c.kf_max_dist)) = some (0, 0) := by
  decide!

/-- C13: when the sync-frame interval is non-negative and not `INT64_MAX`, the
record left by a successful `initEncoder` has both `kf_min_dist` and
`kf_max_dist` equal to `getSyncFramePeriod()`, which is at least 1, and
`kf_mode = VPX_KF_AUTO`, whatever the bitrate mode; in particular the value
3000 written in CONSTANT mode does not survive. -/
theorem C13_sync_interval_sets_key_frame_distances (s : State) (intf : Intf) (env : Env)
    (h0 : 0 ≤ intf.mSyncFramePeriod.value) (hfin : intf.mSyncFramePeriod.value ≠ INT64_MAX)
    (hok : (initEncoder s intf env).1 = .OK) :
    1 ≤ getSyncFramePeriod intf ∧
    ∃ cfg, (initEncoder s intf env).2.1.mCodecConfiguration = some cfg ∧
      cfg.kf_min_dist = getSyncFramePeriod intf ∧
      cfg.kf_max_dist = getSyncFramePeriod intf ∧
      cfg.kf_mode = .VPX_KF_AUTO := by
  have hn : ¬(intf.mSyncFramePeriod.value < 0 ∨ intf.mSyncFramePeriod.value = INT64_MAX) := by
    intro hc
    rcases hc with hc | hc
    · omega
    · exact hfin hc
  obtain ⟨s3, cfg3, -, hcfg⟩ := initEncoder_record hok
  obtain ⟨f, q1, q2, hfin'⟩ := finishConfig_frame s3 intf env cfg3
  refine ⟨(getSyncFramePeriod_range intf hn).1, finishConfig s3 intf env cfg3, hcfg, ?_, ?_, ?_⟩ <;>
    rw [hfin']

/-- C13 at the default interval of one second and 30 frames per second, in
CONSTANT mode: both distances are 30, not 3000. -/
theorem C13_sync_interval_sets_key_frame_distances_witness :
    0 ≤ constIntf.mSyncFramePeriod.value ∧ constIntf.mSyncFramePeriod.value ≠ INT64_MAX ∧
    (initEncoder construct constIntf (sampleEnv [])).1 = .OK ∧
    getSyncFramePeriod constIntf = 30 ∧
    ∃ cfg, (initEncoder construct constIntf (sampleEnv [])).2.1.mCodecConfiguration = some cfg ∧
      cfg.kf_min_dist = getSyncFramePeriod constIntf ∧
      cfg.kf_max_dist = getSyncFramePeriod constIntf ∧
      cfg.kf_mode = .VPX_KF_AUTO :=
  ⟨by decide, by decide, by decide, by decide!,
    (C13_sync_interval_sets_key_frame_distances construct constIntf (sampleEnv []) (by decide)
      (by decide) (by decide)).2⟩

/-- C14: in the record left by a successful `initEncoder` the timebase is
1/1,000,000 and `rc_dropframe_thresh` is 0 in every mode; with bitrate mode
CONSTANT it has `rc_end_usage = VPX_CBR`, single-pass mode,
`rc_resize_allowed = 0`, `g_error_resilient = 1`, undershoot 100, overshoot 15
and buffer sizes 500 / 600 / 1000; with bitrate mode VARIABLE the rate control
is `VPX_VBR` and the undershoot, overshoot, buffer size, resize and pass fields
are those of the engine defaults. -/
theorem C14_constant_mode_record (s : State) (intf : Intf) (env : Env)
    (hok : (initEncoder s intf env).1 = .OK) :
    ∃ cfg, (initEncoder s intf env).2.1.mCodecConfiguration = some cfg ∧
      cfg.g_timebase_num = 1 ∧ cfg.g_timebase_den = 1000000 ∧ cfg.rc_dropframe_thresh = 0 ∧
      (intf.mBitrateMode.value = .BITRATE_CONST →
        cfg.rc_end_usage = .VPX_CBR ∧ cfg.g_pass = .VPX_RC_ONE_PASS ∧
        cfg.rc_resize_allowed = 0 ∧ cfg.g_error_resilient = 1 ∧
        cfg.rc_undershoot_pct = 100 ∧ cfg.rc_overshoot_pct = 15 ∧
        cfg.rc_buf_initial_sz = 500 ∧ cfg.rc_buf_optimal_sz = 600 ∧ cfg.rc_buf_sz = 1000) ∧
      (intf.mBitrateMode.value = .BITRATE_VARIABLE →
        cfg.rc_end_usage = .VPX_VBR ∧
        cfg.rc_undershoot_pct = env.defaultConfig.rc_undershoot_pct ∧
        cfg.rc_overshoot_pct = env.defaultConfig.rc_overshoot_pct ∧
        cfg.rc_buf_initial_sz = env.defaultConfig.rc_buf_initial_sz ∧
        cfg.rc_buf_optimal_sz = env.defaultConfig.rc_buf_optimal_sz ∧
        cfg.rc_buf_sz = env.defaultConfig.rc_buf_sz ∧
        cfg.rc_resize_allowed = env.defaultConfig.rc_resize_allowed ∧
        cfg.g_pass = env.defaultConfig.g_pass) := by
  obtain ⟨s3, cfg3, ht, hcfg⟩ := initEncoder_record hok
  obtain ⟨f, q1, q2, hfin⟩ := finishConfig_frame s3 intf env cfg3
  obtain ⟨n, d, p, l, hc3⟩ := temporalConfig_frame ht
  have hmode := initPrepared_mode s intf env
  refine ⟨finishConfig s3 intf env cfg3, hcfg, ?_, ?_, ?_, ?_, ?_⟩
  · rw [hfin, hc3]; unfold baseConfig; simp only; split <;> rfl
  · rw [hfin, hc3]; unfold baseConfig; simp only; split <;> rfl
  · rw [hfin, hc3]; unfold baseConfig; simp only; split <;> rfl
  · intro hconst
    rw [hconst, if_pos rfl] at hmode
    rw [hfin, hc3]
    unfold baseConfig
    simp [hmode]
  · intro hvar
    rw [hvar, if_neg (by decide)] at hmode
    rw [hfin, hc3]
    unfold baseConfig
    simp [hmode]

/-- C14 at the default parameters with bitrate mode CONSTANT. -/
theorem C14_constant_mode_record_witness :
    (initEncoder construct constIntf (sampleEnv [])).1 = .OK ∧
    ∃ cfg, (initEncoder construct constIntf (sampleEnv [])).2.1.mCodecConfiguration = some cfg ∧
      cfg.rc_end_usage = .VPX_CBR ∧ cfg.rc_overshoot_pct = 15 ∧ cfg.g_timebase_den = 1000000 :=
  ⟨by decide,
    (C14_constant_mode_record construct constIntf (sampleEnv []) (by decide)).imp
      fun _ h => ⟨h.1, (h.2.2.2.2.1 rfl).1, (h.2.2.2.2.1 rfl).2.2.2.2.2.1, h.2.2.1⟩⟩

/-- `onRelease` nulls the context, the configuration record and the interface
and touches nothing else. -/
theorem onRelease_state (s : State) :
    (onRelease s).1 =
      { s with mCodecContext := false, mCodecConfiguration := none, mCodecInterface := false } := by
  obtain ⟨ctx, cfg, _⟩ := s
  cases ctx <;> cases cfg <;> rfl

/-- `onRelease` destroys the engine handle exactly when there is one. -/
theorem onRelease_events (s : State) :
    (onRelease s).2 = if s.mCodecContext then [Event.vpx_codec_destroy] else [] := by
  unfold onRelease
  simp only
  split <;> rfl

theorem cleanUp_state (s : State) (tr : List Event) :
    (cleanUp s tr).2.1 =
      { s with mCodecContext := false, mCodecConfiguration := none, mCodecInterface := false } :=
  onRelease_state s

/-- Whatever its outcome, `initEncoder` leaves the two latches as they were. -/
theorem initEncoder_latches (s : State) (intf : Intf) (env : Env) :
    (initEncoder s intf env).2.1.mSignalledError = s.mSignalledError ∧
    (initEncoder s intf env).2.1.mSignalledOutputEos = s.mSignalledOutputEos := by
  have hP : (initPrepared s intf env).mSignalledError = s.mSignalledError ∧
      (initPrepared s intf env).mSignalledOutputEos = s.mSignalledOutputEos := by
    simp only [initPrepared, selectRateControl, loadParams]
    split <;> exact ⟨rfl, rfl⟩
  have h1 : (selectRateControl (loadParams s intf)).mSignalledError = s.mSignalledError ∧
      (selectRateControl (loadParams s intf)).mSignalledOutputEos = s.mSignalledOutputEos := by
    simp only [selectRateControl, loadParams]
    split <;> exact ⟨rfl, rfl⟩
  unfold initEncoder
  simp only
  split
  · rw [cleanUp_state]; exact h1
  · split
    · rw [cleanUp_state]; exact h1
    · split
      · rw [cleanUp_state]; exact h1
      · rename_i s3 cfg3 heq
        have heq' : temporalConfig (initPrepared s intf env)
            (baseConfig (initPrepared s intf env) env.defaultConfig) = some (s3, cfg3) := by
          simpa [initPrepared] using heq
        obtain ⟨⟨pat, ratio, len, hs3⟩, -⟩ := temporalConfig_some heq'
        have h3 : s3.mSignalledError = s.mSignalledError ∧
            s3.mSignalledOutputEos = s.mSignalledOutputEos := by
          rw [hs3]; exact hP
        split
        · rw [cleanUp_state]; exact h3
        · split
          · rw [cleanUp_state]; exact h3
          · split
            · rw [cleanUp_state]; exact h3
            · unfold allocConversionBuffer
              simp only
              split_ifs
              · rw [cleanUp_state]; exact h3
              · rw [cleanUp_state]; exact h3
              · exact h3

/-- A failed `initEncoder` has released everything: no context, no
configuration record, no interface. -/
theorem initEncoder_failed {s : State} {intf : Intf} {env : Env}
    (h : (initEncoder s intf env).1 ≠ .OK) :
    (initEncoder s intf env).2.1.mCodecContext = false ∧
    (initEncoder s intf env).2.1.mCodecConfiguration = none ∧
    (initEncoder s intf env).2.1.mCodecInterface = false := by
  unfold initEncoder at h ⊢
  simp only at h ⊢
  split
  · rw [cleanUp_state]; exact ⟨rfl, rfl, rfl⟩
  · split
    · rw [cleanUp_state]; exact ⟨rfl, rfl, rfl⟩
    · split
      · rw [cleanUp_state]; exact ⟨rfl, rfl, rfl⟩
      · rename_i s3 cfg3 heq
        rw [heq] at h
        simp only at h
        split
        · rw [cleanUp_state]; exact ⟨rfl, rfl, rfl⟩
        · rename_i h3
          split
          · rw [cleanUp_state]; exact ⟨rfl, rfl, rfl⟩
          · rename_i h4
            split
            · rw [cleanUp_state]; exact ⟨rfl, rfl, rfl⟩
            · rename_i h5
              rw [if_neg h3, if_neg h4, if_neg h5] at h
              unfold allocConversionBuffer at h ⊢
              simp only at h ⊢
              split_ifs at h ⊢
              · rw [cleanUp_state]; exact ⟨rfl, rfl, rfl⟩
              · rw [cleanUp_state]; exact ⟨rfl, rfl, rfl⟩
              · exact absurd rfl h

/-- With more than three temporal layers `initEncoder` cannot succeed. -/
theorem initEncoder_bad_layers (s : State) (intf : Intf) (env : Env)
    (hL : 3 < intf.mLayering.value.layerCount) :
    (initEncoder s intf env).1 = .UNKNOWN_ERROR := by
  cases h : (initEncoder s intf env).1
  · have := (initEncoder_pattern h).1
    omega
  · rfl

/-- A `process` call on a session without latch and without context whose
`initEncoder` fails returns `C2_CORRUPTED`, latches the error and has made the
calls of `initEncoder` only. -/
theorem process_init_failed (s : State) (intf : Intf) (env : Env) (work : C2Work)
    (he : s.mSignalledError = false) (hs : s.mSignalledOutputEos = false)
    (hc : s.mCodecContext = false) (hf : (initEncoder s intf env).1 ≠ .OK) :
    process s intf env work =
      ⟨{ (initEncoder s intf env).2.1 with mSignalledError := true }, intf,
        { beginWork work with result := .C2_CORRUPTED }, (initEncoder s intf env).2.2⟩ := by
  unfold process
  simp only [he, hs, Bool.or_self, Bool.false_eq_true, if_false, hc, Bool.not_false, if_true, hf,
    ne_eq, not_false_eq_true]

/-- C15: with a temporal layer count above 3 (the layering setter lets 4
through), `initEncoder` returns an error and leaves neither an engine handle
nor a configuration record; a `process` call on the state it leaves, no latch
being set, returns `C2_CORRUPTED`, sets the error latch and again leaves no
handle and no record. -/
theorem C15_bad_layer_count_is_an_error (s : State) (intf : Intf) (env : Env)
    (hL : 3 < intf.mLayering.value.layerCount)
    (he : s.mSignalledError = false) (hs : s.mSignalledOutputEos = false) :
    (LayeringSetter { intf.mLayering.value with layerCount := 4 }).layerCount = 4 ∧
    (initEncoder s intf env).1 = .UNKNOWN_ERROR ∧
    (initEncoder s intf env).2.1.mCodecContext = false ∧
    (initEncoder s intf env).2.1.mCodecConfiguration = none ∧
    ∀ env2 work,
      (process (initEncoder s intf env).2.1 intf env2 work).work.result = .C2_CORRUPTED ∧
      (process (initEncoder s intf env).2.1 intf env2 work).state.mSignalledError = true ∧
      (process (initEncoder s intf env).2.1 intf env2 work).state.mCodecContext = false ∧
      (process (initEncoder s intf env).2.1 intf env2 work).state.mCodecConfiguration = none := by
  have hfail := initEncoder_bad_layers s intf env hL
  have hne : (initEncoder s intf env).1 ≠ .OK := by rw [hfail]; decide
  obtain ⟨hc, hcfg, -⟩ := initEncoder_failed hne
  obtain ⟨l1, l2⟩ := initEncoder_latches s intf env
  refine ⟨rfl, hfail, hc, hcfg, ?_⟩
  intro env2 work
  have hne2 : (initEncoder (initEncoder s intf env).2.1 intf env2).1 ≠ .OK := by
    rw [initEncoder_bad_layers _ intf env2 hL]; decide
  obtain ⟨hc2, hcfg2, -⟩ := initEncoder_failed hne2
  rw [process_init_failed _ intf env2 work (by rw [l1, he]) (by rw [l2, hs]) hc hne2]
  exact ⟨rfl, rfl, hc2, hcfg2⟩

/-- C15 on the constructed component with four layers configured. -/
theorem C15_bad_layer_count_is_an_error_witness :
    3 < (layeredIntf 4 [1 / 4, 1 / 2, 3 / 4]).mLayering.value.layerCount ∧
    (initEncoder construct (layeredIntf 4 [1 / 4, 1 / 2, 3 / 4]) (sampleEnv [])).1 =
      .UNKNOWN_ERROR ∧
    (process (initEncoder construct (layeredIntf 4 [1 / 4, 1 / 2, 3 / 4]) (sampleEnv [])).2.1
      (layeredIntf 4 [1 / 4, 1 / 2, 3 / 4]) (sampleEnv [samplePacket 0])
      (sampleWork 0 0 [sampleBuffer])).work.result = .C2_CORRUPTED :=
  have h := C15_bad_layer_count_is_an_error construct (layeredIntf 4 [1 / 4, 1 / 2, 3 / 4])
    (sampleEnv []) (by decide) rfl rfl
  ⟨by decide, h.2.1, (h.2.2.2.2 (sampleEnv [samplePacket 0]) (sampleWork 0 0 [sampleBuffer])).1⟩

/-- C16: from every state `onStop` returns `C2_OK`, `onFlush_sm` does the same
and `onReset` leaves the same state; afterwards there is no engine handle and no
configuration record, the last timestamp is `0x7FFFFFFFFFFFFFFF` and both
latches are clear, so that the next `process` call passes the latch check and
runs `initEncoder`: it continues with the input checks on the state left by
`initEncoder` when that succeeds and returns `C2_CORRUPTED` when it fails. -/
theorem C16_stop_resets_session (s : State) :
    (onStop s).1 = .C2_OK ∧ onFlush_sm s = onStop s ∧ onReset s = (onStop s).2 ∧
    (onStop s).2.1.mCodecContext = false ∧
    (onStop s).2.1.mCodecConfiguration = none ∧
    (onStop s).2.1.mLastTimestamp = 0x7FFFFFFFFFFFFFFF ∧
    (onStop s).2.1.mSignalledError = false ∧
    (onStop s).2.1.mSignalledOutputEos = false ∧
    ∀ intf env work,
      ((initEncoder (onStop s).2.1 intf env).1 = .OK →
        process (onStop s).2.1 intf env work =
          processFrame (initEncoder (onStop s).2.1 intf env).2.1 intf env (beginWork work)
            (initEncoder (onStop s).2.1 intf env).2.2) ∧
      ((initEncoder (onStop s).2.1 intf env).1 ≠ .OK →
        (process (onStop s).2.1 intf env work).work.result = .C2_CORRUPTED ∧
        (process (onStop s).2.1 intf env work).trace = (initEncoder (onStop s).2.1 intf env).2.2)
    := by
  have hc : (onStop s).2.1.mCodecContext = false := by
    unfold onStop; simp only; rw [onRelease_state]
  have hcfg : (onStop s).2.1.mCodecConfiguration = none := by
    unfold onStop; simp only; rw [onRelease_state]
  refine ⟨rfl, rfl, rfl, hc, hcfg, rfl, rfl, rfl, ?_⟩
  intro intf env work
  constructor
  · intro hok
    rw [process_session _ intf env work rfl rfl (Or.inr hok)]
    unfold sessionState sessionTrace
    rw [hc]
    rfl
  · intro hf
    rw [process_init_failed _ intf env work rfl rfl hc hf]
    exact ⟨rfl, rfl⟩

/-- C17: from every state, a second `onRelease` right after a first leaves the
state of the first, in which handle, configuration record and interface are
all null, and destroys nothing. -/
theorem C17_release_is_idempotent (s : State) :
    (onRelease (onRelease s).1).1 = (onRelease s).1 ∧
    (onRelease (onRelease s).1).2 = [] ∧
    (onRelease s).1.mCodecContext = false ∧
    (onRelease s).1.mCodecConfiguration = none ∧
    (onRelease s).1.mCodecInterface = false := by
  refine ⟨?_, ?_, ?_, ?_, ?_⟩
  · rw [onRelease_state (onRelease s).1, onRelease_state s]
  · rw [onRelease_events, onRelease_state s]
    rfl
  · rw [onRelease_state s]
  · rw [onRelease_state s]
  · rw [onRelease_state s]

/-- C18: `drain` returns `C2_OK` for `NO_DRAIN`, `C2_OMITTED` for `DRAIN_CHAIN`
and `C2_OK` for every other drain mode, and in all cases returns the state it
was given. -/
theorem C18_drain_is_a_no_op (s : State) (drainMode : Nat) :
    (drainMode = NO_DRAIN → (drain s drainMode).1 = .C2_OK) ∧
    (drainMode = DRAIN_CHAIN → (drain s drainMode).1 = .C2_OMITTED) ∧
    (drainMode ≠ NO_DRAIN → drainMode ≠ DRAIN_CHAIN → (drain s drainMode).1 = .C2_OK) ∧
    (drain s drainMode).2 = s := by
  unfold drain
  refine ⟨?_, ?_, ?_, ?_⟩
  · intro h; rw [if_pos h]
  · intro h
    have hne : drainMode ≠ NO_DRAIN := by rw [h]; decide
    rw [if_neg hne, if_pos h]
  · intro h1 h2; rw [if_neg h1, if_neg h2]
  · split_ifs <;> rfl

theorem foldl_layer_values (ratio : Nat → ℚ) (l : List Nat) :
    ∀ (c : vpx_codec_enc_cfg_t) (i : Nat),
      (l.foldl
        (fun c i =>
          { c with
            ts_target_bitrate :=
              arrSet c.ts_target_bitrate i
                (castUInt32 (f32 (f32 (c.rc_target_bitrate : ℚ) * f32 (ratio i)))) })
        c).ts_target_bitrate i =
        if i ∈ l then castUInt32 (f32 (f32 (c.rc_target_bitrate : ℚ) * f32 (ratio i)))
        else c.ts_target_bitrate i := by
  induction l with
  | nil => intro c i; simp
  | cons a t ih =>
    intro c i
    rw [List.foldl_cons, ih]
    by_cases hit : i ∈ t
    · simp [hit]
    · by_cases hia : i = a
      · subst hia
        simp [hit, arrSet]
      · simp [hit, hia, arrSet]

/-- The layer loop gives every layer below `ts_number_layers` the truncated
single-precision product of the target bitrate and the stored ratio of that
layer. -/
theorem layerBitrates_values (s : State) (cfg : vpx_codec_enc_cfg_t) (i : Nat) :
    (layerBitrates s cfg).ts_target_bitrate i =
      if i < cfg.ts_number_layers then
        castUInt32
          (f32 (f32 (cfg.rc_target_bitrate : ℚ) * f32 (s.mTemporalLayerBitrateRatio i)))
      else cfg.ts_target_bitrate i := by
  unfold layerBitrates
  rw [foldl_layer_values]
  simp only [List.mem_range]

theorem finishConfig_ts (s : State) (intf : Intf) (env : Env) (cfg : vpx_codec_enc_cfg_t) :
    (finishConfig s intf env cfg).ts_target_bitrate = (layerBitrates s cfg).ts_target_bitrate := by
  unfold finishConfig quantizerConfig syncPeriodConfig
  simp only
  split_ifs <;> rfl

/-- A layer target computed from a ratio in [0, 1] does not exceed the target
bitrate it is derived from, as long as that bitrate is below 2^24 and so is a
`float`. -/
theorem layer_target_le (n : Nat) (r : ℚ) (hn : n < 2 ^ 24) (h0 : 0 ≤ r) (h1 : r ≤ 1) :
    castUInt32 (f32 (f32 (n : ℚ) * f32 r)) ≤ n := by
  have hr0 : 0 ≤ f32 r := roundFloat_nonneg 24 (-126) r h0
  have hr1 : f32 r ≤ 1 := by
    have := roundFloat_le_nat 24 (-126) (by norm_num) r 1 (by norm_num) (by exact_mod_cast h1)
    exact_mod_cast this
  have hn0 : 0 ≤ f32 (n : ℚ) := roundFloat_nonneg 24 (-126) _ (Nat.cast_nonneg n)
  have hn1 : f32 (n : ℚ) ≤ (n : ℚ) :=
    roundFloat_le_nat 24 (-126) (by norm_num) _ n hn (le_refl _)
  have hp0 : 0 ≤ f32 (n : ℚ) * f32 r := mul_nonneg hn0 hr0
  have hp1 : f32 (n : ℚ) * f32 r ≤ (n : ℚ) := by
    calc f32 (n : ℚ) * f32 r ≤ f32 (n : ℚ) * 1 := mul_le_mul_of_nonneg_left hr1 hn0
      _ = f32 (n : ℚ) := mul_one _
      _ ≤ (n : ℚ) := hn1
  exact castUInt32_le _ n (roundFloat_nonneg 24 (-126) _ hp0)
    (roundFloat_le_nat 24 (-126) (by norm_num) _ n hn hp1)

theorem getD_ge_zero (l : List ℚ) (i : Nat) (h : ∀ r ∈ l, 0 ≤ r) : 0 ≤ l.getD i 0 := by
  rw [List.getD_eq_getElem?_getD]
  cases hi : l[i]? with
  | none => simp
  | some r =>
    simp only [Option.getD_some]
    exact h r (List.getElem?_mem hi)

theorem getD_le_one (l : List ℚ) (i : Nat) (h : ∀ r ∈ l, r ≤ 1) : l.getD i 0 ≤ 1 := by
  rw [List.getD_eq_getElem?_getD]
  cases hi : l[i]? with
  | none => simp
  | some r =>
    simp only [Option.getD_some]
    exact h r (List.getElem?_mem hi)

/-- The layer switch stores only ratios of the layering parameter, so stored
ratios of at most 1 stay at most 1. -/
theorem temporalConfig_ratio_le {s s3 : State} {cfg cfg3 : vpx_codec_enc_cfg_t}
    (h : temporalConfig s cfg = some (s3, cfg3))
    (hs : ∀ i, s.mTemporalLayerBitrateRatio i ≤ 1)
    (hl : ∀ r ∈ s.mLayering.value.bitrateRatios, r ≤ 1) :
    (∀ i, s3.mTemporalLayerBitrateRatio i ≤ 1) ∧
    cfg3.ts_number_layers =
      (if s.mTemporalLayers = 0 then cfg.ts_number_layers else s.mTemporalLayers) := by
  unfold temporalConfig at h
  split at h
  · rename_i h0
    simp only [Option.some.injEq, Prod.mk.injEq] at h
    obtain ⟨rfl, rfl⟩ := h
    exact ⟨hs, by simp [h0]⟩
  · rename_i h0
    simp only [Option.some.injEq, Prod.mk.injEq] at h
    obtain ⟨rfl, rfl⟩ := h
    exact ⟨hs, by simp [h0]⟩
  · rename_i h0
    simp only [Option.some.injEq, Prod.mk.injEq] at h
    obtain ⟨rfl, rfl⟩ := h
    refine ⟨?_, by simp [h0]⟩
    intro i
    simp only [arrSet]
    split_ifs
    · exact getD_le_one _ _ hl
    · exact hs i
  · rename_i h0
    simp only [Option.some.injEq, Prod.mk.injEq] at h
    obtain ⟨rfl, rfl⟩ := h
    refine ⟨?_, by simp [h0]⟩
    intro i
    simp only [arrSet]
    split_ifs
    · exact getD_le_one _ _ hl
    · exact getD_le_one _ _ hl
    · exact hs i
  · simp at h

/-- The layer switch keeps stored ratios non-negative when those of the
layering parameter are, and the ratio it stores for a layer below the top one
is the entry of the parameter with that index. -/
theorem temporalConfig_ratio_read {s s3 : State} {cfg cfg3 : vpx_codec_enc_cfg_t}
    (h : temporalConfig s cfg = some (s3, cfg3))
    (hs : ∀ i, 0 ≤ s.mTemporalLayerBitrateRatio i)
    (hl : ∀ r ∈ s.mLayering.value.bitrateRatios, 0 ≤ r) :
    (∀ i, 0 ≤ s3.mTemporalLayerBitrateRatio i) ∧
    (∀ i, 2 ≤ s.mTemporalLayers → i + 1 < s.mTemporalLayers →
      s3.mTemporalLayerBitrateRatio i = s.mLayering.value.bitrateRatios.getD i 0) := by
  unfold temporalConfig at h
  split at h
  · rename_i h0
    simp only [Option.some.injEq, Prod.mk.injEq] at h
    obtain ⟨rfl, rfl⟩ := h
    exact ⟨hs, fun i h2 _ => by omega⟩
  · rename_i h0
    simp only [Option.some.injEq, Prod.mk.injEq] at h
    obtain ⟨rfl, rfl⟩ := h
    exact ⟨hs, fun i h2 _ => by omega⟩
  · rename_i h0
    simp only [Option.some.injEq, Prod.mk.injEq] at h
    obtain ⟨rfl, rfl⟩ := h
    refine ⟨?_, ?_⟩
    · intro i
      simp only [arrSet]
      split_ifs
      · exact getD_ge_zero _ _ hl
      · exact hs i
    · intro i _ hi
      have hi0 : i = 0 := by omega
      subst hi0
      simp [arrSet]
  · rename_i h0
    simp only [Option.some.injEq, Prod.mk.injEq] at h
    obtain ⟨rfl, rfl⟩ := h
    refine ⟨?_, ?_⟩
    · intro i
      simp only [arrSet]
      split_ifs
      · exact getD_ge_zero _ _ hl
      · exact getD_ge_zero _ _ hl
      · exact hs i
    · intro i _ hi
      have hi01 : i = 0 ∨ i = 1 := by omega
      rcases hi01 with rfl | rfl <;> simp [arrSet]
  · simp at h

theorem initPrepared_layering (s : State) (intf : Intf) (env : Env) :
    (initPrepared s intf env).mLayering = intf.mLayering ∧
    (initPrepared s intf env).mTemporalLayers = intf.mLayering.value.layerCount ∧
    (initPrepared s intf env).mTemporalLayerBitrateRatio = s.mTemporalLayerBitrateRatio := by
  simp only [initPrepared, selectRateControl, loadParams]
  split <;> exact ⟨rfl, rfl, rfl⟩

theorem sum_map_range_le (f : Nat → Nat) (b : Nat) :
    ∀ n, (∀ i, i < n → f i ≤ b) → ((List.range n).map f).sum ≤ n * b := by
  intro n
  induction n with
  | zero => intro _; simp
  | succ k ih =>
    intro h
    rw [List.range_succ, List.map_append, List.sum_append]
    have h1 := ih (fun i hi => h i (Nat.lt_succ_of_lt hi))
    have h2 := h k (Nat.lt_succ_self k)
    simp only [List.map_cons, List.map_nil, List.sum_cons, List.sum_nil, Nat.add_zero]
    rw [Nat.succ_mul]
    omega

/-- C19 as stated fails: with the default bitrate 64000 and two layers with ratio
3/5 for layer 0, `initEncoder` leaves `rc_target_bitrate = 64` and layer targets
38 and 64, whose sum 102 exceeds 64 by far more than rounding. -/
theorem C19_counterexample :
    4096 ≤ (layeredIntf 2 [3 / 5]).mBitrate.value ∧
    (layeredIntf 2 [3 / 5]).mBitrate.value ≤ 40000000 ∧
    (initEncoder construct (layeredIntf 2 [3 / 5]) (sampleEnv [])).1 = .OK ∧
    (initEncoder construct (layeredIntf 2 [3 / 5]) (sampleEnv [])).2.1.mCodecConfiguration.map
      (fun c => (c.rc_target_bitrate, c.ts_target_bitrate 0, c.ts_target_bitrate 1,
        layerBitrateSum c 2)) = some (64, 38, 64, 102) := by
  decide!

/-- C19 (amended): for every layering configuration with 1 to 3 layers that
holds a ratio for every layer below the top one, all ratios in [0, 1], the
ratios stored in the component being in [0, 1] as well, the record left by a
successful `initEncoder` gives every layer below the top one the truncated
single-precision product of `rc_target_bitrate` and the ratio of the parameter
with its index, and gives every configured layer a target of at most
`rc_target_bitrate`; the targets are cumulative, so their sum is bounded by the
number of layers times `rc_target_bitrate`, not by `rc_target_bitrate`
itself. -/
theorem C19_layer_targets_bounded_by_total (s : State) (intf : Intf) (env : Env)
    (hL1 : 1 ≤ intf.mLayering.value.layerCount) (hL3 : intf.mLayering.value.layerCount ≤ 3)
    (hlen : intf.mLayering.value.layerCount - 1 ≤ intf.mLayering.value.bitrateRatios.length)
    (hr : ∀ r ∈ intf.mLayering.value.bitrateRatios, 0 ≤ r ∧ r ≤ 1)
    (hs : ∀ i, 0 ≤ s.mTemporalLayerBitrateRatio i ∧ s.mTemporalLayerBitrateRatio i ≤ 1)
    (hok : (initEncoder s intf env).1 = .OK) :
    ∃ cfg, (initEncoder s intf env).2.1.mCodecConfiguration = some cfg ∧
      cfg.ts_number_layers = intf.mLayering.value.layerCount ∧
      (∀ i, i + 1 < intf.mLayering.value.layerCount →
        ∃ r, intf.mLayering.value.bitrateRatios[i]? = some r ∧
          cfg.ts_target_bitrate i = castUInt32 (f32 (f32 (cfg.rc_target_bitrate : ℚ) * f32 r))) ∧
      (∀ i, i < intf.mLayering.value.layerCount →
        cfg.ts_target_bitrate i ≤ cfg.rc_target_bitrate) ∧
      layerBitrateSum cfg intf.mLayering.value.layerCount ≤
        intf.mLayering.value.layerCount * cfg.rc_target_bitrate := by
  obtain ⟨s3, cfg3, ht, hcfg⟩ := initEncoder_record hok
  obtain ⟨p1, p2, p3⟩ := initPrepared_layering s intf env
  obtain ⟨hle, hn⟩ := temporalConfig_ratio_le ht (by rw [p3]; exact fun i => (hs i).2)
    (by rw [p1]; exact fun r hr' => (hr r hr').2)
  obtain ⟨hge, hread⟩ := temporalConfig_ratio_read ht (by rw [p3]; exact fun i => (hs i).1)
    (by rw [p1]; exact fun r hr' => (hr r hr').1)
  rw [p2, if_neg (by omega)] at hn
  rw [p1, p2] at hread
  obtain ⟨f, q1, q2, hfr⟩ := finishConfig_frame s3 intf env cfg3
  have hnl : (finishConfig s3 intf env cfg3).ts_number_layers =
      intf.mLayering.value.layerCount := by
    rw [hfr]; exact hn
  have hrc : (finishConfig s3 intf env cfg3).rc_target_bitrate = cfg3.rc_target_bitrate := by
    rw [hfr]
  have hsmall : cfg3.rc_target_bitrate < 2 ^ 24 := by
    rw [(temporalConfig_some ht).2, baseConfig_rc]
    have : (((initPrepared s intf env).mBitrate.value + 500) % U32) < U32 :=
      Nat.mod_lt _ (by unfold U32; positivity)
    unfold U32 at this ⊢
    omega
  have hval : ∀ i, i < intf.mLayering.value.layerCount →
      (finishConfig s3 intf env cfg3).ts_target_bitrate i =
        castUInt32 (f32 (f32 ((finishConfig s3 intf env cfg3).rc_target_bitrate : ℚ) *
          f32 (s3.mTemporalLayerBitrateRatio i))) := by
    intro i hi
    rw [finishConfig_ts, layerBitrates_values, hn, if_pos hi, hrc]
  have hts : ∀ i, i < intf.mLayering.value.layerCount →
      (finishConfig s3 intf env cfg3).ts_target_bitrate i ≤
        (finishConfig s3 intf env cfg3).rc_target_bitrate := by
    intro i hi
    rw [hval i hi, hrc]
    exact layer_target_le _ _ hsmall (hge i) (hle i)
  refine ⟨_, hcfg, hnl, ?_, hts, sum_map_range_le _ _ _ hts⟩
  intro i hi
  have hilen : i < intf.mLayering.value.bitrateRatios.length := by omega
  refine ⟨intf.mLayering.value.bitrateRatios[i], List.getElem?_eq_getElem hilen, ?_⟩
  rw [hval i (by omega), hread i (by omega) hi, List.getD_eq_getElem _ _ hilen]

/-- C19 at the default bitrate with two layers and ratio 3/5: layer 0 gets the
truncated single-precision product of 64 and the ratio, 38, and the layer
targets 38 and 64 are both at most 64. -/
theorem C19_layer_targets_bounded_by_total_witness :
    (initEncoder construct (layeredIntf 2 [3 / 5]) (sampleEnv [])).1 = .OK ∧
    castUInt32 (f32 (f32 ((64 : Nat) : ℚ) * f32 (3 / 5))) = 38 ∧
    ∃ cfg,
      (initEncoder construct (layeredIntf 2 [3 / 5]) (sampleEnv [])).2.1.mCodecConfiguration =
        some cfg ∧
      cfg.ts_target_bitrate 0 ≤ cfg.rc_target_bitrate ∧
      cfg.ts_target_bitrate 1 ≤ cfg.rc_target_bitrate :=
  ⟨by decide, by decide!,
    (C19_layer_targets_bounded_by_total construct (layeredIntf 2 [3 / 5]) (sampleEnv [])
      (by decide) (by decide) (by decide)
      (by intro r hr; simp [layeredIntf] at hr; rw [hr]; norm_num)
      (fun _ => ⟨zero_le_one, le_refl _⟩) (by decide)).imp
      fun _ h => ⟨h.1, h.2.2.2.1 0 (by decide), h.2.2.2.1 1 (by decide)⟩⟩

/-- C20: the code at the failing input. After a session with three layers
(ratios 1/4 and 1/2) has been stopped, `initEncoder` with two layers and ratio
3/5 succeeds with `rc_target_bitrate = 64`, gives layer 0 the target 38 and
gives layer 1, the top layer, the target 32: the ratio 1/2 left behind by the
earlier session is used for it instead of 1. -/
theorem C20_stale_ratio_after_reinitialization :
    afterThreeLayerStop.mCodecContext = false ∧
    afterThreeLayerStop.mTemporalLayerBitrateRatio 1 = 1 / 2 ∧
    (initEncoder afterThreeLayerStop (layeredIntf 2 [3 / 5]) (sampleEnv [])).1 = .OK ∧
    (initEncoder afterThreeLayerStop (layeredIntf 2 [3 / 5])
      (sampleEnv [])).2.1.mCodecConfiguration.map
      (fun c => (c.ts_number_layers, c.rc_target_bitrate, c.ts_target_bitrate 0,
        c.ts_target_bitrate 1)) = some (2, 64, 38, 32) := by
  decide!

/-- C21: the code at the failing input. A session with two layers encodes three
frames and is stopped; the cursor is still 3. After the next `initEncoder` the
first `getEncodeFlags` call returns the flags of pattern entry 3
({NO_UPD_ARF, NO_UPD_LAST}), not those of entry 0 ({NO_UPD_ARF, NO_REF_GF}),
and these are the flags with which `process` encodes the first frame of the new
session. -/
theorem C21_cursor_survives_reinitialization :
    afterThreeFramesStop.mCodecContext = false ∧
    afterThreeFramesStop.mTemporalPatternIdx = 3 ∧
    (initEncoder afterThreeFramesStop (layeredIntf 2 [3 / 5]) (sampleEnv [])).1 = .OK ∧
    (initEncoder afterThreeFramesStop (layeredIntf 2 [3 / 5])
      (sampleEnv [])).2.1.mTemporalPatternIdx = 3 ∧
    (getEncodeFlags (initEncoder afterThreeFramesStop (layeredIntf 2 [3 / 5])
      (sampleEnv [])).2.1).1 = VP8_EFLAG_NO_UPD_ARF ||| VP8_EFLAG_NO_UPD_LAST ∧
    flagsAt 2 0 = VP8_EFLAG_NO_UPD_ARF ||| VP8_EFLAG_NO_REF_GF ∧
    (getEncodeFlags (initEncoder afterThreeFramesStop (layeredIntf 2 [3 / 5])
      (sampleEnv [])).2.1).1 ≠ flagsAt 2 0 ∧
    encodeCalls (process afterThreeFramesStop (layeredIntf 2 [3 / 5])
      (sampleEnv [samplePacket 0]) (sampleWork 0 0 [sampleBuffer])).trace =
      [(sampleImage, 0, 33333, VP8_EFLAG_NO_UPD_ARF ||| VP8_EFLAG_NO_UPD_LAST)] := by
  decide!

theorem c2_clamp_bounds (p r : ℚ) (hp : p ≤ 1) :
    p ≤ c2_clamp p r 1 ∧ c2_clamp p r 1 ≤ 1 := by
  unfold c2_clamp
  exact ⟨le_max_left _ _, max_le hp (min_le_right _ _)⟩

theorem c2_clamp_idem (p r : ℚ) (hp : p ≤ 1) :
    c2_clamp p (c2_clamp p r 1) 1 = c2_clamp p r 1 := by
  obtain ⟨h1, h2⟩ := c2_clamp_bounds p r hp
  show max p (min (c2_clamp p r 1) 1) = c2_clamp p r 1
  rw [min_eq_left h2, max_eq_right h1]

/-- The clamped ratios lie between the starting bound and 1 and never
decrease; clamping them again changes nothing. -/
theorem clampRatios_spec (rs : List ℚ) :
    ∀ p : ℚ, 0 ≤ p → p ≤ 1 →
      (∀ r ∈ clampRatios p rs, 0 ≤ r ∧ r ≤ 1) ∧
      List.Chain (· ≤ ·) p (clampRatios p rs) ∧
      clampRatios p (clampRatios p rs) = clampRatios p rs := by
  induction rs with
  | nil => intro p _ _; exact ⟨by simp [clampRatios], List.Chain.nil, rfl⟩
  | cons r rs ih =>
    intro p hp0 hp1
    obtain ⟨h1, h2⟩ := c2_clamp_bounds p r hp1
    obtain ⟨i1, i2, i3⟩ := ih (c2_clamp p r 1) (le_trans hp0 h1) h2
    refine ⟨?_, ?_, ?_⟩
    · intro x hx
      simp only [clampRatios, List.mem_cons] at hx
      rcases hx with hx | hx
      · rw [hx]; exact ⟨le_trans hp0 h1, h2⟩
      · exact i1 x hx
    · simp only [clampRatios]
      exact List.Chain.cons h1 i2
    · simp only [clampRatios]
      rw [c2_clamp_idem p r hp1, i3]

/-- C22: for every layering value, after `LayeringSetter` the layer count is at
most 4, the B-layer count is 0, every bitrate ratio lies in [0,1] and the
ratios are non-decreasing in index order; applying `LayeringSetter` again
changes nothing. -/
theorem C22_layering_setter_invariants (me : Layering) :
    (LayeringSetter me).layerCount ≤ 4 ∧
    (LayeringSetter me).bLayerCount = 0 ∧
    (∀ r ∈ (LayeringSetter me).bitrateRatios, 0 ≤ r ∧ r ≤ 1) ∧
    List.Chain' (· ≤ ·) (LayeringSetter me).bitrateRatios ∧
    List.Pairwise (· ≤ ·) (LayeringSetter me).bitrateRatios ∧
    LayeringSetter (LayeringSetter me) = LayeringSetter me := by
  obtain ⟨h1, h2, h3⟩ := clampRatios_spec me.bitrateRatios 0 (le_refl 0) (by norm_num)
  have hchain : List.Chain' (· ≤ ·) (clampRatios 0 me.bitrateRatios) :=
    (List.chain'_cons'.mp (show List.Chain' (· ≤ ·) (0 :: clampRatios 0 me.bitrateRatios) from h2)).2
  refine ⟨?_, rfl, h1, hchain, List.chain'_iff_pairwise.mp hchain, ?_⟩
  · unfold LayeringSetter
    simp only
    split_ifs <;> omega
  · unfold LayeringSetter
    simp only [h3]
    congr 1
    split_ifs <;> rfl

/-- C23: a width or height is supported exactly when it is between 2 and 2048
and even. `SizeSetter` reports a bad value for an unsupported width or height
and keeps the previous value of that dimension, and takes a supported value as
it is; hence when the previous size is supported in both dimensions, so is the
size it leaves. -/
theorem C23_size_setter_keeps_size_valid (oldMe me : PictureSize) :
    (∀ v, sizeFieldSupports v = true ↔ (2 ≤ v ∧ v ≤ 2048 ∧ v % 2 = 0)) ∧
    (sizeFieldSupports me.width = false →
      SizeField.width ∈ (SizeSetter oldMe me).1 ∧ (SizeSetter oldMe me).2.width = oldMe.width) ∧
    (sizeFieldSupports me.width = true →
      SizeField.width ∉ (SizeSetter oldMe me).1 ∧ (SizeSetter oldMe me).2.width = me.width) ∧
    (sizeFieldSupports me.height = false →
      SizeField.height ∈ (SizeSetter oldMe me).1 ∧
      (SizeSetter oldMe me).2.height = oldMe.height) ∧
    (sizeFieldSupports me.height = true →
      SizeField.height ∉ (SizeSetter oldMe me).1 ∧ (SizeSetter oldMe me).2.height = me.height) ∧
    (sizeFieldSupports oldMe.width = true → sizeFieldSupports oldMe.height = true →
      sizeFieldSupports (SizeSetter oldMe me).2.width = true ∧
      sizeFieldSupports (SizeSetter oldMe me).2.height = true) := by
  refine ⟨?_, ?_, ?_, ?_, ?_, ?_⟩
  · intro v
    unfold sizeFieldSupports
    rw [decide_eq_true_iff]
    constructor <;> intro h <;> omega
  all_goals
    unfold SizeSetter
    cases hw : sizeFieldSupports me.width <;> cases hh : sizeFieldSupports me.height <;>
      simp [hw, hh]
  · intro a b; exact ⟨a, b⟩
  · intro a _; exact a

theorem emitPacket_congr (w w' : C2Work) (eos : Bool) (p : vpx_codec_cx_pkt_t)
    (h1 : w'.inputFlags = w.inputFlags) (h2 : w'.inputOrdinal = w.inputOrdinal)
    (h3 : w'.inputBuffers = w.inputBuffers) (h4 : w'.result = w.result) :
    emitPacket w' eos p = emitPacket w eos p := by
  unfold emitPacket
  rw [h1, h2, h3, h4]

theorem foldl_emit_fields (eos : Bool) (l : List vpx_codec_cx_pkt_t) :
    ∀ w : C2Work,
      (l.foldl (fun w p => emitPacket w eos p) w).inputFlags = w.inputFlags ∧
      (l.foldl (fun w p => emitPacket w eos p) w).inputOrdinal = w.inputOrdinal ∧
      (l.foldl (fun w p => emitPacket w eos p) w).inputBuffers = w.inputBuffers ∧
      (l.foldl (fun w p => emitPacket w eos p) w).result = w.result := by
  induction l with
  | nil => intro w; exact ⟨rfl, rfl, rfl, rfl⟩
  | cons a t ih =>
    intro w
    rw [List.foldl_cons]
    obtain ⟨h1, h2, h3, h4⟩ := ih (emitPacket w eos a)
    exact ⟨h1, h2, h3, h4⟩

/-- Emitting a list of packets one after the other leaves what the last one
emits. -/
theorem foldl_emit_last (eos : Bool) (l : List vpx_codec_cx_pkt_t) (w : C2Work)
    (p : vpx_codec_cx_pkt_t) (h : l.getLast? = some p) :
    l.foldl (fun w p => emitPacket w eos p) w = emitPacket w eos p := by
  obtain ⟨ys, rfl⟩ := List.getLast?_eq_some_iff.mp h
  rw [List.foldl_append]
  obtain ⟨h1, h2, h3, h4⟩ := foldl_emit_fields eos ys w
  exact emitPacket_congr w _ eos p h1 h2 h3 h4

theorem blockRequests_append (a b : List Event) :
    blockRequests (a ++ b) = blockRequests a ++ blockRequests b := by
  unfold blockRequests
  rw [List.filterMap_append]

theorem packetQueries_append (a b : List Event) :
    packetQueries (a ++ b) = packetQueries a + packetQueries b := by
  unfold packetQueries
  rw [List.filter_append, List.length_append]

/-- The packet loop when the block pool and the mapping never fail: it runs to
the end, asks the engine once per packet and once more, requests one block per
frame packet of the size of its payload, and the work item ends up as emitting
the frame packets one after the other leaves it. -/
theorem drainPackets_all_ok (env : Env) (eos : Bool)
    (hf : ∀ k n, env.fetchLinearBlock k n = .C2_OK) (hm : ∀ k, env.mapWrite k = .C2_OK)
    (ps : List vpx_codec_cx_pkt_t) :
    ∀ acc : DrainAcc,
      (drainPackets env eos ps acc).2 = false ∧
      (drainPackets env eos ps acc).1.work =
        (ps.filter fun p => p.isFramePkt).foldl (fun w p => emitPacket w eos p) acc.work ∧
      (drainPackets env eos ps acc).1.populated =
        (acc.populated || !(ps.filter fun p => p.isFramePkt).isEmpty) ∧
      ∃ post, (drainPackets env eos ps acc).1.trace = acc.trace ++ post ∧
        blockRequests post = (ps.filter fun p => p.isFramePkt).map (fun p => p.sz) ∧
        packetQueries post = ps.length + 1 := by
  induction ps with
  | nil =>
    intro acc
    exact ⟨rfl, rfl, by simp [drainPackets], [Event.vpx_codec_get_cx_data], rfl, rfl, rfl⟩
  | cons p ps ih =>
    intro acc
    unfold drainPackets
    by_cases hp : p.isFramePkt = true
    · simp only [hp, if_true, hf, hm, ne_eq, not_true_eq_false, if_false]
      obtain ⟨i1, i2, i3, post, i4, i5, i6⟩ := ih
        { state :=
            { acc.state with
              mNumInputFrames := acc.state.mNumInputFrames + 1
              mSignalledOutputEos := if eos then true else acc.state.mSignalledOutputEos }
          work := emitPacket acc.work eos p
          trace := acc.trace ++ [Event.vpx_codec_get_cx_data] ++ [Event.fetchLinearBlock p.sz]
          populated := true
          frames := acc.frames + 1 }
      refine ⟨i1, ?_, ?_, [Event.vpx_codec_get_cx_data, Event.fetchLinearBlock p.sz] ++ post,
        ?_, ?_, ?_⟩
      · rw [List.filter_cons_of_pos (by simpa using hp), List.foldl_cons]
        exact i2
      · refine i3.trans ?_
        rw [List.filter_cons_of_pos (by simpa using hp)]
        simp
      · refine i4.trans ?_
        simp
      · rw [blockRequests_append, i5, List.filter_cons_of_pos (by simpa using hp)]
        rfl
      · rw [packetQueries_append, i6, List.length_cons]
        show 1 + (ps.length + 1) = ps.length + 1 + 1
        omega
    · have hp' : p.isFramePkt = false := by simpa using hp
      simp only [hp', Bool.false_eq_true, if_false]
      obtain ⟨i1, i2, i3, post, i4, i5, i6⟩ := ih
        { acc with trace := acc.trace ++ [Event.vpx_codec_get_cx_data] }
      refine ⟨i1, ?_, ?_, [Event.vpx_codec_get_cx_data] ++ post, ?_, ?_, ?_⟩
      · rw [List.filter_cons_of_neg (by simp [hp'])]
        exact i2
      · rw [List.filter_cons_of_neg (by simp [hp'])]
        exact i3
      · refine i4.trans ?_
        simp
      · rw [blockRequests_append, i5, List.filter_cons_of_neg (by simp [hp'])]
        rfl
      · rw [packetQueries_append, i6, List.length_cons]
        show 1 + (ps.length + 1) = ps.length + 1 + 1
        omega


/-- The encode path when dynamic configuration, the encode call, the block pool
and the mapping all succeed: what the work item holds afterwards and what
follows the encode call in the trace. -/
theorem encodeFrame_packets (s : State) (intf : Intf) (env : Env) (w : C2Work)
    (tr : List Event) (img : vpx_image_t)
    (hd : (dynamicConfig (getEncodeFlags s).2 intf env (getEncodeFlags s).1).ok = true)
    (henc : env.encode = VPX_CODEC_OK)
    (hf : ∀ k n, env.fetchLinearBlock k n = .C2_OK) (hm : ∀ k, env.mapWrite k = .C2_OK) :
    (encodeFrame s intf env w tr img).work =
      (if (framePackets env).isEmpty then { w with workletsProcessed := 0 }
        else (framePackets env).foldl
          (fun acc p => emitPacket acc (decide (w.inputFlags &&& FLAG_END_OF_STREAM ≠ 0)) p) w) ∧
    ∃ pre pts duration flags post,
      (encodeFrame s intf env w tr img).trace =
        pre ++ [Event.vpx_codec_encode img pts duration flags] ++ post ∧
      blockRequests post = (framePackets env).map (fun p => p.sz) ∧
      packetQueries post = env.packets.length + 1 := by
  obtain ⟨d1, d2, d3, post, d4, d5, d6⟩ := drainPackets_all_ok env
    (decide (w.inputFlags &&& FLAG_END_OF_STREAM ≠ 0)) hf hm env.packets
    { state := { (dynamicConfig (getEncodeFlags s).2 intf env (getEncodeFlags s).1).state with
        mLastTimestamp := w.inputOrdinal.timestamp % U64 }
      work := w
      trace := tr ++ (dynamicConfig (getEncodeFlags s).2 intf env (getEncodeFlags s).1).trace ++
        [Event.vpx_codec_encode img (w.inputOrdinal.timestamp % U64)
          (frameDuration (dynamicConfig (getEncodeFlags s).2 intf env (getEncodeFlags s).1).state
            (w.inputOrdinal.timestamp % U64))
          (dynamicConfig (getEncodeFlags s).2 intf env (getEncodeFlags s).1).flags]
      populated := false
      frames := 0 }
  unfold encodeFrame
  simp only [hd, Bool.not_true, Bool.false_eq_true, if_false]
  rw [if_neg (fun hne => hne henc)]
  simp only [d1, Bool.false_eq_true, if_false]
  constructor
  · by_cases hempty : (framePackets env).isEmpty = true
    · have hpop : (env.packets.filter fun p => p.isFramePkt).isEmpty = true := hempty
      rw [if_pos hempty]
      rw [d3, hpop]
      simp only [Bool.not_true, Bool.or_self, Bool.not_false, if_true]
      rw [d2]
      have hnil : (env.packets.filter fun p => p.isFramePkt) = [] := List.isEmpty_iff.mp hpop
      rw [hnil]
      rfl
    · have hpop : (env.packets.filter fun p => p.isFramePkt).isEmpty = false := by
        simpa [framePackets] using hempty
      rw [if_neg hempty]
      rw [d3, hpop]
      simp only [Bool.not_false, Bool.or_true, Bool.not_true, Bool.false_eq_true, if_false]
      rw [d2]
      rfl
  · refine ⟨tr ++ (dynamicConfig (getEncodeFlags s).2 intf env (getEncodeFlags s).1).trace,
      w.inputOrdinal.timestamp % U64,
      frameDuration (dynamicConfig (getEncodeFlags s).2 intf env (getEncodeFlags s).1).state
        (w.inputOrdinal.timestamp % U64),
      (dynamicConfig (getEncodeFlags s).2 intf env (getEncodeFlags s).1).flags, post, ?_, d5, d6⟩
    split_ifs <;> exact d4

/-- C24 as stated fails for more than one frame packet: when the engine hands out
two frame packets for one input frame, the output of `process` holds one
buffer, that of the second packet, not two. -/
theorem C24_counterexample :
    (framePackets (sampleEnv [samplePacket 0, keyPacket 1])).length = 2 ∧
    (process construct defaultIntf (sampleEnv [samplePacket 0, keyPacket 1])
      (sampleWork 0 0 [sampleBuffer])).work.result = .C2_OK ∧
    (process construct defaultIntf (sampleEnv [samplePacket 0, keyPacket 1])
      (sampleWork 0 0 [sampleBuffer])).work.outputBuffers = [packetBuffer (keyPacket 1)] ∧
    (process construct defaultIntf (sampleEnv [samplePacket 0, keyPacket 1])
      (sampleWork 0 0 [sampleBuffer])).work.outputBuffers.length ≠ 2 := by
  decide!

/-- C24 (amended): for an input frame that is encoded, block pool and mapping
succeeding, `process` asks the engine for packets until there is none left
(once per packet and once more) and requests one output block per frame
packet, of the size of its payload; the output of the work item holds the
buffer of the last frame packet only: with no frame packet the output buffers
are untouched and no worklet counts as processed; otherwise there is exactly
one buffer, holding the payload of the last frame packet, tagged as sync frame
exactly when the engine marked that packet `VPX_FRAME_IS_KEY`, the output
timestamp is that packet's pts, one worklet is processed and the result is
`C2_OK`. -/
theorem C24_last_frame_packet_is_emitted (s : State) (intf : Intf) (env : Env) (work : C2Work)
    (v : InputBuffer) (img : vpx_image_t) (ev : List Event)
    (h : Encodes s intf env work v img ev)
    (hpush : intf.mBitrate.addr = (sessionState s intf env).mBitrate.addr ∨
      env.configSet = VPX_CODEC_OK)
    (henc : env.encode = VPX_CODEC_OK)
    (hf : ∀ k n, env.fetchLinearBlock k n = .C2_OK) (hm : ∀ k, env.mapWrite k = .C2_OK) :
    (∃ pre pts duration flags post,
      (process s intf env work).trace =
        pre ++ [Event.vpx_codec_encode img pts duration flags] ++ post ∧
      blockRequests post = (framePackets env).map (fun p => p.sz) ∧
      packetQueries post = env.packets.length + 1) ∧
    (framePackets env = [] →
      (process s intf env work).work.outputBuffers = work.outputBuffers ∧
      (process s intf env work).work.workletsProcessed = 0) ∧
    (∀ p, (framePackets env).getLast? = some p →
      (process s intf env work).work.outputBuffers = [packetBuffer p] ∧
      (packetBuffer p).payload = p.buf.take p.sz ∧ (packetBuffer p).size = p.sz ∧
      ((packetBuffer p).syncFrame = true ↔ p.flags &&& VPX_FRAME_IS_KEY ≠ 0) ∧
      (process s intf env work).work.outputOrdinal =
        { work.inputOrdinal with timestamp := p.pts } ∧
      (process s intf env work).work.workletsProcessed = 1 ∧
      (process s intf env work).work.result = .C2_OK) := by
  have hpush' : intf.mBitrate.addr = (getEncodeFlags (sessionState s intf env)).2.mBitrate.addr ∨
      env.configSet = VPX_CODEC_OK := by
    rw [getEncodeFlags_mBitrate]; exact hpush
  have hd := dynamicConfig_ok_of (getEncodeFlags (sessionState s intf env)).2 intf env
    (getEncodeFlags (sessionState s intf env)).1 hpush'
  obtain ⟨hw, htr⟩ := encodeFrame_packets (sessionState s intf env) intf env (beginWork work)
    (sessionTrace s intf env ++ ev) img hd henc hf hm
  rw [process_encodes h]
  refine ⟨htr, ?_, ?_⟩
  · intro hnil
    rw [hw, hnil]
    exact ⟨rfl, rfl⟩
  · intro p hp
    have hne : (framePackets env).isEmpty = false := by
      cases hl : framePackets env with
      | nil => rw [hl] at hp; simp at hp
      | cons a t => rfl
    rw [hw, hne, foldl_emit_last _ _ _ p hp]
    refine ⟨rfl, rfl, rfl, ?_, rfl, rfl, rfl⟩
    simp [packetBuffer]

/-- C24 on the constructed component with one key frame packet. -/
theorem C24_last_frame_packet_is_emitted_witness :
    (process construct defaultIntf (sampleEnv [keyPacket 5])
      (sampleWork 0 0 [sampleBuffer])).work.outputBuffers = [packetBuffer (keyPacket 5)] ∧
    (packetBuffer (keyPacket 5)).syncFrame = true ∧
    (process construct defaultIntf (sampleEnv [keyPacket 5])
      (sampleWork 0 0 [sampleBuffer])).work.outputOrdinal.timestamp = 5 :=
  have h := (C24_last_frame_packet_is_emitted construct defaultIntf (sampleEnv [keyPacket 5])
    (sampleWork 0 0 [sampleBuffer]) sampleBuffer sampleImage []
    { noError := rfl
      noEos := rfl
      encoder := Or.inr (by decide)
      buffer := rfl
      mapped := rfl
      wide := by decide
      high := by decide
      widthLimit := by decide
      heightLimit := by decide
      adapted := by rfl }
    (Or.inr rfl) rfl (fun _ _ => rfl) (fun _ => rfl)).2.2 (keyPacket 5) rfl
  ⟨h.1, by decide, by rw [h.2.2.2.2.1]; rfl⟩

theorem scratchUses_append (a b : List Event) :
    scratchUses (a ++ b) = scratchUses a ++ scratchUses b := by
  unfold scratchUses
  rw [List.filter_append]

theorem onRelease_scratch (s : State) : scratchUses (onRelease s).2 = [] := by
  unfold onRelease
  simp only
  split <;> rfl

theorem cbrControls_scratch (s : State) (cfg : vpx_codec_enc_cfg_t) (env : Env) :
    scratchUses (cbrControls s cfg env).2 = [] := by
  unfold cbrControls
  simp only
  split_ifs <;> rfl

theorem cleanUp_scratch (s : State) (tr : List Event) (h : scratchUses tr = []) :
    scratchUses (cleanUp s tr).2.2 = [] := by
  show scratchUses (tr ++ (onRelease s).2) = []
  rw [scratchUses_append, h, onRelease_scratch]
  rfl

theorem allocConversionBuffer_scratch (s : State) (env : Env) (tr : List Event)
    (h : scratchUses tr = []) :
    scratchUses (allocConversionBuffer s env tr).2.2 = [] := by
  have h' : scratchUses (tr ++ [Event.Allocate (bufferSize
      (alignStride s.mSize.value.width s.mStrideAlign)
      (alignStride s.mSize.value.height s.mStrideAlign))]) = [] := by
    rw [scratchUses_append, h]
    rfl
  unfold allocConversionBuffer
  simp only
  split_ifs
  · exact cleanUp_scratch _ _ h
  · exact cleanUp_scratch _ _ h'
  · exact h'

/-- `initEncoder` does not touch the scratch conversion buffer beyond allocating
it: it calls neither image helper. -/
theorem initEncoder_scratch (s : State) (intf : Intf) (env : Env) :
    scratchUses (initEncoder s intf env).2.2 = [] := by
  unfold initEncoder
  simp only
  split
  · exact cleanUp_scratch _ _ rfl
  · split
    · exact cleanUp_scratch _ _ rfl
    · split
      · exact cleanUp_scratch _ _ rfl
      · have h4 : ∀ c : vpx_codec_enc_cfg_t,
            scratchUses ([Event.vpx_codec_enc_config_default] ++ [Event.vpx_codec_enc_init c])
              = [] := fun _ => rfl
        split
        · exact cleanUp_scratch _ _ (h4 _)
        · split
          · refine cleanUp_scratch _ _ ?_
            rw [scratchUses_append, h4, cbrControls_scratch]; rfl
          · split
            · refine cleanUp_scratch _ _ ?_
              rw [scratchUses_append, scratchUses_append, h4, cbrControls_scratch]; rfl
            · refine allocConversionBuffer_scratch _ _ _ ?_
              rw [scratchUses_append, scratchUses_append, h4, cbrControls_scratch]; rfl

theorem sessionTrace_scratch (s : State) (intf : Intf) (env : Env) :
    scratchUses (sessionTrace s intf env) = [] := by
  unfold sessionTrace
  split
  · rfl
  · exact initEncoder_scratch s intf env

theorem dynamicConfig_scratch (s : State) (intf : Intf) (env : Env) (flags : Nat) :
    scratchUses (dynamicConfig s intf env flags).trace = [] := by
  unfold dynamicConfig
  simp only
  split_ifs <;> rfl

theorem drainPackets_scratch (env : Env) (eos : Bool) (ps : List vpx_codec_cx_pkt_t) :
    ∀ acc : DrainAcc,
      scratchUses (drainPackets env eos ps acc).1.trace = scratchUses acc.trace := by
  induction ps with
  | nil =>
    intro acc
    show scratchUses (acc.trace ++ [Event.vpx_codec_get_cx_data]) = _
    rw [scratchUses_append]
    exact List.append_nil _
  | cons p ps ih =>
    intro acc
    have e1 : scratchUses (acc.trace ++ [Event.vpx_codec_get_cx_data]) = scratchUses acc.trace := by
      rw [scratchUses_append]; exact List.append_nil _
    have e2 : scratchUses (acc.trace ++ [Event.vpx_codec_get_cx_data] ++
        [Event.fetchLinearBlock p.sz]) = scratchUses acc.trace := by
      rw [scratchUses_append, e1]; exact List.append_nil _
    unfold drainPackets
    simp only
    split
    · split
      · exact e2
      · split
        · exact e2
        · refine (ih _).trans ?_
          exact e2
    · refine (ih _).trans ?_
      exact e1

/-- The encode path uses the scratch buffer no more than what came before it,
keeps context, size, buffer and alignment, and leaves the cursor where
`getEncodeFlags` put it; it makes at most one encode call, with the image it
was given. -/
theorem encodeFrame_fixed (s : State) (intf : Intf) (env : Env) (w : C2Work)
    (tr : List Event) (img : vpx_image_t) :
    scratchUses (encodeFrame s intf env w tr img).trace = scratchUses tr ∧
    (encodeFrame s intf env w tr img).state.mCodecContext = s.mCodecContext ∧
    (encodeFrame s intf env w tr img).state.mSize = s.mSize ∧
    (encodeFrame s intf env w tr img).state.mConversionBuffer = s.mConversionBuffer ∧
    (encodeFrame s intf env w tr img).state.mStrideAlign = s.mStrideAlign ∧
    (encodeFrame s intf env w tr img).state.mTemporalPatternIdx =
      (getEncodeFlags s).2.mTemporalPatternIdx := by
  obtain ⟨idx, hg⟩ := getEncodeFlags_state s
  obtain ⟨ir, rs, br, c, er, hfr⟩ :=
    dynamicConfig_frame (getEncodeFlags s).2 intf env (getEncodeFlags s).1
  have k1 : (dynamicConfig (getEncodeFlags s).2 intf env (getEncodeFlags s).1).state.mCodecContext
      = s.mCodecContext := by rw [hfr, hg]
  have k2 : (dynamicConfig (getEncodeFlags s).2 intf env (getEncodeFlags s).1).state.mSize
      = s.mSize := by rw [hfr, hg]
  have k3 : (dynamicConfig (getEncodeFlags s).2 intf env
      (getEncodeFlags s).1).state.mConversionBuffer = s.mConversionBuffer := by rw [hfr, hg]
  have k4 : (dynamicConfig (getEncodeFlags s).2 intf env (getEncodeFlags s).1).state.mStrideAlign
      = s.mStrideAlign := by rw [hfr, hg]
  have k5 : (dynamicConfig (getEncodeFlags s).2 intf env
      (getEncodeFlags s).1).state.mTemporalPatternIdx =
      (getEncodeFlags s).2.mTemporalPatternIdx := by rw [hfr]
  by_cases hd : (dynamicConfig (getEncodeFlags s).2 intf env (getEncodeFlags s).1).ok = true
  · obtain ⟨n, e, hs⟩ := drainPackets_state env
      (decide (w.inputFlags &&& FLAG_END_OF_STREAM ≠ 0)) env.packets
      { state := { (dynamicConfig (getEncodeFlags s).2 intf env (getEncodeFlags s).1).state with
          mLastTimestamp := w.inputOrdinal.timestamp % U64 }
        work := w
        trace := tr ++ (dynamicConfig (getEncodeFlags s).2 intf env (getEncodeFlags s).1).trace ++
          [Event.vpx_codec_encode img (w.inputOrdinal.timestamp % U64)
            (frameDuration (dynamicConfig (getEncodeFlags s).2 intf env (getEncodeFlags s).1).state
              (w.inputOrdinal.timestamp % U64))
            (dynamicConfig (getEncodeFlags s).2 intf env (getEncodeFlags s).1).flags]
        populated := false
        frames := 0 }
    have ht := drainPackets_scratch env
      (decide (w.inputFlags &&& FLAG_END_OF_STREAM ≠ 0)) env.packets
      { state := { (dynamicConfig (getEncodeFlags s).2 intf env (getEncodeFlags s).1).state with
          mLastTimestamp := w.inputOrdinal.timestamp % U64 }
        work := w
        trace := tr ++ (dynamicConfig (getEncodeFlags s).2 intf env (getEncodeFlags s).1).trace ++
          [Event.vpx_codec_encode img (w.inputOrdinal.timestamp % U64)
            (frameDuration (dynamicConfig (getEncodeFlags s).2 intf env (getEncodeFlags s).1).state
              (w.inputOrdinal.timestamp % U64))
            (dynamicConfig (getEncodeFlags s).2 intf env (getEncodeFlags s).1).flags]
        populated := false
        frames := 0 }
    have hpre : scratchUses (tr ++
        (dynamicConfig (getEncodeFlags s).2 intf env (getEncodeFlags s).1).trace ++
        [Event.vpx_codec_encode img (w.inputOrdinal.timestamp % U64)
          (frameDuration (dynamicConfig (getEncodeFlags s).2 intf env (getEncodeFlags s).1).state
            (w.inputOrdinal.timestamp % U64))
          (dynamicConfig (getEncodeFlags s).2 intf env (getEncodeFlags s).1).flags]) =
        scratchUses tr := by
      rw [scratchUses_append, scratchUses_append, dynamicConfig_scratch]
      simp only [List.append_nil]
      exact List.append_nil _
    unfold encodeFrame
    simp only [hd, Bool.not_true, Bool.false_eq_true, if_false]
    by_cases henc : env.encode = VPX_CODEC_OK
    · rw [if_neg (fun hne => hne henc)]
      refine ⟨?_, ?_, ?_, ?_, ?_, ?_⟩
      · split_ifs <;> exact ht.trans hpre
      · split_ifs <;> rw [hs] <;> exact k1
      · split_ifs <;> rw [hs] <;> exact k2
      · split_ifs <;> rw [hs] <;> exact k3
      · split_ifs <;> rw [hs] <;> exact k4
      · split_ifs <;> rw [hs] <;> exact k5
    · rw [if_pos henc]
      exact ⟨hpre, k1, k2, k3, k4, k5⟩
  · have hd' : (dynamicConfig (getEncodeFlags s).2 intf env (getEncodeFlags s).1).ok = false := by
      simpa using hd
    rw [encodeFrame_push_failed s intf env w tr img hd']
    refine ⟨?_, ?_, ?_, ?_, ?_, ?_⟩
    · show scratchUses (tr ++ _) = _
      rw [scratchUses_append, dynamicConfig_scratch]
      exact List.append_nil _
    · exact k1
    · exact k2
    · exact k3
    · exact k4
    · exact k5


/-- Whatever its outcome, `initEncoder` leaves the pattern cursor as it was. -/
theorem initEncoder_cursor (s : State) (intf : Intf) (env : Env) :
    (initEncoder s intf env).2.1.mTemporalPatternIdx = s.mTemporalPatternIdx := by
  have hP : (initPrepared s intf env).mTemporalPatternIdx = s.mTemporalPatternIdx := by
    simp only [initPrepared, selectRateControl, loadParams]
    split <;> rfl
  have h1 : (selectRateControl (loadParams s intf)).mTemporalPatternIdx =
      s.mTemporalPatternIdx := by
    simp only [selectRateControl, loadParams]
    split <;> rfl
  unfold initEncoder
  simp only
  split
  · rw [cleanUp_state]; exact h1
  · split
    · rw [cleanUp_state]; exact h1
    · split
      · rw [cleanUp_state]; exact h1
      · rename_i s3 cfg3 heq
        have heq' : temporalConfig (initPrepared s intf env)
            (baseConfig (initPrepared s intf env) env.defaultConfig) = some (s3, cfg3) := by
          simpa [initPrepared] using heq
        obtain ⟨⟨pat, ratio, len, hs3⟩, -⟩ := temporalConfig_some heq'
        have h3 : s3.mTemporalPatternIdx = s.mTemporalPatternIdx := by
          rw [hs3]; exact hP
        split
        · rw [cleanUp_state]; exact h3
        · split
          · rw [cleanUp_state]; exact h3
          · split
            · rw [cleanUp_state]; exact h3
            · unfold allocConversionBuffer
              simp only
              split_ifs
              · rw [cleanUp_state]; exact h3
              · rw [cleanUp_state]; exact h3
              · exact h3

/-- Either `processFrame` gets as far as the encode path, with its guards
passed, or it leaves the cursor alone and adds no encode call. -/
theorem processFrame_dichotomy (s : State) (intf : Intf) (env : Env) (w : C2Work)
    (tr : List Event) :
    (∃ v img ev, w.inputBuffers.head? = some v ∧ v.mapError = .C2_OK ∧
      s.mSize.value.width ≤ v.width ∧ s.mSize.value.height ≤ v.height ∧
      s.mSize.value.width ≤ 0x8000 ∧ s.mSize.value.height ≤ 0x8000 ∧
      adaptFrame s env v = (some img, ev)) ∨
    ((processFrame s intf env w tr).state.mTemporalPatternIdx = s.mTemporalPatternIdx ∧
      encodeCalls (processFrame s intf env w tr).trace = encodeCalls tr) := by
  unfold processFrame
  split
  · exact Or.inr ⟨rfl, rfl⟩
  · rename_i v rest hcons
    by_cases h1 : v.mapError = .C2_OK
    · rw [if_neg (fun hne => hne h1)]
      by_cases h2 : v.width < s.mSize.value.width ∨ v.height < s.mSize.value.height
      · rw [if_pos h2]
        exact Or.inr ⟨rfl, rfl⟩
      · rw [if_neg h2]
        by_cases h3 : s.mSize.value.width > 0x8000 ∨ s.mSize.value.height > 0x8000
        · rw [if_pos h3]
          exact Or.inr ⟨rfl, rfl⟩
        · rw [if_neg h3]
          have hq := adaptFrame_trace s env v
          split
          · rename_i ev hnone
            rw [hnone] at hq
            refine Or.inr ⟨rfl, ?_⟩
            show encodeCalls (tr ++ ev) = _
            rw [encodeCalls_append, hq.1, List.append_nil]
          · rename_i img ev hsome
            refine Or.inl ⟨v, img, ev, ?_, h1, ?_, ?_, ?_, ?_, hsome⟩
            · rw [hcons]; rfl
            · omega
            · omega
            · omega
            · omega
    · rw [if_pos h1]
      exact Or.inr ⟨rfl, rfl⟩

/-- Either a `process` call satisfies `Encodes`, or it leaves the cursor alone
and makes no encode call. -/
theorem process_cursor_cases (s : State) (intf : Intf) (env : Env) (work : C2Work) :
    (∃ v img ev, Encodes s intf env work v img ev) ∨
    ((process s intf env work).state.mTemporalPatternIdx = s.mTemporalPatternIdx ∧
      encodeCalls (process s intf env work).trace = []) := by
  by_cases hl : s.mSignalledError = true ∨ s.mSignalledOutputEos = true
  · rw [process_latched s intf env work hl]
    exact Or.inr ⟨rfl, rfl⟩
  · have he : s.mSignalledError = false := by
      cases h : s.mSignalledError
      · rfl
      · exact absurd (Or.inl h) hl
    have hs : s.mSignalledOutputEos = false := by
      cases h : s.mSignalledOutputEos
      · rfl
      · exact absurd (Or.inr h) hl
    by_cases hi : s.mCodecContext = true ∨ (initEncoder s intf env).1 = .OK
    · rw [process_session s intf env work he hs hi]
      rcases processFrame_dichotomy (sessionState s intf env) intf env (beginWork work)
        (sessionTrace s intf env) with ⟨v, img, ev, g1, g2, g3, g4, g5, g6, g7⟩ | ⟨k1, k2⟩
      · exact Or.inl ⟨v, img, ev, ⟨he, hs, hi, g1, g2, g3, g4, g5, g6, g7⟩⟩
      · refine Or.inr ⟨k1.trans ?_, k2.trans (sessionTrace_quiet s intf env).1⟩
        unfold sessionState
        split
        · rfl
        · exact initEncoder_cursor s intf env
    · have hc : s.mCodecContext = false := by
        cases h : s.mCodecContext
        · rfl
        · exact absurd (Or.inl h) hi
      have hf : (initEncoder s intf env).1 ≠ .OK := fun h => hi (Or.inr h)
      rw [process_init_failed s intf env work he hs hc hf]
      exact Or.inr ⟨initEncoder_cursor s intf env, (initEncoder_trace s intf env).1⟩

/-- The session state carries the cursor of the state before. -/
theorem sessionState_cursor (s : State) (intf : Intf) (env : Env) :
    (sessionState s intf env).mTemporalPatternIdx = s.mTemporalPatternIdx := by
  unfold sessionState
  split
  · rfl
  · exact initEncoder_cursor s intf env

/-- A call that satisfies `Encodes` makes at most one encode call, and that one
with the adapted image. -/
theorem process_encodes_image {s : State} {intf : Intf} {env : Env} {work : C2Work}
    {v : InputBuffer} {img : vpx_image_t} {ev : List Event}
    (h : Encodes s intf env work v img ev) :
    (encodeCalls (process s intf env work).trace).length ≤ 1 ∧
    ∀ c ∈ encodeCalls (process s intf env work).trace, c.1 = img := by
  by_cases hd : (dynamicConfig (getEncodeFlags (sessionState s intf env)).2 intf env
      (getEncodeFlags (sessionState s intf env)).1).ok = true
  · rw [process_encodes_once h hd]
    refine ⟨Nat.le_refl _, ?_⟩
    intro c hc
    rw [List.mem_singleton] at hc
    rw [hc]
  · have hd' : (dynamicConfig (getEncodeFlags (sessionState s intf env)).2 intf env
        (getEncodeFlags (sessionState s intf env)).1).ok = false := by
      simpa using hd
    have hev : encodeCalls ev = [] := by
      have := (adaptFrame_trace (sessionState s intf env) env v).1
      rw [h.adapted] at this
      exact this
    have hnil : encodeCalls (process s intf env work).trace = [] := by
      rw [process_encodes h, encodeFrame_push_failed _ intf env _ _ img hd']
      show encodeCalls (sessionTrace s intf env ++ ev ++ _) = []
      rw [encodeCalls_append, encodeCalls_append, (sessionTrace_quiet s intf env).1, hev,
        dynamicConfig_no_encode]
      rfl
    rw [hnil]
    exact ⟨Nat.zero_le _, fun c hc => absurd hc (List.not_mem_nil c)⟩

/-- Format adaptation wraps a YUV 4:2:0 view whose three planes have column
increment 1 in place: the image is the wrap of the luma pointer at the
configured size with the chroma pointers and the three row increments of the
view written over it, and no helper is called. -/
theorem adaptFrame_unit_stride (s : State) (env : Env) (v : InputBuffer)
    (hyuv : v.layoutType = .TYPE_YUV) (h420 : v.isYUV420 = true)
    (hY : v.planeY.colInc = 1) (hU : v.planeU.colInc = 1) (hV : v.planeV.colInc = 1) :
    adaptFrame s env v =
      (some
        { vpx_img_wrap s.mSize.value.width s.mSize.value.height s.mStrideAlign v.data0 with
          plane1 := v.data1
          plane2 := v.data2
          stride0 := v.planeY.rowInc
          stride1 := v.planeU.rowInc
          stride2 := v.planeV.rowInc }, []) := by
  unfold adaptFrame
  simp only [hyuv, h420, Bool.not_true, Bool.false_eq_true, if_false, hY, hU, hV, and_self,
    if_true]

/-- C25: let a `process` call get as far as format adaptation (no latch set, the
encoder exists or `initEncoder` succeeds, the first input buffer `v` maps
without error and is at least as large as the configured size, which is within
`0x8000`), and let `v` be a YUV 4:2:0 view whose three planes have column
increment 1. Then format adaptation yields an engine image without calling a
helper, `process` is the encode path run on that image, the image has the
configured size as displayed size, its three plane pointers are the three
plane pointers of the view and its three strides are the row increments of the
planes; the whole call neither converts into nor copies into the scratch
conversion buffer and leaves the buffer object as it is; and when the bitrate
push, if any, succeeds, the call makes exactly one encode call, with that
image. -/
theorem C25_unit_stride_yuv_is_zero_copy (s : State) (intf : Intf) (env : Env) (work : C2Work)
    (v : InputBuffer)
    (he : s.mSignalledError = false) (hs : s.mSignalledOutputEos = false)
    (hi : s.mCodecContext = true ∨ (initEncoder s intf env).1 = .OK)
    (hb : work.inputBuffers.head? = some v) (hmap : v.mapError = .C2_OK)
    (hw : (sessionState s intf env).mSize.value.width ≤ v.width)
    (hh : (sessionState s intf env).mSize.value.height ≤ v.height)
    (hwl : (sessionState s intf env).mSize.value.width ≤ 0x8000)
    (hhl : (sessionState s intf env).mSize.value.height ≤ 0x8000)
    (hyuv : v.layoutType = .TYPE_YUV) (h420 : v.isYUV420 = true)
    (hY : v.planeY.colInc = 1) (hU : v.planeU.colInc = 1) (hV : v.planeV.colInc = 1) :
    ∃ img : vpx_image_t,
      adaptFrame (sessionState s intf env) env v = (some img, []) ∧
      process s intf env work =
        encodeFrame (sessionState s intf env) intf env (beginWork work)
          (sessionTrace s intf env) img ∧
      img.d_w = (sessionState s intf env).mSize.value.width ∧
      img.d_h = (sessionState s intf env).mSize.value.height ∧
      img.plane0 = v.data0 ∧ img.plane1 = v.data1 ∧ img.plane2 = v.data2 ∧
      img.stride0 = v.planeY.rowInc ∧ img.stride1 = v.planeU.rowInc ∧
      img.stride2 = v.planeV.rowInc ∧
      scratchUses (process s intf env work).trace = [] ∧
      (process s intf env work).state.mConversionBuffer =
        (sessionState s intf env).mConversionBuffer ∧
      ((intf.mBitrate.addr = (sessionState s intf env).mBitrate.addr ∨
          env.configSet = VPX_CODEC_OK) →
        ∃ duration flags,
          encodeCalls (process s intf env work).trace =
            [(img, work.inputOrdinal.timestamp % U64, duration, flags)]) := by
  have ha := adaptFrame_unit_stride (sessionState s intf env) env v hyuv h420 hY hU hV
  have henc : Encodes s intf env work v
      { vpx_img_wrap (sessionState s intf env).mSize.value.width
          (sessionState s intf env).mSize.value.height (sessionState s intf env).mStrideAlign
          v.data0 with
        plane1 := v.data1
        plane2 := v.data2
        stride0 := v.planeY.rowInc
        stride1 := v.planeU.rowInc
        stride2 := v.planeV.rowInc } [] :=
    ⟨he, hs, hi, hb, hmap, hw, hh, hwl, hhl, ha⟩
  have hproc := process_encodes henc
  rw [List.append_nil] at hproc
  have hfix := encodeFrame_fixed (sessionState s intf env) intf env (beginWork work)
    (sessionTrace s intf env)
    { vpx_img_wrap (sessionState s intf env).mSize.value.width
        (sessionState s intf env).mSize.value.height (sessionState s intf env).mStrideAlign
        v.data0 with
      plane1 := v.data1
      plane2 := v.data2
      stride0 := v.planeY.rowInc
      stride1 := v.planeU.rowInc
      stride2 := v.planeV.rowInc }
  rw [← hproc] at hfix
  refine ⟨_, ha, hproc, rfl, rfl, rfl, rfl, rfl, rfl, rfl, rfl, ?_, hfix.2.2.2.1, ?_⟩
  · rw [hfix.1, sessionTrace_scratch]
  · intro hpush
    have hpush' : intf.mBitrate.addr =
        (getEncodeFlags (sessionState s intf env)).2.mBitrate.addr ∨
        env.configSet = VPX_CODEC_OK := by
      rw [getEncodeFlags_mBitrate]; exact hpush
    have hd := dynamicConfig_ok_of (getEncodeFlags (sessionState s intf env)).2 intf env
      (getEncodeFlags (sessionState s intf env)).1 hpush'
    exact ⟨_, _, process_encodes_once henc hd⟩

/-- Witness for C25: the sample frame on a freshly constructed component is
wrapped as `sampleImage`, whose planes are those of the buffer, and encoded
once. -/
theorem C25_unit_stride_yuv_is_zero_copy_witness :
    adaptFrame (sessionState construct defaultIntf (sampleEnv [])) (sampleEnv []) sampleBuffer =
      (some sampleImage, []) ∧
    sampleImage.plane0 = sampleBuffer.data0 ∧ sampleImage.plane1 = sampleBuffer.data1 ∧
    sampleImage.plane2 = sampleBuffer.data2 ∧
    scratchUses (process construct defaultIntf (sampleEnv [])
      (sampleWork 0 0 [sampleBuffer])).trace = [] ∧
    ∃ duration flags,
      encodeCalls (process construct defaultIntf (sampleEnv [])
        (sampleWork 0 0 [sampleBuffer])).trace = [(sampleImage, 0, duration, flags)] := by
  obtain ⟨img, h1, -, -, -, -, -, -, -, -, -, h11, -, h13⟩ :=
    C25_unit_stride_yuv_is_zero_copy construct defaultIntf (sampleEnv [])
      (sampleWork 0 0 [sampleBuffer]) sampleBuffer rfl rfl (Or.inr (by decide)) rfl rfl
      (by decide) (by decide) (by decide) (by decide) rfl rfl rfl rfl rfl
  have himg : img = sampleImage := by
    have h2 : adaptFrame (sessionState construct defaultIntf (sampleEnv [])) (sampleEnv [])
        sampleBuffer = (some sampleImage, []) := by rfl
    rw [h2] at h1
    simp only [Prod.mk.injEq, Option.some.injEq, and_true] at h1
    exact h1.symm
  subst himg
  exact ⟨h1, rfl, rfl, rfl, h11, h13 (Or.inr rfl)⟩

/-- C26: a `process` call that passes format adaptation calls `getEncodeFlags`
exactly once: the cursor it leaves is the one left by a single
`getEncodeFlags` on the session state, which with a non-empty pattern is the
cursor before plus one (as a 64-bit counter), whether or not the live bitrate
update or the engine encode call fails afterwards, and it makes at most one
encode call. A call that does not get that far (a latch set, `initEncoder`
failing, no input buffer, an unmapped view, bad dimensions or format) leaves
the cursor where it was and makes no encode call. -/
theorem C26_cursor_advances_once_per_attempt (s : State) (intf : Intf) (env : Env)
    (work : C2Work) :
    (∀ v img ev, Encodes s intf env work v img ev →
      (process s intf env work).state.mTemporalPatternIdx =
        (getEncodeFlags (sessionState s intf env)).2.mTemporalPatternIdx ∧
      (0 < (sessionState s intf env).mTemporalPatternLength →
        (process s intf env work).state.mTemporalPatternIdx =
          (s.mTemporalPatternIdx + 1) % U64) ∧
      (encodeCalls (process s intf env work).trace).length ≤ 1) ∧
    ((¬ ∃ v img ev, Encodes s intf env work v img ev) →
      (process s intf env work).state.mTemporalPatternIdx = s.mTemporalPatternIdx ∧
      encodeCalls (process s intf env work).trace = []) := by
  constructor
  · intro v img ev h
    have hfix := encodeFrame_fixed (sessionState s intf env) intf env (beginWork work)
      (sessionTrace s intf env ++ ev) img
    rw [← process_encodes h] at hfix
    refine ⟨hfix.2.2.2.2.2, ?_, (process_encodes_image h).1⟩
    intro hlen
    rw [hfix.2.2.2.2.2]
    unfold getEncodeFlags
    rw [if_pos hlen, sessionState_cursor]
  · intro hno
    rcases process_cursor_cases s intf env work with hyes | hkeep
    · exact absurd hyes hno
    · exact hkeep

/-- Witness for C26: a first frame on a two-layer session whose encode call
fails; the cursor has moved from 0 to 1 and the error latch is set. -/
theorem C26_cursor_advances_once_per_attempt_witness :
    (process construct (layeredIntf 2 [3 / 5]) encodeFailEnv
      (sampleWork 0 0 [sampleBuffer])).state.mTemporalPatternIdx = 1 ∧
    (process construct (layeredIntf 2 [3 / 5]) encodeFailEnv
      (sampleWork 0 0 [sampleBuffer])).state.mSignalledError = true ∧
    construct.mTemporalPatternIdx = 0 :=
  have h := ((C26_cursor_advances_once_per_attempt construct (layeredIntf 2 [3 / 5])
    encodeFailEnv (sampleWork 0 0 [sampleBuffer])).1 sampleBuffer sampleImage []
    { noError := rfl
      noEos := rfl
      encoder := Or.inr (by decide!)
      buffer := rfl
      mapped := rfl
      wide := by decide!
      high := by decide!
      widthLimit := by decide!
      heightLimit := by decide!
      adapted := by rfl }).2.1 (by decide!)
  ⟨h.trans (by decide), by decide!, rfl⟩

/-- The flags `getEncodeFlags` returns after a successful `initEncoder` with
the cursor at position `i` are those of `flagsAt`. -/
theorem getEncodeFlags_at {s : State} {intf : Intf} {env : Env}
    (h : (initEncoder s intf env).1 = .OK)
    (hL : intf.mLayering.value.layerCount = 2 ∨ intf.mLayering.value.layerCount = 3) (i : Nat) :
    (getEncodeFlags { (initEncoder s intf env).2.1 with mTemporalPatternIdx := i }).1 =
      flagsAt intf.mLayering.value.layerCount (i % 8) := by
  obtain ⟨-, hlen, hpat, -⟩ := initEncoder_pattern h
  have h8 : (patternTable intf.mLayering.value.layerCount).length = 8 := by
    rcases hL with hL | hL <;> rw [hL] <;> rfl
  rw [h8] at hlen hpat
  unfold getEncodeFlags
  simp only [hlen]
  rw [if_pos (by norm_num)]
  simp only
  rw [hpat _ (Nat.mod_lt _ (by norm_num))]
  unfold flagsAt
  rw [h8, Nat.mod_mod]

/-- The layer structure `initEncoder` writes into the record for 2 and 3
layers: the period and the layer of each position within it. -/
theorem initEncoder_layer_ids {s : State} {intf : Intf} {env : Env}
    (h : (initEncoder s intf env).1 = .OK) :
    ∃ cfg, (initEncoder s intf env).2.1.mCodecConfiguration = some cfg ∧
      (intf.mLayering.value.layerCount = 2 →
        cfg.ts_periodicity = 2 ∧ cfg.ts_layer_id 0 = 0 ∧ cfg.ts_layer_id 1 = 1) ∧
      (intf.mLayering.value.layerCount = 3 →
        cfg.ts_periodicity = 4 ∧ cfg.ts_layer_id 0 = 0 ∧ cfg.ts_layer_id 1 = 2 ∧
        cfg.ts_layer_id 2 = 1 ∧ cfg.ts_layer_id 3 = 2) := by
  obtain ⟨s3, cfg3, ht, hs⟩ := initEncoder_ok h
  obtain ⟨f, q1, q2, hfin⟩ := finishConfig_frame s3 intf env cfg3
  refine ⟨finishConfig s3 intf env cfg3, by rw [hs], ?_, ?_⟩
  · intro hL
    rw [hfin]
    unfold temporalConfig at ht
    rw [(initPrepared_layering s intf env).2.1, hL] at ht
    simp only [Option.some.injEq, Prod.mk.injEq] at ht
    obtain ⟨-, rfl⟩ := ht
    exact ⟨rfl, rfl, rfl⟩
  · intro hL
    rw [hfin]
    unfold temporalConfig at ht
    rw [(initPrepared_layering s intf env).2.1, hL] at ht
    simp only [Option.some.injEq, Prod.mk.injEq] at ht
    obtain ⟨-, rfl⟩ := ht
    exact ⟨rfl, rfl, rfl, rfl, rfl⟩

/-- In the 2-layer table, an entry at an odd position updates no buffer that an
entry at an even position may reference. -/
theorem two_layer_disjoint (a b : Nat) (ha : a < 8) (hb : b < 8) (hab : b % 2 < a % 2)
    (buf : RefBuffer) :
    ¬ (mayUpdate (flagsAt 2 a) buf = true ∧ mayReference (flagsAt 2 b) buf = true) := by
  interval_cases a <;> interval_cases b <;> first
    | (exfalso; revert hab; decide)
    | (cases buf <;> decide)

/-- In the 3-layer table, an entry of a higher layer updates no buffer that an
entry of a lower layer may reference. -/
theorem three_layer_disjoint (a b : Nat) (ha : a < 8) (hb : b < 8)
    (hab : ([0, 2, 1, 2] : List Nat).getD (b % 4) 0 < ([0, 2, 1, 2] : List Nat).getD (a % 4) 0)
    (buf : RefBuffer) :
    ¬ (mayUpdate (flagsAt 3 a) buf = true ∧ mayReference (flagsAt 3 b) buf = true) := by
  interval_cases a <;> interval_cases b <;> first
    | (exfalso; revert hab; decide)
    | (cases buf <;> decide)

theorem two_layer_flags (a : Nat) (ha : a < 8) :
    (a % 2 = 0 → flagsAt 2 a &&& VP8_EFLAG_NO_REF_GF ≠ 0) ∧
    (a % 2 ≠ 0 → flagsAt 2 a &&& VP8_EFLAG_NO_UPD_LAST ≠ 0) ∧
    mayUpdate (flagsAt 2 a) .altref = false := by
  interval_cases a <;> decide

theorem three_layer_flags (a : Nat) (ha : a < 8) :
    (([0, 2, 1, 2] : List Nat).getD (a % 4) 0 = 0 → flagsAt 3 a &&& VP8_EFLAG_NO_REF_GF ≠ 0) ∧
    (([0, 2, 1, 2] : List Nat).getD (a % 4) 0 ≠ 0 →
      flagsAt 3 a &&& VP8_EFLAG_NO_UPD_LAST ≠ 0) ∧
    mayUpdate (flagsAt 3 a) .altref = false := by
  interval_cases a <;> decide

/-- C27: after a successful `initEncoder` with 2 or 3 temporal layers, take the
flags that `getEncodeFlags` returns with the cursor at position `i` and the
layer `ts_layer_id[i mod ts_periodicity]` of the record. Whenever position `i`
is in a higher layer than position `j`, no reference buffer (last, golden,
altref) is both allowed to be updated by the flags of `i` and allowed to be
referenced by the flags of `j`. Positions of layer 0 carry `NO_REF_GF`, the
others carry `NO_UPD_LAST`, and no position may update altref. -/
theorem C27_higher_layers_leave_lower_references (s : State) (intf : Intf) (env : Env)
    (hok : (initEncoder s intf env).1 = .OK)
    (hL : intf.mLayering.value.layerCount = 2 ∨ intf.mLayering.value.layerCount = 3) :
    ∃ cfg, (initEncoder s intf env).2.1.mCodecConfiguration = some cfg ∧
      ∀ i j : Nat,
        (cfg.ts_layer_id (j % cfg.ts_periodicity) < cfg.ts_layer_id (i % cfg.ts_periodicity) →
          ∀ buf : RefBuffer,
            ¬ (mayUpdate (getEncodeFlags
                  { (initEncoder s intf env).2.1 with mTemporalPatternIdx := i }).1 buf = true ∧
                mayReference (getEncodeFlags
                  { (initEncoder s intf env).2.1 with mTemporalPatternIdx := j }).1 buf = true)) ∧
        (cfg.ts_layer_id (i % cfg.ts_periodicity) = 0 →
          (getEncodeFlags { (initEncoder s intf env).2.1 with mTemporalPatternIdx := i }).1 &&&
            VP8_EFLAG_NO_REF_GF ≠ 0) ∧
        (cfg.ts_layer_id (i % cfg.ts_periodicity) ≠ 0 →
          (getEncodeFlags { (initEncoder s intf env).2.1 with mTemporalPatternIdx := i }).1 &&&
            VP8_EFLAG_NO_UPD_LAST ≠ 0) ∧
        mayUpdate (getEncodeFlags
          { (initEncoder s intf env).2.1 with mTemporalPatternIdx := i }).1 .altref = false := by
  obtain ⟨cfg, hcfg, h2, h3⟩ := initEncoder_layer_ids hok
  refine ⟨cfg, hcfg, ?_⟩
  intro i j
  rw [getEncodeFlags_at hok hL i, getEncodeFlags_at hok hL j]
  have hi8 : i % 8 < 8 := Nat.mod_lt _ (by norm_num)
  have hj8 : j % 8 < 8 := Nat.mod_lt _ (by norm_num)
  rcases hL with hL | hL
  · obtain ⟨hp, e0, e1⟩ := h2 hL
    have hid : ∀ k : Nat, cfg.ts_layer_id (k % cfg.ts_periodicity) = (k % 8) % 2 := by
      intro k
      rw [hp, Nat.mod_mod_of_dvd k (by norm_num : 2 ∣ 8)]
      rcases Nat.mod_two_eq_zero_or_one k with hk | hk <;> rw [hk]
      · exact e0
      · exact e1
    rw [hid i, hid j, hL]
    obtain ⟨f1, f2, f3⟩ := two_layer_flags (i % 8) hi8
    exact ⟨fun hlt buf => two_layer_disjoint (i % 8) (j % 8) hi8 hj8 hlt buf, f1, f2, f3⟩
  · obtain ⟨hp, e0, e1, e2, e3⟩ := h3 hL
    have hid : ∀ k : Nat, cfg.ts_layer_id (k % cfg.ts_periodicity) =
        ([0, 2, 1, 2] : List Nat).getD ((k % 8) % 4) 0 := by
      intro k
      rw [hp, Nat.mod_mod_of_dvd k (by norm_num : 4 ∣ 8)]
      have hk : k % 4 < 4 := Nat.mod_lt _ (by norm_num)
      interval_cases (k % 4)
      · exact e0
      · exact e1
      · exact e2
      · exact e3
    rw [hid i, hid j, hL]
    obtain ⟨f1, f2, f3⟩ := three_layer_flags (i % 8) hi8
    exact ⟨fun hlt buf => three_layer_disjoint (i % 8) (j % 8) hi8 hj8 hlt buf, f1, f2, f3⟩

/-- Witness for C27: three layers with the sample collaborators. -/
theorem C27_higher_layers_leave_lower_references_witness :
    (initEncoder construct (layeredIntf 3 [1 / 4, 1 / 2]) (sampleEnv [])).1 = .OK ∧
    ∃ cfg, (initEncoder construct (layeredIntf 3 [1 / 4, 1 / 2])
        (sampleEnv [])).2.1.mCodecConfiguration = some cfg ∧
      (cfg.ts_layer_id (0 % cfg.ts_periodicity) < cfg.ts_layer_id (2 % cfg.ts_periodicity) →
        ∀ buf : RefBuffer,
          ¬ (mayUpdate (getEncodeFlags
                { (initEncoder construct (layeredIntf 3 [1 / 4, 1 / 2]) (sampleEnv [])).2.1 with
                  mTemporalPatternIdx := 2 }).1 buf = true ∧
              mayReference (getEncodeFlags
                { (initEncoder construct (layeredIntf 3 [1 / 4, 1 / 2]) (sampleEnv [])).2.1 with
                  mTemporalPatternIdx := 0 }).1 buf = true)) :=
  have h := C27_higher_layers_leave_lower_references construct (layeredIntf 3 [1 / 4, 1 / 2])
    (sampleEnv []) (by decide!) (Or.inr rfl)
  ⟨by decide!, h.elim fun cfg hc => ⟨cfg, hc.1, (hc.2 2 0).1⟩⟩

/-- C28: the code at the failing input. A two-layer session (ratio 3/5 for
layer 0, 1 for layer 1) is initialised at 64000 bit/s: the record has
`rc_target_bitrate = 64` and layer targets 38 and 64. The client then sets the
bitrate to 128000 and the next frame is processed without error: the record
has `rc_target_bitrate = 128`, but the layer targets are still 38 and 64,
whereas `128 * 3/5` truncates to 76 and `128 * 1` is 128, the values that
`initEncoder` computes from the same parameters. -/
theorem C28_dynamic_bitrate_leaves_layer_targets_stale :
    afterFirstLayeredFrame.work.result = .C2_OK ∧
    afterFirstLayeredFrame.state.mCodecConfiguration.map
      (fun c => (c.rc_target_bitrate, c.ts_number_layers, c.ts_target_bitrate 0,
        c.ts_target_bitrate 1)) = some (64, 2, 38, 64) ∧
    (process afterFirstLayeredFrame.state layeredBitrateChangedIntf
      (sampleEnv [samplePacket 33333]) (sampleWork 0 33333 [sampleBuffer])).work.result = .C2_OK ∧
    (process afterFirstLayeredFrame.state layeredBitrateChangedIntf
      (sampleEnv [samplePacket 33333]) (sampleWork 0 33333 [sampleBuffer])).state.mCodecContext
      = true ∧
    (process afterFirstLayeredFrame.state layeredBitrateChangedIntf
      (sampleEnv [samplePacket 33333])
      (sampleWork 0 33333 [sampleBuffer])).state.mCodecConfiguration.map
      (fun c => (c.rc_target_bitrate, c.ts_number_layers, c.ts_target_bitrate 0,
        c.ts_target_bitrate 1)) = some (128, 2, 38, 64) ∧
    (process afterFirstLayeredFrame.state layeredBitrateChangedIntf
      (sampleEnv [samplePacket 33333])
      (sampleWork 0 33333 [sampleBuffer])).state.mTemporalLayerBitrateRatio 0 = 3 / 5 ∧
    (process afterFirstLayeredFrame.state layeredBitrateChangedIntf
      (sampleEnv [samplePacket 33333])
      (sampleWork 0 33333 [sampleBuffer])).state.mTemporalLayerBitrateRatio 1 = 1 ∧
    (((128 : Nat) : ℚ) * (3 / 5)).floor.toNat = 76 ∧
    (initEncoder construct layeredBitrateChangedIntf (sampleEnv [])).2.1.mCodecConfiguration.map
      (fun c => (c.rc_target_bitrate, c.ts_number_layers, c.ts_target_bitrate 0,
        c.ts_target_bitrate 1)) = some (128, 2, 76, 128) := by
  decide!

/-- Masking a 32-bit value with `~1` clears its lowest bit. -/
theorem land_even_mask (y : Nat) (hy : y < 2 ^ 32) : y &&& 4294967294 = y / 2 * 2 := by
  apply Nat.eq_of_testBit_eq
  intro i
  rw [Nat.testBit_land]
  have hc : (4294967294 : Nat) = (2 ^ 31 - 1) <<< 1 := by decide
  have hr : y / 2 * 2 = (y >>> 1) <<< 1 := by
    rw [Nat.shiftLeft_eq, Nat.shiftRight_eq_div_pow]
  rw [hc, hr, Nat.testBit_shiftLeft, Nat.testBit_shiftLeft, Nat.testBit_shiftRight,
    Nat.testBit_two_pow_sub_one]
  by_cases h1 : 1 ≤ i
  · have e : 1 + (i - 1) = i := by omega
    rw [e]
    by_cases h2 : i - 1 < 31
    · simp [h1, h2]
    · have hlt : y < 2 ^ i := lt_of_lt_of_le hy (Nat.pow_le_pow_right (by norm_num) (by omega))
      rw [Nat.testBit_lt_two_pow hlt]
      simp
  · simp [h1]

/-- With alignment 2, `alignStride` is the 32-bit sum `x + 1` with its lowest
bit cleared. -/
theorem alignStride_two (x : Nat) : alignStride x 2 = ((x + 1) % U32) / 2 * 2 := by
  have hm : ((U32 - 1) ^^^ ((2 - 1) % U32)) = 4294967294 := by decide
  unfold alignStride
  rw [hm]
  exact land_even_mask _ (Nat.mod_lt _ (by decide))

/-- Twice the product of the two halves stays within the guard. -/
theorem halves_product_bound (w h : Nat) (hg : w * h ≤ 715827882) :
    2 * (((w + 1) / 2) * ((h + 1) / 2)) ≤ 715827882 := by
  rcases Nat.eq_zero_or_pos ((w + 1) / 2) with ha | ha
  · rw [ha]; simp
  rcases Nat.eq_zero_or_pos ((h + 1) / 2) with hb | hb
  · rw [hb]; simp
  obtain ⟨a, ha'⟩ : ∃ a, (w + 1) / 2 = a + 1 := ⟨(w + 1) / 2 - 1, by omega⟩
  obtain ⟨b, hb'⟩ : ∃ b, (h + 1) / 2 = b + 1 := ⟨(h + 1) / 2 - 1, by omega⟩
  have hw : 2 * a + 1 ≤ w := by omega
  have hh : 2 * b + 1 ≤ h := by omega
  have hmul : (2 * a + 1) * (2 * b + 1) ≤ w * h := Nat.mul_le_mul hw hh
  rw [ha', hb']
  have e1 : (2 * a + 1) * (2 * b + 1) = 4 * (a * b) + 2 * a + 2 * b + 1 := by ring
  have e2 : 2 * ((a + 1) * (b + 1)) = 2 * (a * b) + 2 * a + 2 * b + 2 := by ring
  rw [e1] at hmul
  rw [e2]
  omega

/-- C29: for 32-bit `width` and `height` that pass the guard
`width * height <= INT32_MAX / 3` of `initEncoder`, the size expression
`stride * vstride * 3 / 2` evaluated in `uint32_t` arithmetic, with the strides
computed by the alignment expression at alignment 2, equals the exact value
for width and height rounded up to the next multiple of 2, and that value is
below 2^32; when `x + 1` itself fits in 32 bits the aligned value is `x`
rounded up to the next multiple of 2. -/
theorem C29_conversion_buffer_size_does_not_wrap (w h : Nat) (hw : w < U32) (hh : h < U32)
    (hg : w * h ≤ INT32_MAX / 3) :
    bufferSize (alignStride w 2) (alignStride h 2) = roundUp2 w * roundUp2 h * 3 / 2 ∧
    roundUp2 w * roundUp2 h * 3 / 2 < U32 ∧
    (w + 1 < U32 → alignStride w 2 = roundUp2 w) ∧
    (h + 1 < U32 → alignStride h 2 = roundUp2 h) := by
  have hM : INT32_MAX / 3 = 715827882 := by decide
  have hU : U32 = 4294967296 := by decide
  rw [hM] at hg
  have hb := halves_product_bound w h hg
  have hprod : roundUp2 w * roundUp2 h = 4 * (((w + 1) / 2) * ((h + 1) / 2)) := by
    unfold roundUp2
    ring
  have hS : alignStride w 2 * alignStride h 2 = roundUp2 w * roundUp2 h := by
    rw [alignStride_two, alignStride_two]
    by_cases h1 : w + 1 < U32
    · by_cases h2 : h + 1 < U32
      · rw [Nat.mod_eq_of_lt h1, Nat.mod_eq_of_lt h2]
        rfl
      · have hh' : h = 4294967295 := by omega
        have hw0 : w = 0 := by
          rcases Nat.eq_zero_or_pos w with h0 | h0
          · exact h0
          · exfalso
            have : 1 * h ≤ w * h := Nat.mul_le_mul_right h h0
            omega
        rw [hw0]
        have e1 : (0 + 1) % U32 / 2 * 2 = 0 := by decide
        have e2 : roundUp2 0 = 0 := by decide
        rw [e1, e2, Nat.zero_mul, Nat.zero_mul]
    · have hw' : w = 4294967295 := by omega
      have hh0 : h = 0 := by
        rcases Nat.eq_zero_or_pos h with h0 | h0
        · exact h0
        · exfalso
          have : w * 1 ≤ w * h := Nat.mul_le_mul_left w h0
          omega
      rw [hh0]
      have e1 : (0 + 1) % U32 / 2 * 2 = 0 := by decide
      have e2 : roundUp2 0 = 0 := by decide
      rw [e1, e2, Nat.mul_zero, Nat.mul_zero]
  refine ⟨?_, ?_, ?_, ?_⟩
  · unfold bufferSize
    rw [hS, hprod, hU]
    rw [Nat.mod_eq_of_lt (by omega), Nat.mod_eq_of_lt (by omega)]
  · rw [hprod, hU]
    omega
  · intro h1
    rw [alignStride_two, Nat.mod_eq_of_lt h1]
    rfl
  · intro h2
    rw [alignStride_two, Nat.mod_eq_of_lt h2]
    rfl

/-- Witness for C29: the default picture size 320 x 240. -/
theorem C29_conversion_buffer_size_does_not_wrap_witness :
    bufferSize (alignStride 320 2) (alignStride 240 2) = roundUp2 320 * roundUp2 240 * 3 / 2 ∧
    roundUp2 320 * roundUp2 240 * 3 / 2 < U32 ∧
    (320 + 1 < U32 → alignStride 320 2 = roundUp2 320) ∧
    (240 + 1 < U32 → alignStride 240 2 = roundUp2 240) :=
  C29_conversion_buffer_size_does_not_wrap 320 240 (by decide) (by decide) (by decide)

/-- With an exact allocator, the state `initEncoder` leaves has, whenever it
has a context, a conversion buffer of the size computed from its picture size. -/
theorem initEncoder_buffer (s : State) (intf : Intf) (env : Env) (ha : AllocExact env) :
    (initEncoder s intf env).2.1.mCodecContext = true →
    (initEncoder s intf env).2.1.mConversionBuffer.size =
      bufferSize
        (alignStride (initEncoder s intf env).2.1.mSize.value.width
          (initEncoder s intf env).2.1.mStrideAlign)
        (alignStride (initEncoder s intf env).2.1.mSize.value.height
          (initEncoder s intf env).2.1.mStrideAlign) := by
  by_cases hok : (initEncoder s intf env).1 = .OK
  · obtain ⟨s3, cfg3, -, hs⟩ := initEncoder_ok hok
    rw [hs]
    intro _
    exact ha _
  · intro hc
    rw [(initEncoder_failed hok).1] at hc
    exact absurd hc (by decide)

/-- The part of `process` after the encoder check keeps context, picture size,
conversion buffer and alignment. -/
theorem processFrame_fixed (s : State) (intf : Intf) (env : Env) (w : C2Work)
    (tr : List Event) :
    (processFrame s intf env w tr).state.mCodecContext = s.mCodecContext ∧
    (processFrame s intf env w tr).state.mSize = s.mSize ∧
    (processFrame s intf env w tr).state.mConversionBuffer = s.mConversionBuffer ∧
    (processFrame s intf env w tr).state.mStrideAlign = s.mStrideAlign := by
  rcases processFrame_cases s intf env w tr with ⟨err, wk, ev, h, -⟩ | ⟨v, img, ev, -, -, -, -, h⟩
  · rw [h]
    exact ⟨rfl, rfl, rfl, rfl⟩
  · rw [h]
    obtain ⟨-, h1, h2, h3, h4, -⟩ := encodeFrame_fixed s intf env w (tr ++ ev) img
    exact ⟨h1, h2, h3, h4⟩

/-- With an exact allocator, `process` keeps the relation between picture size
and conversion buffer of a state with a context. -/
theorem process_buffer (s : State) (intf : Intf) (env : Env) (work : C2Work)
    (ha : AllocExact env)
    (hinv : s.mCodecContext = true →
      s.mConversionBuffer.size =
        bufferSize (alignStride s.mSize.value.width s.mStrideAlign)
          (alignStride s.mSize.value.height s.mStrideAlign)) :
    (process s intf env work).state.mCodecContext = true →
    (process s intf env work).state.mConversionBuffer.size =
      bufferSize
        (alignStride (process s intf env work).state.mSize.value.width
          (process s intf env work).state.mStrideAlign)
        (alignStride (process s intf env work).state.mSize.value.height
          (process s intf env work).state.mStrideAlign) := by
  have hsess : (sessionState s intf env).mCodecContext = true →
      (sessionState s intf env).mConversionBuffer.size =
        bufferSize
          (alignStride (sessionState s intf env).mSize.value.width
            (sessionState s intf env).mStrideAlign)
          (alignStride (sessionState s intf env).mSize.value.height
            (sessionState s intf env).mStrideAlign) := by
    unfold sessionState
    split
    · exact hinv
    · exact initEncoder_buffer s intf env ha
  by_cases hl : s.mSignalledError = true ∨ s.mSignalledOutputEos = true
  · rw [process_latched s intf env work hl]
    exact hinv
  · have he : s.mSignalledError = false := by
      cases h : s.mSignalledError
      · rfl
      · exact absurd (Or.inl h) hl
    have hs : s.mSignalledOutputEos = false := by
      cases h : s.mSignalledOutputEos
      · rfl
      · exact absurd (Or.inr h) hl
    by_cases hi : s.mCodecContext = true ∨ (initEncoder s intf env).1 = .OK
    · rw [process_session s intf env work he hs hi]
      obtain ⟨h1, h2, h3, h4⟩ := processFrame_fixed (sessionState s intf env) intf env
        (beginWork work) (sessionTrace s intf env)
      rw [h1, h2, h3, h4]
      exact hsess
    · have hc : s.mCodecContext = false := by
        cases h : s.mCodecContext
        · rfl
        · exact absurd (Or.inl h) hi
      have hf : (initEncoder s intf env).1 ≠ .OK := fun h => hi (Or.inr h)
      rw [process_init_failed s intf env work he hs hc hf]
      exact initEncoder_buffer s intf env ha

/-- In every reachable state with a context, the conversion buffer has the size
computed from the picture size of the state. -/
theorem reachable_buffer {s : State} (hr : Reachable s) :
    s.mCodecContext = true →
    s.mConversionBuffer.size =
      bufferSize (alignStride s.mSize.value.width s.mStrideAlign)
        (alignStride s.mSize.value.height s.mStrideAlign) := by
  induction hr with
  | construct => intro h; exact absurd h (by decide)
  | onInit s intf env _ ha _ => exact initEncoder_buffer s intf env ha
  | process s intf env work _ ha ih => exact process_buffer s intf env work ha ih
  | onStop s _ _ =>
    intro h
    have : (onStop s).2.1.mCodecContext = false := by
      show (onRelease s).1.mCodecContext = false
      rw [onRelease_state]
    rw [this] at h
    exact absurd h (by decide)
  | onReset s _ _ =>
    intro h
    have : (onReset s).1.mCodecContext = false := by
      show (onRelease s).1.mCodecContext = false
      rw [onRelease_state]
    rw [this] at h
    exact absurd h (by decide)
  | onFlush_sm s _ _ =>
    intro h
    have : (onFlush_sm s).2.1.mCodecContext = false := by
      show (onRelease s).1.mCodecContext = false
      rw [onRelease_state]
    rw [this] at h
    exact absurd h (by decide)
  | onRelease s _ _ =>
    intro h
    rw [onRelease_state] at h
    have h' : false = true := h
    exact absurd h' (by decide)
  | drain s drainMode _ ih =>
    have : (drain s drainMode).2 = s := by
      unfold drain
      split_ifs <;> rfl
    rw [this]
    exact ih

/-- C30: let `s` be a state that the lifecycle operations and `process` can
produce from the constructed component with allocators that return exactly the
requested size, and let a `process` call pass its encoder check (a context
exists or `initEncoder` succeeds). Then the state `process` goes on with has a
conversion buffer of exactly `stride * vstride * 3 / 2` bytes for its picture
size, so for every YUV 4:2:0 view that is not column-contiguous format
adaptation takes the copy path (it calls `ImageCopy`) and never the "too small"
rejection, which makes no call. -/
theorem C30_conversion_buffer_is_never_too_small (s : State) (intf : Intf) (env : Env)
    (hr : Reachable s) (ha : AllocExact env)
    (hi : s.mCodecContext = true ∨ (initEncoder s intf env).1 = .OK) :
    (sessionState s intf env).mConversionBuffer.size =
      bufferSize
        (alignStride (sessionState s intf env).mSize.value.width
          (sessionState s intf env).mStrideAlign)
        (alignStride (sessionState s intf env).mSize.value.height
          (sessionState s intf env).mStrideAlign) ∧
    ∀ v : InputBuffer, v.layoutType = .TYPE_YUV → v.isYUV420 = true →
      ¬ (v.planeY.colInc = 1 ∧ v.planeU.colInc = 1 ∧ v.planeV.colInc = 1) →
      (adaptFrame (sessionState s intf env) env v).2 = [Event.ImageCopy] ∧
      (env.imageCopyOk = true → (adaptFrame (sessionState s intf env) env v).1.isSome = true) := by
  have hctx := (sessionState_keeps s intf env hi).2.2.2.2
  have hsize : (sessionState s intf env).mConversionBuffer.size =
      bufferSize
        (alignStride (sessionState s intf env).mSize.value.width
          (sessionState s intf env).mStrideAlign)
        (alignStride (sessionState s intf env).mSize.value.height
          (sessionState s intf env).mStrideAlign) := by
    revert hctx
    unfold sessionState
    split
    · exact reachable_buffer hr
    · exact initEncoder_buffer s intf env ha
  refine ⟨hsize, ?_⟩
  intro v hyuv h420 hcol
  unfold adaptFrame
  simp only [hyuv, h420, Bool.not_true, Bool.false_eq_true, if_false]
  rw [if_neg hcol, if_pos (Nat.le_of_eq hsize.symm)]
  cases hcopy : env.imageCopyOk
  · exact ⟨rfl, fun h => absurd h (by decide)⟩
  · exact ⟨rfl, fun _ => rfl⟩

/-- Witness for C30: the state after a first frame, and a view whose chroma
planes are interleaved. -/
theorem C30_conversion_buffer_is_never_too_small_witness :
    (sessionState afterFirstFrame.state defaultIntf (sampleEnv [])).mConversionBuffer.size =
      115200 ∧
    (adaptFrame (sessionState afterFirstFrame.state defaultIntf (sampleEnv [])) (sampleEnv [])
      { sampleBuffer with planeU := ⟨2, 320⟩, planeV := ⟨2, 320⟩ }).2 = [Event.ImageCopy] :=
  have h := C30_conversion_buffer_is_never_too_small afterFirstFrame.state defaultIntf
    (sampleEnv [])
    (Reachable.process construct defaultIntf (sampleEnv [samplePacket 0])
      (sampleWork 0 0 [sampleBuffer]) Reachable.construct (fun _ => rfl))
    (fun _ => rfl) (Or.inl (by decide!))
  ⟨h.1.trans (by decide!),
    (h.2 { sampleBuffer with planeU := ⟨2, 320⟩, planeV := ⟨2, 320⟩ } rfl rfl (by decide)).1⟩

end C2SoftVpxEnc
